import Mathlib

/-!
CIMAMPLIFY-UI: route guard and session bookkeeping.

A shallow embedding of the client-side access-control logic of the
application: the `ProtectedRoute` guard, the `SecureAPI` CSRF helper of the
payment page, the login, logout, forgot-password and registration handlers,
the field validators, and the request builders and validation schemas of the
upload and profile forms.  Browser state (the two storages, `document.cookie`,
the helper's in-memory token) is an explicit `World` that every handler
receives and returns; the answers of the backend are inputs of the handlers.
-/

set_option autoImplicit false

namespace CimAmplify

/-! ## Browser state -/

/-- A Web Storage area: every key holds a string or is missing (`getItem`
returns `null`). -/
@[ext] structure Storage where
  get : String → Option String

namespace Storage

/-- The storage area without any key. -/
def empty : Storage := ⟨fun _ => none⟩

/-- The call `storage.getItem(key)`. -/
def getItem (s : Storage) (key : String) : Option String := s.get key

/-- The call `storage.setItem(key, value)`. -/
def setItem (s : Storage) (key value : String) : Storage :=
  ⟨fun k => if k = key then some value else s.get k⟩

/-- The call `storage.removeItem(key)`. -/
def removeItem (s : Storage) (key : String) : Storage :=
  ⟨fun k => if k = key then none else s.get k⟩

/-- The call `storage.clear()`. -/
def clear (_s : Storage) : Storage := empty

end Storage

/-- JavaScript truthiness of a value that is a string or `null`/`undefined`:
only a non-empty string is truthy. -/
def truthy : Option String → Bool
  | some s => decide (s ≠ "")
  | none => false

/-- The conversion `String(v)` that `setItem` and template strings apply to a
value that is a string, `null` (from `getItem`) or `undefined` (a missing
property). -/
def jsString (missing : String) : Option String → String
  | some s => s
  | none => missing

/-- An HTTP request as the client hands it to `axios` or `fetch`; the body is
not part of the model.  In `headers` a later entry overrides an earlier one of
the same name, as in an object spread. -/
structure Request where
  method : String
  url : String
  headers : List (String × String)
  /-- Whether cookies are sent along (`withCredentials: true`,
  `credentials: "include"`). -/
  withCredentials : Bool
  deriving DecidableEq, Repr

/-- The value a request carries for a header name, if any. -/
def Request.header (r : Request) (name : String) : Option String :=
  (r.headers.reverse.find? (fun h => h.1 == name)).map Prod.snd

/-- A transient notification of `react-hot-toast`. -/
inductive Toast where
  | success (msg : String)
  | error (msg : String)
  deriving DecidableEq, Repr

/-- What the backend answers to one request: the request fails on the
network, or a response with a status code and a body arrives. -/
inductive HttpOutcome (α : Type) where
  | networkError
  | response (status : Nat) (data : α)

/-- The default `validateStatus` of axios: a response resolves the promise
iff its status is 2xx; any other status rejects it. -/
def axiosDefault {α : Type} : HttpOutcome α → Option α
  | .networkError => none
  | .response status data => if 200 ≤ status ∧ status < 300 then some data else none

/-- With `validateStatus: () => true` axios resolves for every response and
rejects only when no response arrives. -/
def axiosAnyStatus {α : Type} : HttpOutcome α → Option (Nat × α)
  | .networkError => none
  | .response status data => some (status, data)

/-- The process-wide state the handlers read and write, and the log of the
effects they have had on the outside. -/
structure World where
  localStorage : Storage
  sessionStorage : Storage
  /-- The string `document.cookie`. -/
  cookie : String
  /-- The private static field `SecureAPI.#csrfToken`. -/
  csrfToken : Option String
  /-- The requests sent so far, oldest first. -/
  requests : List Request
  /-- The paths navigated to so far, oldest first. -/
  navigations : List String
  /-- The notifications shown so far, oldest first. -/
  toasts : List Toast

namespace World

/-- Sends a request. -/
def send (w : World) (r : Request) : World := { w with requests := w.requests ++ [r] }

/-- The call `navigate(path)`. -/
def navigate (w : World) (path : String) : World :=
  { w with navigations := w.navigations ++ [path] }

/-- Shows a notification. -/
def toast (w : World) (t : Toast) : World := { w with toasts := w.toasts ++ [t] }

/-- The call `localStorage.setItem(key, value)`. -/
def setLocal (w : World) (key value : String) : World :=
  { w with localStorage := w.localStorage.setItem key value }

end World

/-- Modelled from the spec: the profile record the backend returns (data model
of the spec, `UserProfile`); the source reads its fields without declaring a
type. -/
structure UserProfile where
  role : String
  isPaymentVerified : Bool
  isEmailVerified : Bool
  email : String
  name : String
  deriving DecidableEq, Repr

/-- The base host of the backend, fixed in the code. -/
def BACKEND_URL : String := "https://advisor-seller-backend.vercel.app"

/-! ## ProtectedRoute.jsx -/

namespace ProtectedRoute

/-- The props of the guard.  A prop that the route declaration omits is
`undefined`, here `none`. -/
structure Props where
  requiredRole : Option String
  requiresPayment : Option Bool

/-- The destructuring default `requiresPayment = false`. -/
def Props.paymentRequired (p : Props) : Bool := p.requiresPayment.getD false

/-- The three `useState` cells of the component. -/
structure State where
  loading : Bool
  user : Option UserProfile
  authorized : Bool
  deriving DecidableEq, Repr

/-- The initial values of the `useState` cells. -/
def initialState : State := { loading := true, user := none, authorized := false }

/-- What the component returns from a render. -/
inductive Rendered where
  | spinner
  | navigate (path : String)
  | children
  deriving DecidableEq, Repr

/-- The profile request of `checkAuth`. -/
def profileRequest (token : String) : Request :=
  { method := "GET", url := BACKEND_URL ++ "/api/auth/profile",
    headers := [("Authorization", "Bearer " ++ token)], withCredentials := false }

/-- The function `checkAuth`, with the answer of the profile endpoint as an
input.  Returns the world and the component state once the promise has
settled (the `finally` block included). -/
def checkAuth (p : Props) (net : HttpOutcome UserProfile) (w : World) (s : State) :
    World × State :=
  match w.localStorage.getItem "access_token" with
  | none => (w, { s with loading := false })
  | some token =>
    if token = "" then (w, { s with loading := false })
    else
      let w1 := w.send (profileRequest token)
      match axiosDefault net with
      | none => (w1, { s with loading := false })
      | some userData =>
        let s1 := { s with user := some userData }
        if truthy p.requiredRole = true ∧ some userData.role ≠ p.requiredRole then
          (w1, { s1 with loading := false })
        else if p.paymentRequired = true ∧ userData.role = "advisor"
            ∧ userData.isPaymentVerified = false then
          (w1, { s1 with loading := false })
        else
          (w1, { s1 with authorized := true, loading := false })

/-- The body of the component after the hooks: what it renders in a given
state. -/
def render (p : Props) (s : State) : Rendered :=
  if s.loading = true then .spinner
  else
    match s.user with
    | none =>
      if p.requiredRole = some "advisor" then .navigate "/advisor-login"
      else if p.requiredRole = some "seller" then .navigate "/seller-login"
      else .navigate "/"
    | some user =>
      if truthy p.requiredRole = true ∧ some user.role ≠ p.requiredRole then
        if user.role = "advisor" then .navigate "/advisor-dashboard"
        else if user.role = "seller" then .navigate "/seller-dashboard"
        else .navigate "/"
      else if p.paymentRequired = true ∧ user.role = "advisor"
          ∧ user.isPaymentVerified = false then
        .navigate "/advisor-payments"
      else if s.authorized = false then .navigate "/"
      else .children

/-- Mounting the guard: the effect runs `checkAuth` once, from the initial
state. -/
def mount (p : Props) (net : HttpOutcome UserProfile) (w : World) : World × State :=
  checkAuth p net w initialState

/-- The render of the guard once `checkAuth` has finished. -/
def finalRender (p : Props) (net : HttpOutcome UserProfile) (w : World) : Rendered :=
  render p (mount p net w).2

end ProtectedRoute

/-! ## JavaScript strings -/

/-- The characters that `String.prototype.trim` strips and that `\s` matches:
the WhiteSpace and LineTerminator code points of ECMAScript. -/
def isJsWhitespace (c : Char) : Bool :=
  let n := c.toNat
  (9 ≤ n && n ≤ 13) || n == 32 || n == 160 || n == 5760 || (8192 ≤ n && n ≤ 8202)
    || n == 8232 || n == 8233 || n == 8239 || n == 8287 || n == 12288 || n == 65279

/-- The pieces of `s.split(sep)` for a one-character separator, on the list
of characters; the result always has at least one piece. -/
def splitChars (sep : Char) : List Char → List (List Char)
  | [] => [[]]
  | c :: cs =>
    if c = sep then [] :: splitChars sep cs
    else
      match splitChars sep cs with
      | [] => [[c]]
      | piece :: pieces => (c :: piece) :: pieces

/-- The call `s.split(sep)` for a one-character separator. -/
def jsSplit (s : String) (sep : Char) : List String :=
  (splitChars sep s.data).map String.mk

/-- The call `s.trim()`. -/
def jsTrim (s : String) : String :=
  String.mk ((s.data.dropWhile isJsWhitespace).reverse.dropWhile isJsWhitespace).reverse

/-- The property `s.length`: the number of UTF-16 code units. -/
def jsLength (s : String) : Nat :=
  (s.data.map (fun c => if c.toNat < 65536 then 1 else 2)).sum

/-- The expression `a || b` on values that are strings or `null`. -/
def jsOr (a b : Option String) : Option String := if truthy a = true then a else b

/-- The value of `v` if it is truthy: the branch `if (v) { ... v ... }`. -/
def truthyValue : Option String → Option String
  | some s => if s = "" then none else some s
  | none => none

/-! ## AdvisorPayments.jsx: the CSRF helper -/

namespace SecureAPI

/-- The method `getCsrfTokenFromCookie`, on the string `document.cookie`.
The built-in `decodeURIComponent` is a parameter; it throws on a malformed
escape sequence, here `Except.error`.  The destructuring
`[name, value] = cookie.trim().split('=')` keeps the first two pieces, and
`value` is `undefined` when there is no `=`. -/
def getCsrfTokenFromCookie (decodeURIComponent : String → Except String String)
    (cookie : String) : Except String (Option String) :=
  go (jsSplit cookie ';')
where
  /-- The `for ... of` loop over the cookies. -/
  go : List String → Except String (Option String)
    | [] => .ok none
    | cookie :: cookies =>
      let parts := jsSplit (jsTrim cookie) '='
      let name := parts.head?
      let value := parts.tail.head?
      if name = some "csrf-token" then
        (decodeURIComponent (jsString "undefined" value)).map some
      else go cookies

/-- The method `getCSRFToken`: the result (the token, or the thrown error) and
the world with the in-memory cache updated. -/
def getCSRFToken (decodeURIComponent : String → Except String String) (w : World) :
    Except String String × World :=
  match getCsrfTokenFromCookie decodeURIComponent w.cookie with
  | .error e => (.error e, w)
  | .ok cookieCsrfToken =>
    match truthyValue cookieCsrfToken with
    | some token => (.ok token, { w with csrfToken := some token })
    | none =>
      match truthyValue (w.localStorage.getItem "x-csrf-token") with
      | some token => (.ok token, { w with csrfToken := some token })
      | none =>
        match truthyValue w.csrfToken with
        | some token => (.ok token, w)
        | none => (.error "No CSRF token available. Please login again.", w)

/-- The method `clearCsrfToken`. -/
def clearCsrfToken (w : World) : World :=
  { w with csrfToken := none, sessionStorage := w.sessionStorage.removeItem "csrfToken" }

/-- The method `setCsrfToken`. -/
def setCsrfToken (token : String) (w : World) : World :=
  { w with csrfToken := some token,
           sessionStorage := w.sessionStorage.setItem "csrfToken" token }

/-- The `options` argument of `secureRequest`, as the callers pass it to
`fetch`. -/
structure Options where
  method : Option String
  headers : List (String × String)

/-- The default `options = {}`. -/
def Options.default : Options := { method := none, headers := [] }

/-- The options of the payment calls: `{ method: "POST", body: ... }`, without
headers. -/
def Options.post : Options := { method := some "POST", headers := [] }

/-- The access token `secureRequest` looks up in the two storages. -/
def findToken (w : World) : Option String :=
  jsOr (jsOr (jsOr (w.localStorage.getItem "access_token") (w.localStorage.getItem "token"))
    (w.sessionStorage.getItem "access_token")) (w.sessionStorage.getItem "token")

/-- The object `defaultHeaders` of `secureRequest`. -/
def defaultHeaders (csrfToken : String) (token : Option String) : List (String × String) :=
  [("Content-Type", "application/json"), ("x-csrf-token", csrfToken)] ++
    (match truthyValue token with
     | some t => [("Authorization", "Bearer " ++ t)]
     | none => [])

/-- The method `secureRequest`: the request handed to `fetch` (or the error
thrown before any request is made) and the world afterwards. -/
def secureRequest (decodeURIComponent : String → Except String String) (url : String)
    (options : Options) (w : World) : Except String Request × World :=
  match getCSRFToken decodeURIComponent w with
  | (.error e, w1) => (.error e, w1)
  | (.ok csrfToken, w1) =>
    let token := findToken w1
    let request : Request :=
      { method := options.method.getD "GET", url := BACKEND_URL ++ url,
        headers := defaultHeaders csrfToken token ++ options.headers,
        withCredentials := true }
    (.ok request, w1.send request)

end SecureAPI

/-! ## Regular expressions of the validators -/

/-- How often an element of a pattern repeats: once, or one or more times
(`+`). -/
inductive Quant where
  | one
  | plus
  deriving DecidableEq, Repr

/-- One element of a pattern: a character class with its quantifier. -/
structure Atom where
  cls : Char → Bool
  quant : Quant

/-- Whether a sequence of atoms matches a whole string (a pattern anchored by
`^` and `$`), with the backtracking choice of `+` made explicit. -/
def matchAtoms : List Atom → List Char → Bool
  | [], [] => true
  | [], _ :: _ => false
  | _ :: _, [] => false
  | a :: rest, c :: cs =>
    a.cls c && (match a.quant with
      | .one => matchAtoms rest cs
      | .plus => matchAtoms rest cs || matchAtoms (a :: rest) cs)

/-- The class `[^\s@]`. -/
def notSpaceOrAt (c : Char) : Bool := !(isJsWhitespace c) && c != '@'

/-- The pattern `/^[^\s@]+@[^\s@]+\.[^\s@]+$/` of `validateEmail`. -/
def emailRegex : List Atom :=
  [⟨notSpaceOrAt, .plus⟩, ⟨fun c => c == '@', .one⟩, ⟨notSpaceOrAt, .plus⟩,
   ⟨fun c => c == '.', .one⟩, ⟨notSpaceOrAt, .plus⟩]

/-! ## AdvisorAuth.jsx: the advisor login page -/

namespace AdvisorAuth

/-- The function `validateEmail`; the empty string means valid. -/
def validateEmail (value : String) : String :=
  if value = "" then "Email is required"
  else if matchAtoms emailRegex value.data = false then "Please enter a valid email address"
  else ""

/-- The function `validatePassword`; the empty string means valid. -/
def validatePassword (value : String) : String :=
  if value = "" then "Password is required"
  else if jsLength value < 8 then "Password must be at least 8 characters long"
  else ""

/-- The effect the page runs when it mounts: three `setItem` calls.
`JSON.stringify(\x7b\x7d)` is the two-character string of the empty object. -/
def mountEffect (w : World) : World :=
  ((w.setLocal "access_token" "").setLocal "refresh_token" "").setLocal "user" "\x7b\x7d"

/-- The body of a login response, as far as the handler reads it; a missing
property is `none`. -/
structure LoginData where
  access_token : Option String
  refresh_token : Option String
  user : Option UserProfile
  message : Option String

/-- The body of a response of the CSRF-token endpoint, as far as the handler
reads it. -/
structure CsrfData where
  csrfToken : Option String
  message : Option String

/-- The state cells `handleSubmit` writes. -/
structure FormState where
  emailError : String
  passwordError : String
  loading : Bool
  deriving DecidableEq, Repr

/-- The login request of `handleSubmit`. -/
def loginRequest : Request :=
  { method := "POST", url := BACKEND_URL ++ "/api/auth/login", headers := [],
    withCredentials := true }

/-- The CSRF-token request of `handleSubmit`. -/
def csrfRequest : Request :=
  { method := "GET", url := BACKEND_URL ++ "/api/auth/csrf-token", headers := [],
    withCredentials := true }

/-- The stores of `handleSubmit` after a successful login: `access_token`
always (`setItem` converts a missing property to the string `undefined`),
`refresh_token` and `user` only if the response has them. -/
def storeLogin (stringify : UserProfile → String) (data : LoginData) (w : World) : World :=
  let w3 := w.setLocal "access_token" (jsString "undefined" data.access_token)
  let w4 := match truthyValue data.refresh_token with
    | some refresh => w3.setLocal "refresh_token" refresh
    | none => w3
  match data.user with
  | some user => w4.setLocal "user" (stringify user)
  | none => w4

/-- The function `handleSubmit` for the entered `email` and `password`, with
the answers of the login and CSRF-token endpoints as inputs.  The built-in
`JSON.stringify` is a parameter.  Takes the world and the form state before
the call and returns them as they are once the handler has finished (the
`finally` block included). -/
def handleSubmit (stringify : UserProfile → String) (email password : String)
    (login : HttpOutcome LoginData) (csrf : HttpOutcome CsrfData) (w : World)
    (s : FormState) : World × FormState :=
  let emailValidation := validateEmail email
  let passwordValidation := validatePassword password
  let s1 : FormState := { s with emailError := emailValidation,
                                 passwordError := passwordValidation }
  if emailValidation = "" ∧ passwordValidation = "" then
    let done : FormState := { s1 with loading := false }
    let w1 := w.send loginRequest
    match axiosAnyStatus login with
    | none => (w1.toast (.error "Network error. Please try again later."), done)
    | some (status, data) =>
      if status = 200 ∨ status = 201 then
        let w2 := w1.toast (.success "Login successful ✅")
        let w5 := storeLogin stringify data w2
        let w6 := w5.send csrfRequest
        match axiosAnyStatus csrf with
        | none => (w6.toast (.error "Network error. Please try again later."), done)
        | some (csrfStatus, csrfData) =>
          let w7 :=
            if csrfStatus = 200 ∨ csrfStatus = 201 then
              w6.setLocal "x-csrf-token" (jsString "undefined" csrfData.csrfToken)
            else
              w6.toast (.error ((truthyValue csrfData.message).getD "Failed to fetch CSRF token"))
          (w7.navigate "/advisor-payments", done)
      else if status = 401 then
        (w1.toast (.error "Incorrect email or password ❌"), done)
      else
        (w1.toast (.error ((truthyValue data.message).getD "Something went wrong")), done)
  else
    (w, s1)

end AdvisorAuth

/-! ## auth.jsx: the generic login page -/

namespace Auth

/-- Mounting the generic login page: the component declares state cells and a
navigation hook only and registers no effect, so the world stays as it is. -/
def mountEffect (w : World) : World := w

end Auth

/-! ## AdvisorUpload.jsx, AdvisorForm.jsx, SellerForm.jsx: the POST calls -/

namespace AdvisorUpload

/-- The body of an upload response, as far as the caller reads it. -/
structure UploadData where
  url : Option String

/-- The request `handleFileUpload` posts to `endpoint`; the template string
renders a missing token as `null`. -/
def uploadRequest (endpoint : String) (w : World) : Request :=
  { method := "POST", url := endpoint,
    headers := [("Content-Type", "multipart/form-data"),
      ("Authorization", "Bearer " ++ jsString "null" (w.localStorage.getItem "access_token"))],
    withCredentials := false }

/-- The function `handleFileUpload`, with the answer of the endpoint as an
input: the returned `response.data.url`, or `none` when the promise rejects,
and the world afterwards. -/
def handleFileUpload (endpoint : String) (net : HttpOutcome UploadData) (w : World) :
    Option (Option String) × World :=
  let w1 := w.send (uploadRequest endpoint w)
  match axiosDefault net with
  | none => (none, w1)
  | some data => (some data.url, w1)

/-- The final profile request of `onSubmit`. -/
def profileRequest (w : World) : Request :=
  { method := "POST", url := BACKEND_URL ++ "/api/advisors/profile",
    headers := [("Content-Type", "application/json"),
      ("Authorization", "Bearer " ++ jsString "null" (w.localStorage.getItem "access_token"))],
    withCredentials := false }

end AdvisorUpload

namespace AdvisorForm

/-- The request `handleFileUpload` posts to `endpoint`. -/
def uploadRequest (endpoint : String) (w : World) : Request :=
  { method := "POST", url := endpoint,
    headers := [("Content-Type", "multipart/form-data"),
      ("Authorization", "Bearer " ++ jsString "null" (w.localStorage.getItem "access_token"))],
    withCredentials := false }

/-- The profile request of `onSubmit`. -/
def profileRequest (w : World) : Request :=
  { method := "POST", url := BACKEND_URL ++ "/api/advisors/profile",
    headers := [("Authorization",
      "Bearer " ++ jsString "null" (w.localStorage.getItem "access_token"))],
    withCredentials := false }

end AdvisorForm

namespace SellerForm

/-- The seller-profile request of `handleSubmit`. -/
def profileRequest (token : String) : Request :=
  { method := "POST", url := BACKEND_URL ++ "/api/sellers/profile",
    headers := [("Authorization", "Bearer " ++ token)], withCredentials := false }

/-- The body of a seller-profile response, as far as the handler reads it. -/
structure ProfileResponse where
  message : Option String

/-- The function `handleSubmit`, with the answer of the endpoint as an input;
assigning `window.location.href` is recorded as a navigation. -/
def handleSubmit (net : HttpOutcome ProfileResponse) (w : World) : World :=
  match truthyValue (w.localStorage.getItem "access_token") with
  | none => (w.toast (.error "Please login first to create profile.")).navigate "/seller-login"
  | some token =>
    let w1 := w.send (profileRequest token)
    match axiosAnyStatus net with
    | none => w1.toast (.error "Something went wrong. Please try again later.")
    | some (status, data) =>
      if status = 201 ∨ status = 200 then
        (w1.toast (.success
          "Seller profile created successfully! Redirecting to dashboard...")).navigate
            "/seller-dashboard"
      else
        w1.toast (.error
          ((truthyValue data.message).getD "Failed to create profile. Please try again."))

end SellerForm

/-! ## The cookies a page sees -/

/-- The text `name=value` of one cookie in `document.cookie`. -/
def cookieEntry (c : String × String) : String := c.1 ++ "=" ++ c.2

/-- The string `document.cookie` of a page that sees the given cookies: the
entries `name=value`, joined by a semicolon and a space. -/
def cookieString : List (String × String) → String
  | [] => ""
  | c :: [] => cookieEntry c
  | c :: d :: rest => cookieEntry c ++ "; " ++ cookieString (d :: rest)

/-- The characters a cookie name or an encoded cookie value is made of: any
but the separators `;` and `=` and white space (RFC 6265 is stricter; the
output of `encodeURIComponent` has none of them). -/
def cookieChar (c : Char) : Bool := c != ';' && c != '=' && !(isJsWhitespace c)

/-- A cookie whose name and encoded value consist of cookie characters. -/
def cookieOk (c : String × String) : Bool := c.1.data.all cookieChar && c.2.data.all cookieChar

/-! ## Sample states -/

/-- A fresh browser: empty storages, no cookies, nothing sent yet. -/
def emptyWorld : World :=
  { localStorage := Storage.empty, sessionStorage := Storage.empty, cookie := "",
    csrfToken := none, requests := [], navigations := [], toasts := [] }

/-- A browser in which a previous login stored the access token `T`. -/
def loggedInWorld : World := emptyWorld.setLocal "access_token" "T"

/-- A browser in which a previous login stored the access token `T` and the
CSRF token `C`. -/
def csrfWorld : World := loggedInWorld.setLocal "x-csrf-token" "C"

/-- A browser with a stored and a cached CSRF token. -/
def storedWorld : World := { csrfWorld with csrfToken := some "M" }

/-- A browser with a cached CSRF token only. -/
def cachedWorld : World := { emptyWorld with csrfToken := some "M" }

/-- A browser with a `csrf-token` cookie besides a stored and a cached CSRF
token. -/
def cookieWorld : World :=
  { storedWorld with cookie := cookieString [("theme", "dark"), ("csrf-token", "abc")] }

/-- An advisor whose payment is not verified. -/
def unpaidAdvisor : UserProfile :=
  { role := "advisor", isPaymentVerified := false, isEmailVerified := true,
    email := "ann@example.com", name := "Ann" }

/-- A stand-in for `JSON.stringify` on sample data: it keeps the address
only. -/
def sampleStringify (u : UserProfile) : String := u.email

/-- A login response with an access token and a user, without a refresh
token. -/
def sampleLogin : AdvisorAuth.LoginData :=
  { access_token := some "T", refresh_token := none, user := some unpaidAdvisor,
    message := none }

/-- The form state of the login page before the first submit. -/
def AdvisorAuth.initialForm : AdvisorAuth.FormState :=
  { emailError := "", passwordError := "", loading := false }

/-! ## ProtectedRoute.jsx: the renders of a mounted guard -/

namespace ProtectedRoute

/-- The renders of a guard that mounts in world `w`: React renders the
component with the initial state, runs the effect (`checkAuth`) after that
render is committed, and renders again once the state updates of `checkAuth`
have been applied.  Renders between the first and the last are left out. -/
def renderTrace (p : Props) (net : HttpOutcome UserProfile) (w : World) : List Rendered :=
  [render p initialState, render p (mount p net w).2]

end ProtectedRoute

/-! ## AdvisorDashboard.jsx and SellerDashboard.jsx: logout -/

namespace AdvisorDashboard

/-- The logout request of `handleLogout`. -/
def logoutRequest (token : String) : Request :=
  { method := "POST", url := BACKEND_URL ++ "/api/auth/logout",
    headers := [("Authorization", "Bearer " ++ token)], withCredentials := false }

/-- The function `handleLogout`, with the answer of the logout endpoint as an
input; a rejected request is caught and logged, and the `finally` block runs
in every case. -/
def handleLogout (_net : HttpOutcome Unit) (w : World) : World :=
  let w1 := match truthyValue (w.localStorage.getItem "access_token") with
    | some token => w.send (logoutRequest token)
    | none => w
  let w2 := { w1 with localStorage := w1.localStorage.clear,
                      sessionStorage := w1.sessionStorage.clear }
  (w2.toast (.success "Logged out successfully!")).navigate "/advisor-login"

end AdvisorDashboard

namespace SellerDashboard

/-- The logout request of `handleLogout`; the template string renders a
missing token as `null`. -/
def logoutRequest (w : World) : Request :=
  { method := "POST", url := BACKEND_URL ++ "/api/auth/logout",
    headers := [("Authorization",
      "Bearer " ++ jsString "null" (w.localStorage.getItem "access_token"))],
    withCredentials := false }

/-- The name part of one piece of `document.cookie`:
`eqPos > -1 ? cookie.substr(0, eqPos) : cookie`. -/
def cookieName (cookie : String) : String :=
  if '=' ∈ cookie.data then String.mk (cookie.data.takeWhile (fun c => c != '=')) else cookie

/-- The function `handleLogout`, with the answer of the logout endpoint as an
input.  The setter of `document.cookie` is a parameter: it takes the assigned
string and the cookies so far.  The redirect that `setTimeout` schedules is
recorded as a navigation. -/
def handleLogout (assignCookie : String → String → String) (_net : HttpOutcome Unit)
    (w : World) : World :=
  let w1 := w.send (logoutRequest w)
  let cookies := jsSplit w1.cookie ';'
  let cleared := cookies.foldl
    (fun jar cookie =>
      assignCookie (cookieName cookie ++ "=;expires=Thu, 01 Jan 1970 00:00:00 GMT;path=/") jar)
    w1.cookie
  let w2 := { w1 with cookie := cleared }
  (w2.toast (.success "Logged out successfully")).navigate "/seller-login"

end SellerDashboard

/-! ## The validators of the login, forgot-password and register forms -/

/-- The class `[A-Z]`. -/
def isUpperAZ (c : Char) : Bool := 65 ≤ c.toNat && c.toNat ≤ 90

/-- The class `[a-z]`. -/
def isLowerAZ (c : Char) : Bool := 97 ≤ c.toNat && c.toNat ≤ 122

/-- The class `[0-9]`. -/
def isDigit09 (c : Char) : Bool := 48 ≤ c.toNat && c.toNat ≤ 57

/-- The class of symbols in `checkPasswordStrength`: `! @ # $ % ^ & * ( ) , . ? " :`,
the two braces, `|`, `<` and `>`. -/
def isSymbol (c : Char) : Bool :=
  c ∈ ['!', '@', '#', '$', '%', '^', '&', '*', '(', ')', ',', '.', '?', '"', ':', '\x7b',
    '\x7d', '|', '<', '>']

/-- The call `regex.test(value)` for a pattern that is a single character
class, not anchored: some character of the string is in the class. -/
def testClass (cls : Char → Bool) (value : String) : Bool := value.data.any cls

/-- Modelled after the words of the spec: an address without white space,
with exactly one `@` that has a non-empty part before it, and after it a
domain with a `.` that is neither its first nor its last character. -/
def EmailShape (s : List Char) : Prop :=
  (∀ c ∈ s, isJsWhitespace c = false) ∧
  ∃ loc dom, s = loc ++ '@' :: dom ∧ '@' ∉ loc ∧ '@' ∉ dom ∧ loc ≠ [] ∧
    ∃ b c, dom = b ++ '.' :: c ∧ b ≠ [] ∧ c ≠ []

namespace Auth

/-- The function `validateEmail` of auth.jsx; the empty string means valid. -/
def validateEmail (value : String) : String :=
  if value = "" then "Email is required"
  else if matchAtoms emailRegex value.data = false then "Please enter a valid email address"
  else ""

/-- The function `validatePassword` of auth.jsx; the empty string means
valid. -/
def validatePassword (value : String) : String :=
  if value = "" then "Password is required"
  else if jsLength value < 8 then "Password must be at least 8 characters long"
  else ""

/-- The counter `strength` of `checkPasswordStrength` after the five tests. -/
def strength (value : String) : Nat :=
  (if 8 ≤ jsLength value then 1 else 0) + (if testClass isUpperAZ value then 1 else 0)
    + (if testClass isLowerAZ value then 1 else 0) + (if testClass isDigit09 value then 1 else 0)
    + (if testClass isSymbol value then 1 else 0)

/-- The function `checkPasswordStrength` (the same text in auth.jsx and
AdvisorAuth.jsx). -/
def checkPasswordStrength (value : String) : String :=
  if strength value ≤ 2 then "Weak"
  else if strength value = 3 ∨ strength value = 4 then "Medium"
  else if strength value = 5 then "Strong"
  else ""

/-- The state cells `handleSubmit` writes. -/
structure FormState where
  emailError : String
  passwordError : String
  deriving DecidableEq, Repr

/-- The login request of `handleSubmit`. -/
def loginRequest : Request :=
  { method := "POST", url := BACKEND_URL ++ "/api/auth/login", headers := [],
    withCredentials := false }

/-- The function `handleSubmit` of auth.jsx for the entered `email` and
`password`, with the answer of the login endpoint as an input.  The built-in
`JSON.stringify` is a parameter. -/
def handleSubmit (stringify : UserProfile → String) (email password : String)
    (login : HttpOutcome AdvisorAuth.LoginData) (w : World) : World × FormState :=
  let emailValidation := validateEmail email
  let passwordValidation := validatePassword password
  let s1 : FormState := { emailError := emailValidation, passwordError := passwordValidation }
  if emailValidation = "" ∧ passwordValidation = "" then
    let w1 := w.send loginRequest
    match axiosAnyStatus login with
    | none => (w1.toast (.error "Network error. Please try again later."), s1)
    | some (status, data) =>
      if status = 200 then
        match data.user with
        | some user =>
          if user.isEmailVerified = true then
            let w2 := w1.toast (.success "Login successful ✅")
            let w3 := ((w2.setLocal "access_token"
              (jsString "undefined" data.access_token)).setLocal "refresh_token"
              (jsString "undefined" data.refresh_token)).setLocal "user" (stringify user)
            if user.role = "seller" then (w3.navigate "/seller-dashboard", s1)
            else if user.role = "buyer" then (w3.navigate "/buyer-dashboard", s1)
            else (w3.navigate "/", s1)
          else
            (w1.toast (.error "Please check your email to verify your account."), s1)
        | none => (w1.toast (.error "Please check your email to verify your account."), s1)
      else if status = 401 then
        (w1.toast (.error
          "You are not authorized. Please check your email for the verification link 📧"), s1)
      else
        (w1.toast (.error ((truthyValue data.message).getD "Something went wrong")), s1)
  else
    (w, s1)

end Auth

namespace AdvisorAuth

/-- The function `checkPasswordStrength` of AdvisorAuth.jsx. -/
def checkPasswordStrength (value : String) : String :=
  if Auth.strength value ≤ 2 then "Weak"
  else if Auth.strength value = 3 ∨ Auth.strength value = 4 then "Medium"
  else if Auth.strength value = 5 then "Strong"
  else ""

end AdvisorAuth

namespace ForgotPassword

/-- The function `validateEmail` of ForgotPassword.jsx. -/
def validateEmail (value : String) : String :=
  if value = "" then "Email is required"
  else if matchAtoms emailRegex value.data = false then "Please enter a valid email address"
  else ""

/-- The body of a forgot-password response, as far as the handler reads
it. -/
structure ResponseData where
  message : Option String

/-- The state cells `handleSubmit` writes. -/
structure FormState where
  emailError : String
  loading : Bool
  deriving DecidableEq, Repr

/-- The forgot-password request. -/
def forgotRequest : Request :=
  { method := "POST", url := BACKEND_URL ++ "/api/auth/forgot-password", headers := [],
    withCredentials := false }

/-- The function `handleSubmit` of ForgotPassword.jsx, with the answer of the
endpoint as an input; the navigation that `setTimeout` schedules is recorded
as a navigation. -/
def handleSubmit (email : String) (net : HttpOutcome ResponseData) (w : World)
    (s : FormState) : World × FormState :=
  let validation := validateEmail email
  let s1 : FormState := { s with emailError := validation }
  if validation ≠ "" then (w, s1)
  else
    let done : FormState := { s1 with loading := false }
    let w1 := w.send forgotRequest
    match axiosAnyStatus net with
    | none => (w1.toast (.error "Network error. Please try again later."), done)
    | some (status, data) =>
      if status = 200 ∨ status = 201 then
        ((w1.toast (.success
          ((truthyValue data.message).getD "Reset link sent to your email ✅"))).navigate
            "/seller-login", done)
      else
        (w1.toast (.error ((truthyValue data.message).getD "Something went wrong ❌")), done)

end ForgotPassword

namespace AdvisorRegister

/-- The state cell `formData`. -/
structure FormData where
  firstName : String
  lastName : String
  email : String
  password : String
  deriving DecidableEq, Repr

/-- The function `validateForm`: the message of the first failing check, or
`none` when the function returns `true`. -/
def validateForm (formData : FormData) : Option String :=
  if jsTrim formData.firstName = "" then some "First name is required"
  else if jsTrim formData.lastName = "" then some "Last name is required"
  else if jsTrim formData.email = "" then some "Email is required"
  else if matchAtoms emailRegex formData.email.data = false then some "Invalid email format"
  else if jsTrim formData.password = "" then some "Password is required"
  else if jsLength formData.password < 8 then some "Password must be at least 8 characters"
  else if testClass isUpperAZ formData.password = false then
    some "Password must contain at least one uppercase letter"
  else if testClass isDigit09 formData.password = false then
    some "Password must contain at least one number"
  else none

/-- The body of a register response, as far as the handler reads it. -/
structure RegisterData where
  access_token : Option String
  refresh_token : Option String
  user : Option UserProfile
  message : Option String

/-- The register request. -/
def registerRequest : Request :=
  { method := "POST", url := BACKEND_URL ++ "/api/auth/register", headers := [],
    withCredentials := false }

/-- The function `handleSubmit` of AdvisorRegister.jsx, with the answer of the
register endpoint as an input (a body may be missing); `JSON.stringify` of a
missing user is `undefined`, which `setItem` stores as that word.  The
navigation that `setTimeout` schedules is recorded as a navigation. -/
def handleSubmit (stringify : UserProfile → String) (formData : FormData)
    (net : HttpOutcome (Option RegisterData)) (w : World) : World :=
  match validateForm formData with
  | some msg => w.toast (.error msg)
  | none =>
    let w1 := w.send registerRequest
    match net with
    | .networkError => w1.toast (.error "Something went wrong. Try again later.")
    | .response status body =>
      if 200 ≤ status ∧ status < 300 then
        match body with
        | some data =>
          let w2 := ((w1.setLocal "access_token"
            (jsString "undefined" data.access_token)).setLocal "refresh_token"
            (jsString "undefined" data.refresh_token)).setLocal "user"
            (match data.user with
             | some user => stringify user
             | none => "undefined")
          (w2.toast (.success
            "Registration successful! Please check your email to verify.")).navigate "/continue"
        | none => w1
      else
        match body with
        | some data =>
          w1.toast (.error ((truthyValue data.message).getD "Registration failed!"))
        | none => w1.toast (.error "Something went wrong. Try again later.")

end AdvisorRegister

/-! ## AdvisorForm.jsx and AdvisorUpload.jsx: the validation schemas -/

namespace AdvisorForm

/-- One entry of `values.testimonials` in the profile form. -/
structure TestimonialEntry where
  clientName : String
  testimonial : String
  pdfUrl : String
  deriving DecidableEq, Repr

/-- The form values.  A numeric field holds the number it casts to, `none`
when it holds no number (the empty field); numbers are integers here. -/
structure Values where
  companyName : String
  phone : String
  website : String
  industries : List String
  geographies : List String
  yearsExperience : Option Int
  numberOfTransactions : Option Int
  currency : String
  description : String
  licensing : String
  testimonials : List TestimonialEntry
  revenueMin : Option Int
  revenueMax : Option Int
  deriving DecidableEq, Repr

/-- The object `initialValues`. -/
def initialValues : Values :=
  { companyName := "", phone := "", website := "", industries := [], geographies := [],
    yearsExperience := none, numberOfTransactions := none, currency := "USD",
    description := "", licensing := "",
    testimonials := List.replicate 5 { clientName := "", testimonial := "", pdfUrl := "" },
    revenueMin := none, revenueMax := none }

/-- The schema of one testimonial entry: `testimonial` and `pdfUrl` are
required only if `clientName` is filled (`!!val`). -/
def testimonialSchema (t : TestimonialEntry) : Bool :=
  if t.clientName ≠ "" then decide (t.testimonial ≠ "") && decide (t.pdfUrl ≠ "") else true

/-- The object `validationSchema`: whether the values pass.  The pattern
behind `Yup.string().url()` is a parameter. -/
def validationSchema (isUrl : String → Bool) (v : Values) : Bool :=
  decide (v.companyName ≠ "") && decide (v.phone ≠ "")
    && (isUrl v.website && decide (v.website ≠ ""))
    && decide (1 ≤ v.industries.length) && decide (1 ≤ v.geographies.length)
    && (match v.yearsExperience with
        | some n => decide (1 ≤ n)
        | none => false)
    && (match v.numberOfTransactions with
        | some n => decide (0 ≤ n)
        | none => false)
    && decide (v.currency ≠ "") && decide (v.description ≠ "") && decide (v.licensing ≠ "")
    && (v.testimonials.all testimonialSchema && decide (1 ≤ v.testimonials.length)
        && decide (v.testimonials.length ≤ 5))
    && (v.revenueMin.isSome && v.revenueMax.isSome)

/-- The `onClick` of the Continue button: it copies the values into
`profileData` with an empty list of testimonials, stores the serialized object
in sessionStorage and assigns `window.location.href`.  `JSON.stringify` is a
parameter. -/
def continueClick (stringify : Values → String) (values : Values) (w : World) : World :=
  let profileData : Values := { values with testimonials := [] }
  let w1 : World :=
    { w with sessionStorage :=
        w.sessionStorage.setItem "advisor-profile" (stringify profileData) }
  w1.navigate "/advisor-upload"

end AdvisorForm

namespace AdvisorUpload

/-- One entry of `values.testimonials` in the upload form; the chosen file is
known by its name, `none` while no file is chosen. -/
structure Testimonial where
  clientName : String
  testimonial : String
  pdfFile : Option String
  deriving DecidableEq, Repr

/-- The condition `is` of the two `when("clientName", ...)` rules:
`!!val && val.trim() !== ""`. -/
def clientNameFilled (val : String) : Bool := decide (val ≠ "") && decide (jsTrim val ≠ "")

/-- The schema of one testimonial entry: `clientName` is not required;
`testimonial` (a required string) and `pdfFile` (a required mixed value) are
required only if the client name is filled. -/
def testimonialSchema (t : Testimonial) : Bool :=
  if clientNameFilled t.clientName = true then decide (t.testimonial ≠ "") && t.pdfFile.isSome
  else true

/-- The test `at-least-one` on the array of testimonials. -/
def atLeastOne (arr : List Testimonial) : Bool :=
  arr.any (fun t => decide (t.clientName ≠ "") && decide (t.testimonial ≠ "")
    && t.pdfFile.isSome)

/-- The object `validationSchema`: whether a logo and the testimonials
pass. -/
def validationSchema (logoFile : Option String) (testimonials : List Testimonial) : Bool :=
  logoFile.isSome && (testimonials.all testimonialSchema && atLeastOne testimonials)

end AdvisorUpload

/-! ## Sample values of the forms -/

/-- A browser that holds the four items of a session in localStorage. -/
def sessionWorld : World :=
  ((csrfWorld.setLocal "refresh_token" "R").setLocal "user" "ann@example.com")

/-- A verified seller. -/
def verifiedSeller : UserProfile :=
  { role := "seller", isPaymentVerified := false, isEmailVerified := true,
    email := "sam@example.com", name := "Sam" }

/-- A testimonial entry with a text and no client name and no file. -/
def textOnlyTestimonial : AdvisorUpload.Testimonial :=
  { clientName := "", testimonial := "Great work", pdfFile := none }

/-- A testimonial entry with all three parts. -/
def fullTestimonial : AdvisorUpload.Testimonial :=
  { clientName := "Ann", testimonial := "Great work", pdfFile := some "ann.pdf" }

/-- A seller whose address is not verified. -/
def unverifiedSeller : UserProfile :=
  { role := "seller", isPaymentVerified := false, isEmailVerified := false,
    email := "ann@example.com", name := "Ann" }

/-! ## routes/index.jsx -/

deriving instance DecidableEq, Repr for ProtectedRoute.Props

/-- One `<Route>` of `AppRoutes`: its path and, if its element is wrapped in
`ProtectedRoute`, the props of the guard. -/
structure Route where
  path : String
  guard : Option ProtectedRoute.Props
  deriving DecidableEq, Repr

/-- The guard `<ProtectedRoute requiredRole="advisor">`. -/
def advisorGuard : ProtectedRoute.Props :=
  { requiredRole := some "advisor", requiresPayment := none }

/-- The guard `<ProtectedRoute requiredRole="seller">`. -/
def sellerGuard : ProtectedRoute.Props :=
  { requiredRole := some "seller", requiresPayment := none }

/-- The routes of `AppRoutes`, in the order of the source. -/
def AppRoutes : List Route :=
  [ ⟨"/", none⟩,
    ⟨"/auth", none⟩,
    ⟨"/authRegister", none⟩,
    ⟨"/seller-login", none⟩,
    ⟨"/seller-register", none⟩,
    ⟨"/verify-email", none⟩,
    ⟨"/seller-dashboard", some sellerGuard⟩,
    ⟨"/advisor-login", none⟩,
    ⟨"/advisor-register", none⟩,
    ⟨"/adviser-payment", some advisorGuard⟩,
    ⟨"/advisor-payments", some advisorGuard⟩,
    ⟨"/advisor-form", some advisorGuard⟩,
    ⟨"/advisor-dashboard", some advisorGuard⟩,
    ⟨"/reset-password", none⟩,
    ⟨"/forgot-password", none⟩,
    ⟨"/continue", none⟩,
    ⟨"/advisor-upload", some advisorGuard⟩ ]

/-- The route that serves a path: the first one declared for it. -/
def routeOf (path : String) : Option Route := AppRoutes.find? (fun r => r.path == path)

/-- The fourteen client-side paths that section 6 of the spec lists, in the
words of the spec; the table `AppRoutes` of the source is compared with it. -/
def specPaths : List String :=
  ["/", "/auth", "/seller-login", "/seller-register", "/advisor-login", "/advisor-register",
   "/seller-dashboard", "/advisor-dashboard", "/advisor-payments", "/advisor-form",
   "/advisor-upload", "/reset-password", "/forgot-password", "/continue"]

/-! ## The trees of industries and geographies -/

/-- An entry of `rawIndustryData` or `rawGeographyData`: an id, a label and,
if the property is there, the list of its children.  The two tables are not
part of the sources at hand; the functions below take them as an argument. -/
inductive Node where
  | mk (id label : String) (children : Option (List Node))

namespace Node

/-- The property `id`. -/
def id : Node → String
  | .mk id _ _ => id

/-- The property `label`. -/
def label : Node → String
  | .mk _ label _ => label

/-- The property `children`. -/
def children : Node → Option (List Node)
  | .mk _ _ children => children

mutual
/-- The node and all its descendants, at any depth. -/
def subtree : Node → List Node
  | .mk id label children => .mk id label children :: subtreeOpt children
/-- The nodes below a `children` property. -/
def subtreeOpt : Option (List Node) → List Node
  | none => []
  | some l => subtreeList l
/-- The nodes of a list of trees. -/
def subtreeList : List Node → List Node
  | [] => []
  | n :: ns => subtree n ++ subtreeList ns
end

end Node

/-- The call `s.includes(sub)` on the characters of two strings. -/
def includesChars (s sub : List Char) : Bool :=
  match s with
  | [] => sub.isEmpty
  | c :: cs => sub.isPrefixOf (c :: cs) || includesChars cs sub

/-- The call `s.includes(sub)`. -/
def jsIncludes (s sub : String) : Bool := includesChars s.data sub.data

mutual
/-- The callback of `items.filter` in `filterData`, for a query that is not
empty: whether the item is kept.  The built-in `toLowerCase` is a
parameter. -/
def filterKeeps (toLowerCase : String → String) (currentQuery : String) : Node → Bool
  | .mk _ label children =>
    let itemMatches := jsIncludes (toLowerCase label) (toLowerCase currentQuery)
    match children with
    | some l =>
      if itemMatches || decide (0 < (filterItems toLowerCase currentQuery l).length) then true
      else itemMatches
    | none => itemMatches
/-- The call `items.filter(...)` in `filterData`, for a query that is not
empty. -/
def filterItems (toLowerCase : String → String) (currentQuery : String) :
    List Node → List Node
  | [] => []
  | item :: items =>
    if filterKeeps toLowerCase currentQuery item then
      item :: filterItems toLowerCase currentQuery items
    else filterItems toLowerCase currentQuery items
end

/-- The function `filterData` (the same text in `IndustryChooser`,
`GeographyChooser` and the two `RadioFilter` components). -/
def filterData (toLowerCase : String → String) (items : List Node) (currentQuery : String) :
    List Node :=
  if currentQuery = "" then items else filterItems toLowerCase currentQuery items

namespace SellerForm

/-- The function `mapIndustry`, with the table `rawIndustryData` as an
argument. -/
def mapIndustry (rawIndustryData : List Node) (selectedId : String) : String :=
  match rawIndustryData with
  | [] => "Technology"
  | category :: rest =>
    if category.id = selectedId then category.label
    else
      match category.children with
      | some children =>
        if (children.find? (fun c => c.id == selectedId)).isSome then category.label
        else mapIndustry rest selectedId
      | none => mapIndustry rest selectedId

/-- The function `mapGeography`, with the table `rawGeographyData` as an
argument. -/
def mapGeography (rawGeographyData : List Node) (selectedId : String) : String :=
  match rawGeographyData with
  | [] => "North America"
  | country :: rest =>
    if country.id = selectedId then country.label
    else
      match country.children with
      | some children =>
        if (children.find? (fun c => c.id == selectedId)).isSome then country.label
        else mapGeography rest selectedId
      | none => mapGeography rest selectedId

end SellerForm

/-! ## ResetPassword.jsx -/

namespace ResetPassword

/-- The rule of `newPassword` in `ResetPasswordSchema`: at least 8
characters, an uppercase letter, a lowercase letter, a digit, and not
empty. -/
def newPasswordSchema (value : String) : Bool :=
  decide (8 ≤ jsLength value) && testClass isUpperAZ value && testClass isLowerAZ value
    && testClass isDigit09 value && decide (value ≠ "")

end ResetPassword

/-! ## AdvisorPayments.jsx: the payment handler -/

namespace AdvisorPayments

/-- The `paymentIntent` object Stripe returns, as far as the handler reads
it. -/
structure PaymentIntent where
  id : String
  status : String
  deriving DecidableEq, Repr

/-- What `stripe.confirmCardPayment` does: it throws, or it resolves with an
optional error (with an optional message) and an optional payment intent. -/
inductive StripeOutcome where
  | threw
  | result (error : Option (Option String)) (paymentIntent : Option PaymentIntent)

/-- The JSON body of a payment response, as far as the handler reads it. -/
structure PaymentData where
  clientSecret : Option String
  message : Option String

/-- The property `response.ok` of a `fetch` response. -/
def responseOk (status : Nat) : Bool := decide (200 ≤ status ∧ status < 300)

/-- What `handleSubmitPayment` leaves behind: the world, and whether
`resetForm()` was called. -/
structure Submitted where
  world : World
  formReset : Bool

/-- The toast of the `catch` block. -/
def unexpected (w : World) : Submitted :=
  { world := w.toast (.error "An unexpected error occurred during payment ❌"),
    formReset := false }

/-- The fallback text when the backend does not confirm the payment. -/
def confirmFailedMessage : String :=
  "Payment confirmed by Stripe, but backend failed to update profile ❌"

/-- The text of the toast of a confirmed payment. -/
def confirmedMessage : String :=
  "Payment confirmed! 🎉 Redirecting to create your profile..."

/-- The function `handleSubmitPayment`.  Inputs: whether `stripe` and
`elements` are loaded, the answers of the create-intent and confirm endpoints
(`fetch` resolves for every status and rejects only on a network error; the
body is `none` when `json()` rejects) and what `confirmCardPayment` does.  The
redirect that `setTimeout` schedules is recorded as a navigation. -/
def handleSubmitPayment (decodeURIComponent : String → Except String String)
    (stripeLoaded : Bool) (intentNet : HttpOutcome (Option PaymentData))
    (stripe : StripeOutcome) (confirmNet : HttpOutcome (Option PaymentData)) (w : World) :
    Submitted :=
  if stripeLoaded = false then
    { world := w.toast (.error "Stripe.js has not loaded yet. Please try again."),
      formReset := false }
  else
    match SecureAPI.secureRequest decodeURIComponent "/api/payment/create-intent"
        SecureAPI.Options.post w with
    | (.error _, w1) => unexpected w1
    | (.ok _, w1) =>
      match intentNet with
      | .networkError => unexpected w1
      | .response intentStatus intentBody =>
        if responseOk intentStatus = false then
          let message := match intentBody with
            | some errorData => errorData.message
            | none => some "Unknown error"
          { world := w1.toast
              (.error ((truthyValue message).getD "Failed to create payment intent ❌")),
            formReset := false }
        else
          match intentBody with
          | none => unexpected w1
          | some intentData =>
            match truthyValue intentData.clientSecret with
            | none =>
              { world := w1.toast (.error "Failed to get client secret from backend ❌"),
                formReset := false }
            | some _clientSecret =>
              match stripe with
              | .threw => unexpected w1
              | .result (some confirmError) _ =>
                { world := w1.toast (.error ((truthyValue confirmError).getD
                    "Payment failed during Stripe confirmation ❌")),
                  formReset := false }
              | .result none paymentIntent =>
                match paymentIntent with
                | some intent =>
                  if intent.status = "succeeded" then
                    match SecureAPI.secureRequest decodeURIComponent "/api/payment/confirm"
                        SecureAPI.Options.post w1 with
                    | (.error _, w2) => unexpected w2
                    | (.ok _, w2) =>
                      match confirmNet with
                      | .networkError => unexpected w2
                      | .response confirmStatus confirmBody =>
                        if responseOk confirmStatus = false then
                          let message := match confirmBody with
                            | some errorData => errorData.message
                            | none => some "Unknown backend confirmation error"
                          { world := w2.toast (.error ((truthyValue message).getD
                              confirmFailedMessage)),
                            formReset := false }
                        else
                          { world := (w2.toast (.success confirmedMessage)).navigate
                              "/advisor-form",
                            formReset := true }
                  else
                    { world := w1.toast (.error
                        ("Stripe payment not succeeded. Current status: "
                          ++ (truthyValue (some intent.status)).getD "unknown" ++ " ❌")),
                      formReset := false }
                | none =>
                  { world := w1.toast
                      (.error "Stripe payment not succeeded. Current status: unknown ❌"),
                    formReset := false }

end AdvisorPayments

/-! ## AdvisorUpload.jsx: the submit handler -/

namespace AdvisorUpload

/-- One testimonial of the final payload. -/
structure SentTestimonial where
  clientName : String
  testimonial : String
  pdfUrl : Option String
  deriving DecidableEq, Repr

/-- The payload of the final profile request: the stored profile it spreads
(known by its stored text, `none` for the empty object), the logo address and
the testimonials. -/
structure Payload where
  profileData : Option String
  logoUrl : Option String
  testimonials : List SentTestimonial
  deriving DecidableEq, Repr

/-- What `onSubmit` leaves behind: the world, and the payload of the profile
request if the request was made. -/
structure Submitted where
  world : World
  payload : Option Payload

/-- The address of the logo upload. -/
def logoEndpoint : String := BACKEND_URL ++ "/api/upload/logo"

/-- The address of the testimonial upload. -/
def testimonialEndpoint : String := BACKEND_URL ++ "/api/upload/testimonial"

/-- Whether the callback of `values.testimonials.map` uploads the entry:
`t.clientName && t.testimonial && t.pdfFile`. -/
def qualifies (t : Testimonial) : Bool :=
  decide (t.clientName ≠ "") && decide (t.testimonial ≠ "") && t.pdfFile.isSome

/-- The uploads of the testimonial files, entry by entry: the world after the
requests, and for every entry `none` if it is skipped, else the answer of its
own upload (`none` inside when the promise rejects).  `pdfNet i` is the answer
to the upload of entry `i`. -/
def uploadTestimonials (pdfNet : Nat → HttpOutcome UploadData) :
    Nat → List Testimonial → World → List (Option (Option SentTestimonial)) × World
  | _, [], w => ([], w)
  | i, t :: ts, w =>
    if qualifies t = true then
      let r := handleFileUpload testimonialEndpoint (pdfNet i) w
      let rest := uploadTestimonials pdfNet (i + 1) ts r.2
      ((some (r.1.map (fun pdfUrl =>
          { clientName := t.clientName, testimonial := t.testimonial, pdfUrl := pdfUrl })))
        :: rest.1, rest.2)
    else
      let rest := uploadTestimonials pdfNet (i + 1) ts w
      (none :: rest.1, rest.2)

/-- The result of `Promise.all` followed by `filter(Boolean)`: `none` if some
upload rejected, else the uploaded entries in their order. -/
def collect : List (Option (Option SentTestimonial)) → Option (List SentTestimonial)
  | [] => some []
  | none :: rest => collect rest
  | some none :: _ => none
  | some (some t) :: rest => (collect rest).map (fun l => t :: l)

/-- The toast of the `catch` block. -/
def failed (w : World) : Submitted :=
  { world := w.toast (.error "Error submitting form. Please try again."), payload := none }

/-- The function `onSubmit`.  Inputs: the state cell `logoFile`, the
testimonials of the form, whether `JSON.parse` accepts the stored profile, and
the answers of the logo upload, of each testimonial upload and of the profile
request.  The redirect that `setTimeout` schedules is recorded as a
navigation. -/
def onSubmit (parses : String → Bool) (logoFile : Option String)
    (testimonials : List Testimonial) (logoNet : HttpOutcome UploadData)
    (pdfNet : Nat → HttpOutcome UploadData) (profileNet : HttpOutcome Unit) (w : World) :
    Submitted :=
  let stored := w.sessionStorage.getItem "advisor-profile"
  if (match stored with
      | some text => parses text
      | none => true) = false then failed w
  else
    match logoFile with
    | none => { world := w.toast (.error "Logo is required"), payload := none }
    | some _ =>
      match handleFileUpload logoEndpoint logoNet w with
      | (none, w1) => failed w1
      | (some logoUrl, w1) =>
        let uploads := uploadTestimonials pdfNet 0 testimonials w1
        match collect uploads.1 with
        | none => failed uploads.2
        | some filteredTestimonials =>
          if filteredTestimonials.length = 0 then
            { world := uploads.2.toast (.error "At least one testimonial is required"),
              payload := none }
          else
            let payload : Payload :=
              { profileData := stored, logoUrl := logoUrl,
                testimonials := filteredTestimonials }
            let w2 := uploads.2.send (profileRequest uploads.2)
            match axiosDefault profileNet with
            | none => { world := w2.toast (.error "Error submitting form. Please try again."),
                        payload := some payload }
            | some _ =>
              let w3 := w2.toast (.success
                "Advisor profile created successfully! Redirecting to dashboard...")
              let w4 : World :=
                { w3 with sessionStorage := w3.sessionStorage.removeItem "advisor-profile" }
              { world := w4.navigate "/advisor-dashboard", payload := some payload }

end AdvisorUpload

/-! ## Sample values of the tables, the payment and the upload -/

/-- A geography table with three levels, as `RadioFilter` can render it. -/
def sampleGeography : List Node :=
  [.mk "na" "North America" (some [.mk "us" "United States" (some [.mk "ca" "California" none])]),
   .mk "eu" "Europe" (some [.mk "uk" "United Kingdom" (some [.mk "eng" "England" none])])]

/-- An industry table with three levels. -/
def sampleIndustry : List Node :=
  [.mk "tech" "Technology" (some [.mk "sw" "Software" none]),
   .mk "health" "Healthcare" (some [.mk "pharma" "Pharmaceuticals"
      (some [.mk "bio" "Biotechnology" none])])]

/-- A successful answer of a payment endpoint. -/
def paymentOk : HttpOutcome (Option AdvisorPayments.PaymentData) :=
  .response 200 (some { clientSecret := some "cs_1", message := none })

/-- A second testimonial entry with all three parts. -/
def secondTestimonial : AdvisorUpload.Testimonial :=
  { clientName := "Bob", testimonial := "Reliable", pdfFile := some "bob.pdf" }

/-- The bodies of the testimonial uploads in the examples: the upload of entry
`i` returns an address of its own. -/
def samplePdfData (i : Nat) : AdvisorUpload.UploadData :=
  { url := ["https://cdn.example.com/0.pdf", "https://cdn.example.com/1.pdf",
      "https://cdn.example.com/2.pdf"].get? i }

/-- A stand-in for `toLowerCase` in the examples: it lowers the letters `A` to
`Z`. -/
def sampleToLowerCase (s : String) : String := String.mk (s.data.map Char.toLower)

/-! ## The router after a redirect of the guard -/

/-- What `AppRoutes` shows at `path` when a guard has redirected there.  Every
guarded route puts an unkeyed `<ProtectedRoute>` at the same place of the
element tree, so React keeps the component instance of the route it leaves:
the three state cells keep their values, the effect, whose dependency list is
empty, does not run `checkAuth` again, and the body of the component runs with
the props of the new route.  The result is the render of the guard of the new
route in the kept state `s`; it is `none` when the route is unguarded (its page
is shown and the guard unmounts) or when no route is declared for the path. -/
def keptRender (s : ProtectedRoute.State) (path : String) : Option ProtectedRoute.Rendered :=
  match routeOf path with
  | some r => r.guard.map (fun q => ProtectedRoute.render q s)
  | none => none

/-- The paths the router goes to, in their order, when the guard instance in
state `s` has rendered `r` and the router follows its redirects, at most
`fuel` of them. -/
def followRedirects (s : ProtectedRoute.State) : Nat → ProtectedRoute.Rendered → List String
  | fuel + 1, .navigate path =>
    path :: (match keptRender s path with
      | some r => followRedirects s fuel r
      | none => [])
  | _, _ => []

/-- A browser with a `csrf-token` cookie whose value ends in two `=`, as a
padded base64 token does, a stored and a cached CSRF token. -/
def paddedCookieWorld : World :=
  { storedWorld with cookie := cookieString [("theme", "dark"), ("csrf-token", "abc==")] }

/-! ## Theorems: the route guard -/

open ProtectedRoute

/-- Without a stored token `checkAuth` only clears `loading`. -/
theorem mount_no_token (p : Props) (net : HttpOutcome UserProfile) (w : World)
    (h : truthy (w.localStorage.getItem "access_token") = false) :
    mount p net w = (w, { loading := false, user := none, authorized := false }) := by
  unfold mount checkAuth
  cases htok : w.localStorage.getItem "access_token" with
  | none => rfl
  | some token =>
    have : token = "" := by simpa [truthy, htok] using h
    simp [this, initialState]

/-- With a stored token the profile request is sent; a rejected request
leaves the user unset. -/
theorem mount_fetch_failed (p : Props) (net : HttpOutcome UserProfile) (w : World)
    (token : String) (htok : w.localStorage.getItem "access_token" = some token)
    (hne : token ≠ "") (hnet : axiosDefault net = none) :
    mount p net w = (w.send (profileRequest token),
      { loading := false, user := none, authorized := false }) := by
  unfold mount checkAuth
  simp [htok, hne, hnet, initialState]

/-- With a stored token and a resolved profile request the user is set, and
`authorized` is set iff neither check returns early. -/
theorem mount_fetch_ok (p : Props) (net : HttpOutcome UserProfile) (w : World)
    (token : String) (htok : w.localStorage.getItem "access_token" = some token)
    (hne : token ≠ "") (u : UserProfile) (hnet : axiosDefault net = some u) :
    mount p net w = (w.send (profileRequest token),
      { loading := false, user := some u,
        authorized := decide
          (¬ (truthy p.requiredRole = true ∧ some u.role ≠ p.requiredRole) ∧
           ¬ (p.paymentRequired = true ∧ u.role = "advisor"
              ∧ u.isPaymentVerified = false)) }) := by
  unfold mount checkAuth
  simp only [htok, hne, hnet, initialState, if_false]
  split_ifs with h1 h2 <;> simp_all

/-- The render of a finished guard without a user: the login redirects. -/
theorem render_no_user (p : Props) (a : Bool) :
    render p { loading := false, user := none, authorized := a } =
      if p.requiredRole = some "advisor" then .navigate "/advisor-login"
      else if p.requiredRole = some "seller" then .navigate "/seller-login"
      else .navigate "/" := by
  simp [render]

/-- The default axios call resolves exactly on a 2xx response. -/
theorem axiosDefault_eq_some {α : Type} (net : HttpOutcome α) (u : α) :
    axiosDefault net = some u ↔
      ∃ status, net = .response status u ∧ 200 ≤ status ∧ status < 300 := by
  cases net with
  | networkError => simp [axiosDefault]
  | response status d =>
    simp only [axiosDefault]
    split_ifs with h
    · simp only [Option.some.injEq, HttpOutcome.response.injEq]
      constructor
      · rintro rfl; exact ⟨status, ⟨rfl, rfl⟩, h.1, h.2⟩
      · rintro ⟨s, ⟨rfl, rfl⟩, _⟩; rfl
    · simp only [false_iff, not_exists, HttpOutcome.response.injEq]
      rintro s ⟨⟨rfl, rfl⟩, h1, h2⟩; exact h ⟨h1, h2⟩

/-- The render of a finished guard with a user set. -/
theorem render_with_user (p : Props) (u : UserProfile) (a : Bool) :
    render p { loading := false, user := some u, authorized := a } =
      if truthy p.requiredRole = true ∧ some u.role ≠ p.requiredRole then
        if u.role = "advisor" then .navigate "/advisor-dashboard"
        else if u.role = "seller" then .navigate "/seller-dashboard"
        else .navigate "/"
      else if p.paymentRequired = true ∧ u.role = "advisor" ∧ u.isPaymentVerified = false then
        .navigate "/advisor-payments"
      else if a = false then .navigate "/"
      else .children := by
  simp [render]

/-- The role check passes iff no role is required or the roles agree. -/
theorem role_ok_iff (p : Props) (u : UserProfile) :
    ¬ (truthy p.requiredRole = true ∧ some u.role ≠ p.requiredRole) ↔
      (truthy p.requiredRole = false ∨ p.requiredRole = some u.role) := by
  cases truthy p.requiredRole <;> simp [eq_comm]

/-- C1: for every required role, payment flag, stored token and answer of the
profile endpoint, the finished guard renders its children iff a non-empty
access token was stored, the profile request resolved (a 2xx response), the
fetched role equals the required role or no role was required, and it is not
the case that payment is required while the fetched role is advisor and the
payment is unverified; in every other case it renders a redirect. -/
theorem guard_renders_children_iff (p : Props) (net : HttpOutcome UserProfile) (w : World) :
    (finalRender p net w = .children ↔
      (∃ token, w.localStorage.getItem "access_token" = some token ∧ token ≠ "") ∧
      ∃ status u, net = .response status u ∧ 200 ≤ status ∧ status < 300 ∧
        (truthy p.requiredRole = false ∨ p.requiredRole = some u.role) ∧
        ¬ (p.paymentRequired = true ∧ u.role = "advisor" ∧ u.isPaymentVerified = false)) ∧
    (finalRender p net w ≠ .children → ∃ path, finalRender p net w = .navigate path) := by
  unfold finalRender
  by_cases htr : truthy (w.localStorage.getItem "access_token") = false
  · rw [mount_no_token p net w htr, render_no_user]
    constructor
    · constructor
      · intro h; split_ifs at h
      · rintro ⟨⟨token, h1, h2⟩, _⟩
        simp [h1, truthy, h2] at htr
    · intro _; split_ifs <;> exact ⟨_, rfl⟩
  · obtain ⟨token, htok, hne⟩ : ∃ token, w.localStorage.getItem "access_token" = some token
        ∧ token ≠ "" := by
      cases hg : w.localStorage.getItem "access_token" with
      | none => simp [hg, truthy] at htr
      | some t => exact ⟨t, rfl, by simpa [hg, truthy] using htr⟩
    cases hnet : axiosDefault net with
    | none =>
      rw [mount_fetch_failed p net w token htok hne hnet, render_no_user]
      constructor
      · constructor
        · intro h; split_ifs at h
        · rintro ⟨_, status, u, h1, h2, h3, _⟩
          have := (axiosDefault_eq_some net u).2 ⟨status, h1, h2, h3⟩
          simp [hnet] at this
      · intro _; split_ifs <;> exact ⟨_, rfl⟩
    | some u =>
      rw [mount_fetch_ok p net w token htok hne u hnet, render_with_user]
      obtain ⟨status, hresp, hlo, hhi⟩ := (axiosDefault_eq_some net u).1 hnet
      subst hresp
      by_cases h1 : truthy p.requiredRole = true ∧ some u.role ≠ p.requiredRole
      · rw [if_pos h1]
        constructor
        · constructor
          · intro h; split_ifs at h
          · rintro ⟨_, s, v, hresp, _, _, hrole, _⟩
            obtain ⟨-, rfl⟩ := HttpOutcome.response.inj hresp
            exact absurd h1 ((role_ok_iff p u).2 hrole)
        · intro _; split_ifs <;> exact ⟨_, rfl⟩
      · rw [if_neg h1]
        by_cases h2 : p.paymentRequired = true ∧ u.role = "advisor"
            ∧ u.isPaymentVerified = false
        · rw [if_pos h2]
          constructor
          · constructor
            · intro h; exact absurd h (by simp)
            · rintro ⟨_, s, v, hresp, _, _, _, hpay⟩
              obtain ⟨-, rfl⟩ := HttpOutcome.response.inj hresp
              exact absurd h2 hpay
          · intro _; exact ⟨_, rfl⟩
        · rw [if_neg h2]
          have hd : decide (¬ (truthy p.requiredRole = true ∧ some u.role ≠ p.requiredRole) ∧
              ¬ (p.paymentRequired = true ∧ u.role = "advisor" ∧ u.isPaymentVerified = false))
              = true := decide_eq_true ⟨h1, h2⟩
          rw [hd]
          simp only [if_false, Bool.true_eq_false, true_iff, ne_eq, not_true_eq_false,
            false_implies, and_true]
          exact ⟨⟨token, htok, hne⟩, status, u, rfl, hlo, hhi, (role_ok_iff p u).1 h1, h2⟩

/-- Witness of `guard_renders_children_iff`: a paid-up check is not required,
so the advisor with a stored token sees the page; without a token the guard
redirects. -/
theorem guard_renders_children_iff_witness :
    finalRender ⟨some "advisor", none⟩ (.response 200 unpaidAdvisor) loggedInWorld
      = .children ∧
    ∃ path, finalRender ⟨some "advisor", none⟩ (.response 200 unpaidAdvisor) emptyWorld
      = .navigate path :=
  ⟨(guard_renders_children_iff ⟨some "advisor", none⟩ (.response 200 unpaidAdvisor)
      loggedInWorld).1.2
      ⟨⟨"T", rfl, by decide⟩, 200, unpaidAdvisor, rfl, by decide, by decide, Or.inr rfl,
        by decide⟩,
   (guard_renders_children_iff ⟨some "advisor", none⟩ (.response 200 unpaidAdvisor)
      emptyWorld).2 (by decide)⟩

/-- A value is falsy iff it is missing or the empty string. -/
theorem truthy_eq_false_iff (v : Option String) :
    truthy v = false ↔ v = none ∨ v = some "" := by
  cases v <;> simp [truthy]

/-- C2: when `access_token` is missing from localStorage or holds the empty
string, `checkAuth` sends no request, and the finished guard redirects to
`/advisor-login` if the required role is advisor, to `/seller-login` if it is
seller, and to `/` when no role is required. -/
theorem no_token_no_request_login_redirect (p : Props) (net : HttpOutcome UserProfile)
    (w : World)
    (h : w.localStorage.getItem "access_token" = none
      ∨ w.localStorage.getItem "access_token" = some "") :
    (mount p net w).1.requests = w.requests ∧
    (p.requiredRole = some "advisor" → finalRender p net w = .navigate "/advisor-login") ∧
    (p.requiredRole = some "seller" → finalRender p net w = .navigate "/seller-login") ∧
    (p.requiredRole = none → finalRender p net w = .navigate "/") := by
  have hm := mount_no_token p net w ((truthy_eq_false_iff _).2 h)
  unfold finalRender
  rw [hm, render_no_user]
  refine ⟨rfl, ?_, ?_, ?_⟩
  · intro hr; simp [hr]
  · intro hr; simp [hr]
  · intro hr; simp [hr]

/-- Witness of `no_token_no_request_login_redirect` at a concrete state. -/
theorem no_token_no_request_login_redirect_witness :
    (emptyWorld.localStorage.getItem "access_token" = none
      ∨ emptyWorld.localStorage.getItem "access_token" = some "") ∧
    (mount ⟨some "advisor", none⟩ (.response 200 unpaidAdvisor) emptyWorld).1.requests = [] ∧
    finalRender ⟨some "advisor", none⟩ (.response 200 unpaidAdvisor) emptyWorld
      = .navigate "/advisor-login" :=
  ⟨Or.inl rfl,
   (no_token_no_request_login_redirect ⟨some "advisor", none⟩ (.response 200 unpaidAdvisor)
      emptyWorld (Or.inl rfl)).1,
   (no_token_no_request_login_redirect ⟨some "advisor", none⟩ (.response 200 unpaidAdvisor)
      emptyWorld (Or.inl rfl)).2.1 rfl⟩

/-- The default axios call rejects on a network error and on every status
outside 2xx. -/
theorem axiosDefault_eq_none {α : Type} (net : HttpOutcome α)
    (h : net = .networkError
      ∨ ∃ status data, net = .response status data ∧ ¬ (200 ≤ status ∧ status < 300)) :
    axiosDefault net = none := by
  rcases h with rfl | ⟨status, data, rfl, hs⟩
  · rfl
  · simp only [axiosDefault, if_neg hs]

/-- A rejected profile request leaves the guard without a user, whatever the
stored token. -/
theorem finalRender_fetch_failed (p : Props) (net : HttpOutcome UserProfile) (w : World)
    (hnet : axiosDefault net = none) :
    finalRender p net w = render p { loading := false, user := none, authorized := false } := by
  unfold finalRender
  by_cases htr : truthy (w.localStorage.getItem "access_token") = false
  · rw [mount_no_token p net w htr]
  · obtain ⟨token, htok, hne⟩ : ∃ token, w.localStorage.getItem "access_token" = some token
        ∧ token ≠ "" := by
      cases hg : w.localStorage.getItem "access_token" with
      | none => simp [hg, truthy] at htr
      | some t => exact ⟨t, rfl, by simpa [hg, truthy] using htr⟩
    rw [mount_fetch_failed p net w token htok hne hnet]

/-- C3: for every required role and payment flag, when the profile request
fails (a network error or any status outside 2xx, 401 included) the user stays
unset and the final render of the guard is a redirect, the one it produces
when no access token is stored: to `/advisor-login` if the required role is
advisor, to `/seller-login` if it is seller, to `/` for every other or no
required role. -/
theorem fetch_failure_redirects_like_no_token (p : Props)
    (net net0 : HttpOutcome UserProfile) (w w0 : World)
    (hfail : net = .networkError
      ∨ ∃ status data, net = .response status data ∧ ¬ (200 ≤ status ∧ status < 300))
    (h0 : w0.localStorage.getItem "access_token" = none
      ∨ w0.localStorage.getItem "access_token" = some "") :
    finalRender p net w = finalRender p net0 w0 ∧
    finalRender p net w
      = (if p.requiredRole = some "advisor" then .navigate "/advisor-login"
         else if p.requiredRole = some "seller" then .navigate "/seller-login"
         else .navigate "/") ∧
    (∃ path, finalRender p net w = .navigate path) ∧
    (mount p net w).2 = { loading := false, user := none, authorized := false } := by
  have hnet := axiosDefault_eq_none net hfail
  have hfinal := finalRender_fetch_failed p net w hnet
  have hstate : (mount p net w).2 = { loading := false, user := none, authorized := false } := by
    by_cases htr : truthy (w.localStorage.getItem "access_token") = false
    · rw [mount_no_token p net w htr]
    · obtain ⟨token, htok, hne⟩ : ∃ token, w.localStorage.getItem "access_token" = some token
          ∧ token ≠ "" := by
        cases hg : w.localStorage.getItem "access_token" with
        | none => simp [hg, truthy] at htr
        | some t => exact ⟨t, rfl, by simpa [hg, truthy] using htr⟩
      rw [mount_fetch_failed p net w token htok hne hnet]
  have h0render : finalRender p net0 w0
      = render p { loading := false, user := none, authorized := false } := by
    unfold finalRender
    rw [mount_no_token p net0 w0 ((truthy_eq_false_iff _).2 h0)]
  refine ⟨by rw [hfinal, h0render], by rw [hfinal, render_no_user], ?_, hstate⟩
  rw [hfinal, render_no_user]
  split_ifs
  · exact ⟨_, rfl⟩
  · exact ⟨_, rfl⟩
  · exact ⟨_, rfl⟩

/-- Witness of `fetch_failure_redirects_like_no_token`: a seller page whose
profile request is answered with 401 redirects to `/seller-login`, as it does
in a browser without a token. -/
theorem fetch_failure_redirects_like_no_token_witness :
    finalRender ⟨some "seller", some true⟩ (.response 401 unpaidAdvisor) loggedInWorld
      = .navigate "/seller-login" ∧
    finalRender ⟨some "seller", some true⟩ (.response 200 unpaidAdvisor) emptyWorld
      = .navigate "/seller-login" :=
  ⟨((fetch_failure_redirects_like_no_token ⟨some "seller", some true⟩
      (.response 401 unpaidAdvisor) (.response 200 unpaidAdvisor) loggedInWorld emptyWorld
      (Or.inr ⟨401, unpaidAdvisor, rfl, by decide⟩) (Or.inl rfl)).2.1).trans (by decide),
   ((fetch_failure_redirects_like_no_token ⟨some "seller", some true⟩
      (.response 401 unpaidAdvisor) (.response 200 unpaidAdvisor) loggedInWorld emptyWorld
      (Or.inr ⟨401, unpaidAdvisor, rfl, by decide⟩) (Or.inl rfl)).1).symm.trans (by decide)⟩

/-- The final render after a resolved profile request. -/
theorem finalRender_fetch_ok (p : Props) (w : World) (token : String) (status : Nat)
    (u : UserProfile) (htok : w.localStorage.getItem "access_token" = some token)
    (hne : token ≠ "") (hlo : 200 ≤ status) (hhi : status < 300) :
    finalRender p (.response status u) w = render p
      { loading := false, user := some u,
        authorized := decide
          (¬ (truthy p.requiredRole = true ∧ some u.role ≠ p.requiredRole) ∧
           ¬ (p.paymentRequired = true ∧ u.role = "advisor"
              ∧ u.isPaymentVerified = false)) } := by
  unfold finalRender
  rw [mount_fetch_ok p _ w token htok hne u
    ((axiosDefault_eq_some _ u).2 ⟨status, rfl, hlo, hhi⟩)]

/-- C4: when the profile request resolves and the required role is set but
differs from the fetched role, the guard does not render the children and
redirects to the dashboard of the fetched role: `/advisor-dashboard` for an
advisor, `/seller-dashboard` for a seller, `/` for any other role. -/
theorem role_mismatch_redirects_to_own_dashboard (p : Props) (w : World) (token : String)
    (status : Nat) (u : UserProfile) (required : String)
    (htok : w.localStorage.getItem "access_token" = some token) (hne : token ≠ "")
    (hlo : 200 ≤ status) (hhi : status < 300)
    (hreq : p.requiredRole = some required) (hset : required ≠ "")
    (hdiff : u.role ≠ required) :
    finalRender p (.response status u) w ≠ .children ∧
    (u.role = "advisor" →
      finalRender p (.response status u) w = .navigate "/advisor-dashboard") ∧
    (u.role = "seller" →
      finalRender p (.response status u) w = .navigate "/seller-dashboard") ∧
    (u.role ≠ "advisor" → u.role ≠ "seller" →
      finalRender p (.response status u) w = .navigate "/") := by
  rw [finalRender_fetch_ok p w token status u htok hne hlo hhi, render_with_user]
  have h1 : truthy p.requiredRole = true ∧ some u.role ≠ p.requiredRole := by
    rw [hreq]; exact ⟨by simp [truthy, hset], by simpa using hdiff⟩
  rw [if_pos h1]
  refine ⟨?_, ?_, ?_, ?_⟩
  · split_ifs <;> simp
  · intro h; rw [if_pos h]
  · intro h
    have : u.role ≠ "advisor" := by rw [h]; decide
    rw [if_neg this, if_pos h]
  · intro ha hs; rw [if_neg ha, if_neg hs]

/-- Witness of `role_mismatch_redirects_to_own_dashboard` at a concrete state. -/
theorem role_mismatch_redirects_to_own_dashboard_witness :
    finalRender ⟨some "seller", none⟩ (.response 200 unpaidAdvisor) loggedInWorld
      ≠ .children ∧
    finalRender ⟨some "seller", none⟩ (.response 200 unpaidAdvisor) loggedInWorld
      = .navigate "/advisor-dashboard" :=
  ⟨(role_mismatch_redirects_to_own_dashboard ⟨some "seller", none⟩ loggedInWorld "T" 200
      unpaidAdvisor "seller" rfl (by decide) (by decide) (by decide) rfl (by decide)
      (by decide)).1,
   (role_mismatch_redirects_to_own_dashboard ⟨some "seller", none⟩ loggedInWorld "T" 200
      unpaidAdvisor "seller" rfl (by decide) (by decide) (by decide) rfl (by decide)
      (by decide)).2.1 rfl⟩

/-- C5: when the profile request resolves, the role check passes, the fetched
role is advisor and the payment is unverified, the guard redirects to
`/advisor-payments` if `requiresPayment` is true; if `requiresPayment` is
omitted it defaults to false and the guard renders the children for that same
profile. -/
theorem unpaid_advisor_redirects_to_payment (requiredRole : Option String) (w : World)
    (token : String) (status : Nat) (u : UserProfile)
    (htok : w.localStorage.getItem "access_token" = some token) (hne : token ≠ "")
    (hlo : 200 ≤ status) (hhi : status < 300)
    (hrole : truthy requiredRole = false ∨ requiredRole = some u.role)
    (hadv : u.role = "advisor") (hunpaid : u.isPaymentVerified = false) :
    finalRender ⟨requiredRole, some true⟩ (.response status u) w
      = .navigate "/advisor-payments" ∧
    Props.paymentRequired ⟨requiredRole, none⟩ = false ∧
    finalRender ⟨requiredRole, none⟩ (.response status u) w = .children := by
  have h1 : ∀ rp, ¬ (truthy (Props.mk requiredRole rp).requiredRole = true
      ∧ some u.role ≠ (Props.mk requiredRole rp).requiredRole) :=
    fun rp => (role_ok_iff ⟨requiredRole, rp⟩ u).2 hrole
  refine ⟨?_, rfl, ?_⟩
  · rw [finalRender_fetch_ok _ w token status u htok hne hlo hhi, render_with_user,
      if_neg (h1 _), if_pos ⟨rfl, hadv, hunpaid⟩]
  · have h2 : ¬ ((Props.mk requiredRole none).paymentRequired = true ∧ u.role = "advisor"
        ∧ u.isPaymentVerified = false) := by
      simp [Props.paymentRequired]
    rw [finalRender_fetch_ok _ w token status u htok hne hlo hhi, render_with_user,
      if_neg (h1 _), if_neg h2, decide_eq_true ⟨h1 _, h2⟩]
    simp

/-- Witness of `unpaid_advisor_redirects_to_payment` at a concrete state. -/
theorem unpaid_advisor_redirects_to_payment_witness :
    finalRender ⟨some "advisor", some true⟩ (.response 200 unpaidAdvisor) loggedInWorld
      = .navigate "/advisor-payments" ∧
    finalRender ⟨some "advisor", none⟩ (.response 200 unpaidAdvisor) loggedInWorld
      = .children :=
  ⟨(unpaid_advisor_redirects_to_payment (some "advisor") loggedInWorld "T" 200 unpaidAdvisor
      rfl (by decide) (by decide) (by decide) (Or.inr rfl) rfl rfl).1,
   (unpaid_advisor_redirects_to_payment (some "advisor") loggedInWorld "T" 200 unpaidAdvisor
      rfl (by decide) (by decide) (by decide) (Or.inr rfl) rfl rfl).2.2⟩

open SecureAPI AdvisorAuth

/-! ## Theorems: reading `document.cookie` -/

/-- Splitting always yields at least one piece. -/
theorem splitChars_ne_nil (sep : Char) (l : List Char) : splitChars sep l ≠ [] := by
  cases l with
  | nil => simp [splitChars]
  | cons c cs =>
    unfold splitChars
    split_ifs
    · simp
    · cases splitChars sep cs <;> simp

/-- A string without the separator is a single piece. -/
theorem splitChars_of_not_mem (sep : Char) (l : List Char) (h : sep ∉ l) :
    splitChars sep l = [l] := by
  induction l with
  | nil => rfl
  | cons c cs ih =>
    have hc : c ≠ sep := fun e => h (by simp [e])
    have hcs : sep ∉ cs := fun e => h (by simp [e])
    simp [splitChars, hc, ih hcs]

/-- The first piece ends at the first separator. -/
theorem splitChars_append_sep (sep : Char) (a b : List Char) (h : sep ∉ a) :
    splitChars sep (a ++ sep :: b) = a :: splitChars sep b := by
  induction a with
  | nil => simp [splitChars]
  | cons c cs ih =>
    have hc : c ≠ sep := fun e => h (by simp [e])
    have hcs : sep ∉ cs := fun e => h (by simp [e])
    simp [splitChars, hc, ih hcs]

/-- Trimming a string that neither starts nor ends with white space leaves it
as it is. -/
theorem trim_of_no_space (l : List Char) (h : ∀ c ∈ l, isJsWhitespace c = false) :
    ((l.dropWhile isJsWhitespace).reverse.dropWhile isJsWhitespace).reverse = l := by
  have key : ∀ m : List Char, (∀ c ∈ m, isJsWhitespace c = false) →
      m.dropWhile isJsWhitespace = m := by
    intro m hm
    cases m with
    | nil => rfl
    | cons c cs => simp [List.dropWhile, hm c (by simp)]
  rw [key l h, key l.reverse (by simpa using h), List.reverse_reverse]

/-- The characters of a cookie entry. -/
theorem cookieEntry_data (c : String × String) :
    (cookieEntry c).data = c.1.data ++ '=' :: c.2.data := by
  simp [cookieEntry, String.data_append]

/-- The entry of a well-formed cookie has no semicolon and no white space,
and its name and value have no equals sign. -/
theorem cookieOk_chars (c : String × String) (h : cookieOk c = true) :
    ';' ∉ (cookieEntry c).data ∧ (∀ x ∈ (cookieEntry c).data, isJsWhitespace x = false) ∧
    '=' ∉ c.1.data ∧ '=' ∉ c.2.data := by
  simp only [cookieOk, Bool.and_eq_true, List.all_eq_true, cookieChar, bne_iff_ne, ne_eq,
    Bool.not_eq_true'] at h
  obtain ⟨h1, h2⟩ := h
  rw [cookieEntry_data]
  refine ⟨?_, ?_, ?_, ?_⟩
  · intro hm
    rcases List.mem_append.1 hm with hm | hm
    · exact (h1 _ hm).1.1 rfl
    · rcases List.mem_cons.1 hm with hm | hm
      · exact absurd hm (by decide)
      · exact (h2 _ hm).1.1 rfl
  · intro x hx
    rcases List.mem_append.1 hx with hm | hm
    · exact (h1 _ hm).2
    · rcases List.mem_cons.1 hm with hm | hm
      · rw [hm]; decide
      · exact (h2 _ hm).2
  · intro hm; exact (h1 _ hm).1.2 rfl
  · intro hm; exact (h2 _ hm).1.2 rfl

/-- The pieces of `document.cookie` at the semicolons: the first entry, and
every further entry behind a space. -/
theorem splitChars_cookieString (c : String × String) (rest : List (String × String))
    (h : ∀ d ∈ c :: rest, cookieOk d = true) :
    splitChars ';' (cookieString (c :: rest)).data
      = (cookieEntry c).data :: rest.map (fun d => ' ' :: (cookieEntry d).data) := by
  induction rest generalizing c with
  | nil =>
    simp only [cookieString, List.map_nil]
    exact splitChars_of_not_mem _ _ (cookieOk_chars c (h c (by simp))).1
  | cons d rest ih =>
    have hd : ∀ e ∈ d :: rest, cookieOk e = true := fun e he => h e (by simp [he])
    have hsplit : (cookieString (c :: d :: rest)).data
        = (cookieEntry c).data ++ ';' :: ' ' :: (cookieString (d :: rest)).data := by
      simp [cookieString, String.data_append]
    rw [hsplit, splitChars_append_sep _ _ _ (cookieOk_chars c (h c (by simp))).1]
    have hsp : splitChars ';' (' ' :: (cookieString (d :: rest)).data)
        = (' ' :: (cookieEntry d).data) :: rest.map (fun e => ' ' :: (cookieEntry e).data) := by
      rw [splitChars, if_neg (by decide), ih d hd]
    rw [hsp, List.map_cons]

/-- What the loop of `getCsrfTokenFromCookie` does with the piece of a
well-formed cookie, with or without the space in front. -/
theorem go_cons_entry (decodeURIComponent : String → Except String String)
    (c : String × String) (h : cookieOk c = true) (piece : String)
    (hp : piece.data = (cookieEntry c).data ∨ piece.data = ' ' :: (cookieEntry c).data)
    (pieces : List String) :
    getCsrfTokenFromCookie.go decodeURIComponent (piece :: pieces)
      = if c.1 = "csrf-token" then (decodeURIComponent c.2).map some
        else getCsrfTokenFromCookie.go decodeURIComponent pieces := by
  obtain ⟨-, hws, hn, hv⟩ := cookieOk_chars c h
  have htrim : jsTrim piece = cookieEntry c := by
    unfold jsTrim
    rcases hp with hp | hp
    · rw [hp, trim_of_no_space _ hws]
    · rw [hp]
      have : List.dropWhile isJsWhitespace (' ' :: (cookieEntry c).data)
          = List.dropWhile isJsWhitespace (cookieEntry c).data := by
        rw [List.dropWhile_cons]; simp [show isJsWhitespace ' ' = true by decide]
      rw [this, trim_of_no_space _ hws]
  have hparts : jsSplit (cookieEntry c) '=' = [c.1, c.2] := by
    unfold jsSplit
    rw [cookieEntry_data, splitChars_append_sep _ _ _ hn, splitChars_of_not_mem _ _ hv]
    rfl
  simp only [getCsrfTokenFromCookie.go, htrim, hparts, List.head?_cons, List.tail_cons,
    Option.some.injEq, jsString]

/-- On the `document.cookie` of well-formed cookies, `getCsrfTokenFromCookie`
returns the decoded value of the first cookie named `csrf-token`, and `null`
when there is none. -/
theorem getCsrfTokenFromCookie_cookieString
    (decodeURIComponent : String → Except String String) (jar : List (String × String))
    (h : ∀ c ∈ jar, cookieOk c = true) :
    getCsrfTokenFromCookie decodeURIComponent (cookieString jar)
      = match jar.find? (fun c => c.1 = "csrf-token") with
        | some c => (decodeURIComponent c.2).map some
        | none => .ok none := by
  cases jar with
  | nil => rfl
  | cons c rest =>
    unfold getCsrfTokenFromCookie jsSplit
    rw [splitChars_cookieString c rest h, List.map_cons, List.map_map]
    simp only [Function.comp_def]
    have hrest : ∀ l : List (String × String), (∀ d ∈ l, cookieOk d = true) →
        getCsrfTokenFromCookie.go decodeURIComponent
          (l.map (fun d => String.mk (' ' :: (cookieEntry d).data)))
        = match l.find? (fun c => c.1 = "csrf-token") with
          | some c => (decodeURIComponent c.2).map some
          | none => .ok none := by
      intro l hl
      induction l with
      | nil => rfl
      | cons d l ih =>
        rw [List.map_cons, go_cons_entry decodeURIComponent d (hl d (by simp)) _ (Or.inr rfl),
          ih (fun e he => hl e (by simp [he])), List.find?_cons]
        by_cases hd : d.1 = "csrf-token" <;> simp [hd]
    rw [go_cons_entry decodeURIComponent c (h c (by simp)) _ (Or.inl rfl),
      hrest rest (fun e he => h e (by simp [he])), List.find?_cons]
    by_cases hc : c.1 = "csrf-token" <;> simp [hc]

/-! ## Theorems: the CSRF helper -/

/-- A value has no truthy content iff it is missing or the empty string. -/
theorem truthyValue_eq_none_iff (v : Option String) :
    truthyValue v = none ↔ v = none ∨ v = some "" := by
  cases v with
  | none => simp [truthyValue]
  | some s => by_cases h : s = "" <;> simp [truthyValue, h]

/-- A non-empty string is its own truthy content. -/
theorem truthyValue_some (s : String) (h : s ≠ "") : truthyValue (some s) = some s := by
  simp [truthyValue, h]

/-- The truthy content of a value is that value, and it is not empty. -/
theorem truthyValue_eq_some (v : Option String) (t : String) (h : truthyValue v = some t) :
    v = some t ∧ t ≠ "" := by
  cases v with
  | none => simp [truthyValue] at h
  | some s =>
    by_cases hs : s = ""
    · simp [truthyValue, hs] at h
    · simp only [truthyValue, if_neg hs, Option.some.injEq] at h
      subst h
      exact ⟨rfl, hs⟩

/-- The order of the sources of `getCSRFToken`, in terms of what
`getCsrfTokenFromCookie` returns: its non-empty result; otherwise the
non-empty value stored under `x-csrf-token` in localStorage; otherwise the
in-memory cached token, which is never the empty string once it is set; and
when none of the three is available the error
`No CSRF token available. Please login again.`  For cookies whose names and
values hold no `=`, `;` or white space, `getCsrfTokenFromCookie` returns the
decoded value of the first cookie named `csrf-token`. -/
theorem getCSRFToken_source_order (decodeURIComponent : String → Except String String)
    (w : World) :
    (∀ c, getCsrfTokenFromCookie decodeURIComponent w.cookie = .ok (some c) → c ≠ "" →
      (getCSRFToken decodeURIComponent w).1 = .ok c) ∧
    (∀ s, (getCsrfTokenFromCookie decodeURIComponent w.cookie = .ok none
        ∨ getCsrfTokenFromCookie decodeURIComponent w.cookie = .ok (some "")) →
      w.localStorage.getItem "x-csrf-token" = some s → s ≠ "" →
      (getCSRFToken decodeURIComponent w).1 = .ok s) ∧
    (∀ m, (getCsrfTokenFromCookie decodeURIComponent w.cookie = .ok none
        ∨ getCsrfTokenFromCookie decodeURIComponent w.cookie = .ok (some "")) →
      (w.localStorage.getItem "x-csrf-token" = none
        ∨ w.localStorage.getItem "x-csrf-token" = some "") →
      w.csrfToken = some m → m ≠ "" →
      (getCSRFToken decodeURIComponent w).1 = .ok m) ∧
    ((getCsrfTokenFromCookie decodeURIComponent w.cookie = .ok none
        ∨ getCsrfTokenFromCookie decodeURIComponent w.cookie = .ok (some "")) →
      (w.localStorage.getItem "x-csrf-token" = none
        ∨ w.localStorage.getItem "x-csrf-token" = some "") →
      (w.csrfToken = none ∨ w.csrfToken = some "") →
      (getCSRFToken decodeURIComponent w).1
        = .error "No CSRF token available. Please login again.") ∧
    (∀ jar : List (String × String), (∀ c ∈ jar, cookieOk c = true) →
      w.cookie = cookieString jar →
      getCsrfTokenFromCookie decodeURIComponent w.cookie
        = match jar.find? (fun c => c.1 = "csrf-token") with
          | some c => (decodeURIComponent c.2).map some
          | none => .ok none) ∧
    (w.csrfToken ≠ some "" → (getCSRFToken decodeURIComponent w).2.csrfToken ≠ some "") := by
  have hcookie : ∀ v, (v = none ∨ v = some "") →
      getCsrfTokenFromCookie decodeURIComponent w.cookie = .ok v →
      getCSRFToken decodeURIComponent w =
        match truthyValue (w.localStorage.getItem "x-csrf-token") with
        | some token => (.ok token, { w with csrfToken := some token })
        | none =>
          match truthyValue w.csrfToken with
          | some token => (.ok token, w)
          | none => (.error "No CSRF token available. Please login again.", w) := by
    intro v hv h
    unfold getCSRFToken
    rw [h]
    simp only [(truthyValue_eq_none_iff v).2 hv]
  have hcookie2 : (getCsrfTokenFromCookie decodeURIComponent w.cookie = .ok none
        ∨ getCsrfTokenFromCookie decodeURIComponent w.cookie = .ok (some "")) →
      getCSRFToken decodeURIComponent w =
        match truthyValue (w.localStorage.getItem "x-csrf-token") with
        | some token => (.ok token, { w with csrfToken := some token })
        | none =>
          match truthyValue w.csrfToken with
          | some token => (.ok token, w)
          | none => (.error "No CSRF token available. Please login again.", w) := by
    rintro (h | h)
    · exact hcookie none (Or.inl rfl) h
    · exact hcookie (some "") (Or.inr rfl) h
  refine ⟨?_, ?_, ?_, ?_, ?_, ?_⟩
  · intro c hc hne
    unfold getCSRFToken
    rw [hc]
    simp only [truthyValue_some c hne]
  · intro s hck hs hne
    rw [hcookie2 hck, hs]
    simp only [truthyValue_some s hne]
  · intro m hck hls hm hne
    rw [hcookie2 hck]
    simp only [(truthyValue_eq_none_iff _).2 hls, hm, truthyValue_some m hne]
  · intro hck hls hm
    rw [hcookie2 hck]
    simp only [(truthyValue_eq_none_iff _).2 hls, (truthyValue_eq_none_iff _).2 hm]
  · intro jar hjar hw
    rw [hw]
    exact getCsrfTokenFromCookie_cookieString decodeURIComponent jar hjar
  · intro hcache
    unfold getCSRFToken
    cases getCsrfTokenFromCookie decodeURIComponent w.cookie with
    | error e => exact hcache
    | ok v =>
      simp only []
      cases h1 : truthyValue v with
      | some c =>
        have := (truthyValue_eq_some v c h1).2
        simpa using this
      | none =>
        simp only []
        cases h2 : truthyValue (w.localStorage.getItem "x-csrf-token") with
        | some c =>
          have := (truthyValue_eq_some _ c h2).2
          simpa using this
        | none =>
          simp only []
          cases truthyValue w.csrfToken <;> exact hcache

/-- Witness of `getCSRFToken_source_order`: a cookie that wins over the stored
and the cached token, a stored token that wins over the cached one, a cached
token alone, and a fresh browser in which the call fails. -/
theorem getCSRFToken_source_order_witness :
    (getCSRFToken .ok cookieWorld).1 = .ok "abc" ∧
    (getCSRFToken .ok storedWorld).1 = .ok "C" ∧
    (getCSRFToken .ok cachedWorld).1 = .ok "M" ∧
    (getCSRFToken .ok emptyWorld).1 = .error "No CSRF token available. Please login again." ∧
    getCsrfTokenFromCookie .ok cookieWorld.cookie = .ok (some "abc") :=
  ⟨(getCSRFToken_source_order .ok cookieWorld).1 "abc" rfl (by decide),
   (getCSRFToken_source_order .ok storedWorld).2.1 "C" (Or.inl rfl) rfl (by decide),
   (getCSRFToken_source_order .ok cachedWorld).2.2.1 "M" (Or.inl rfl) (Or.inl rfl) rfl
      (by decide),
   (getCSRFToken_source_order .ok emptyWorld).2.2.2.1 (Or.inl rfl) (Or.inl rfl) (Or.inl rfl),
   (getCSRFToken_source_order .ok cookieWorld).2.2.2.2.1
      [("theme", "dark"), ("csrf-token", "abc")] (by decide) rfl⟩

/-- C6: with the cookies `theme=dark; csrf-token=abc==` in `document.cookie`
the value of the `csrf-token` cookie is `abc==`, and it is not empty, but
`getCsrfTokenFromCookie` keeps only the piece between the first and the
second `=`, so that `getCSRFToken` returns `abc` and not the value of the
cookie. -/
theorem getCSRFToken_truncates_cookie_value :
    paddedCookieWorld.cookie = "theme=dark; csrf-token=abc==" ∧
    paddedCookieWorld.cookie = cookieString [("theme", "dark"), ("csrf-token", "abc==")] ∧
    jsSplit (jsTrim " csrf-token=abc==") '=' = ["csrf-token", "abc", "", ""] ∧
    getCsrfTokenFromCookie .ok paddedCookieWorld.cookie = .ok (some "abc") ∧
    (getCSRFToken .ok paddedCookieWorld).1 = .ok "abc" ∧
    (getCSRFToken .ok paddedCookieWorld).1 ≠ .ok "abc==" := by
  refine ⟨by decide, rfl, by decide, rfl, rfl, ?_⟩
  intro h
  have h2 : (Except.ok "abc" : Except String String) = .ok "abc==" := h
  injection h2 with h3
  exact absurd h3 (by decide)

/-- A `csrf-token` cookie whose value is the malformed escape `%` makes
`getCSRFToken` throw what `decodeURIComponent` throws, whatever is stored
under `x-csrf-token` or cached. -/
theorem getCSRFToken_throws_on_malformed_cookie
    (decodeURIComponent : String → Except String String) (e : String) (w : World)
    (hdecode : decodeURIComponent "%" = .error e) (hcookie : w.cookie = "csrf-token=%") :
    getCSRFToken decodeURIComponent w = (.error e, w) := by
  have h : getCsrfTokenFromCookie decodeURIComponent "csrf-token=%"
      = (decodeURIComponent "%").map some := rfl
  unfold getCSRFToken
  rw [hcookie, h, hdecode]
  rfl

/-! ## Theorems: the advisor login handler -/

/-- Reading a key after `setItem`. -/
theorem Storage.getItem_setItem (s : Storage) (key value k : String) :
    (s.setItem key value).getItem k = if k = key then some value else s.getItem k := rfl

/-- Reading a key of localStorage after `setItem`. -/
theorem getItem_setLocal (w : World) (key value k : String) :
    (w.setLocal key value).localStorage.getItem k
      = if k = key then some value else w.localStorage.getItem k := rfl

/-- The world `handleSubmit` returns when the fields are valid and the login
response has status 200 or 201. -/
theorem handleSubmit_login_ok (stringify : UserProfile → String) (email password : String)
    (status : Nat) (data : LoginData) (csrf : HttpOutcome CsrfData) (w : World) (s : FormState)
    (hemail : validateEmail email = "") (hpw : validatePassword password = "")
    (hstatus : status = 200 ∨ status = 201) :
    (handleSubmit stringify email password (.response status data) csrf w s).1 =
      match csrf with
      | .networkError =>
        ((storeLogin stringify data ((w.send loginRequest).toast
          (.success "Login successful ✅"))).send csrfRequest).toast
            (.error "Network error. Please try again later.")
      | .response csrfStatus csrfData =>
        (if csrfStatus = 200 ∨ csrfStatus = 201 then
          ((storeLogin stringify data ((w.send loginRequest).toast
            (.success "Login successful ✅"))).send csrfRequest).setLocal "x-csrf-token"
              (jsString "undefined" csrfData.csrfToken)
        else
          ((storeLogin stringify data ((w.send loginRequest).toast
            (.success "Login successful ✅"))).send csrfRequest).toast
              (.error ((truthyValue csrfData.message).getD "Failed to fetch CSRF token"))).navigate
          "/advisor-payments" := by
  unfold handleSubmit
  simp only [hemail, hpw, and_self, if_true, axiosAnyStatus, hstatus]
  cases csrf <;> rfl

/-- The keys `storeLogin` writes and the values it gives them; every other
key, the session storage, the cookies and the cached token stay as they
are. -/
theorem storeLogin_spec (stringify : UserProfile → String) (data : LoginData) (w : World) :
    (storeLogin stringify data w).localStorage.getItem "access_token"
      = some (jsString "undefined" data.access_token) ∧
    (storeLogin stringify data w).localStorage.getItem "refresh_token"
      = (match truthyValue data.refresh_token with
         | some refresh => some refresh
         | none => w.localStorage.getItem "refresh_token") ∧
    (storeLogin stringify data w).localStorage.getItem "user"
      = (match data.user with
         | some user => some (stringify user)
         | none => w.localStorage.getItem "user") ∧
    (∀ k, k ≠ "access_token" → k ≠ "refresh_token" → k ≠ "user" →
      (storeLogin stringify data w).localStorage.getItem k = w.localStorage.getItem k) ∧
    (storeLogin stringify data w).cookie = w.cookie ∧
    (storeLogin stringify data w).csrfToken = w.csrfToken ∧
    (storeLogin stringify data w).sessionStorage = w.sessionStorage ∧
    (storeLogin stringify data w).requests = w.requests := by
  unfold storeLogin
  cases truthyValue data.refresh_token <;> cases data.user <;>
    simp +contextual [Storage.getItem_setItem, World.setLocal]

/-- The handler writes neither the cookies nor the cached CSRF token nor the
session storage, whatever it is given and whatever the backend answers. -/
theorem handleSubmit_frame (stringify : UserProfile → String) (email password : String)
    (login : HttpOutcome LoginData) (csrf : HttpOutcome CsrfData) (w : World) (s : FormState) :
    (handleSubmit stringify email password login csrf w s).1.cookie = w.cookie ∧
    (handleSubmit stringify email password login csrf w s).1.csrfToken = w.csrfToken ∧
    (handleSubmit stringify email password login csrf w s).1.sessionStorage
      = w.sessionStorage := by
  unfold handleSubmit
  simp only []
  split_ifs with h
  · cases login with
    | networkError => exact ⟨rfl, rfl, rfl⟩
    | response status data =>
      have hst := storeLogin_spec stringify data
        ((w.send loginRequest).toast (.success "Login successful ✅"))
      obtain ⟨-, -, -, -, h1, h2, h3, -⟩ := hst
      simp only [axiosAnyStatus]
      split_ifs
      · cases csrf with
        | networkError => exact ⟨h1, h2, h3⟩
        | response csrfStatus csrfData =>
          simp only [axiosAnyStatus]
          split_ifs
          · exact ⟨h1, h2, h3⟩
          · exact ⟨h1, h2, h3⟩
      · exact ⟨rfl, rfl, rfl⟩
      · exact ⟨rfl, rfl, rfl⟩
  · exact ⟨rfl, rfl, rfl⟩

/-- Without a cookie, a stored token or a cached token `secureRequest` throws
before it builds a request, and the world stays as it is. -/
theorem secureRequest_error_of_no_token (decodeURIComponent : String → Except String String)
    (url : String) (options : Options) (w : World)
    (hcookie : getCsrfTokenFromCookie decodeURIComponent w.cookie = .ok none)
    (hstored : w.localStorage.getItem "x-csrf-token" = none)
    (hcache : w.csrfToken = none) :
    secureRequest decodeURIComponent url options w
      = (.error "No CSRF token available. Please login again.", w) := by
  unfold secureRequest getCSRFToken
  simp only [hcookie, hstored, hcache, truthyValue]

/-- C7: in the advisor login flow, starting from a session without any CSRF
token (no `csrf-token` cookie, no `x-csrf-token` in localStorage, empty
in-memory cache), if the login request succeeds with access token `T` and the
CSRF-token request returns a status outside 2xx, then afterwards localStorage
holds `access_token = T`, no CSRF token is stored, and a protected action
through `secureRequest` fails with the error `No CSRF token available.`
without sending a request. -/
theorem login_csrf_failure_leaves_partial_session
    (stringify : UserProfile → String) (decodeURIComponent : String → Except String String)
    (email password T : String) (status csrfStatus : Nat) (data : LoginData)
    (csrfData : CsrfData) (w : World) (s : FormState)
    (hemail : validateEmail email = "") (hpw : validatePassword password = "")
    (hstatus : status = 200 ∨ status = 201) (hT : data.access_token = some T)
    (hcsrf : ¬ (200 ≤ csrfStatus ∧ csrfStatus < 300))
    (hcookie : getCsrfTokenFromCookie decodeURIComponent w.cookie = .ok none)
    (hstored : w.localStorage.getItem "x-csrf-token" = none)
    (hcache : w.csrfToken = none) :
    (handleSubmit stringify email password (.response status data)
        (.response csrfStatus csrfData) w s).1.localStorage.getItem "access_token" = some T ∧
    (handleSubmit stringify email password (.response status data)
        (.response csrfStatus csrfData) w s).1.localStorage.getItem "x-csrf-token" = none ∧
    ∀ url options,
      secureRequest decodeURIComponent url options
        (handleSubmit stringify email password (.response status data)
          (.response csrfStatus csrfData) w s).1
      = (.error "No CSRF token available. Please login again.",
         (handleSubmit stringify email password (.response status data)
          (.response csrfStatus csrfData) w s).1) := by
  have hframe := handleSubmit_frame stringify email password (.response status data)
    (.response csrfStatus csrfData) w s
  have hne : ¬ (csrfStatus = 200 ∨ csrfStatus = 201) := by
    rintro (h | h) <;> exact hcsrf (by omega)
  have hst := storeLogin_spec stringify data
    ((w.send loginRequest).toast (.success "Login successful ✅"))
  have hfinal := handleSubmit_login_ok stringify email password status data
    (.response csrfStatus csrfData) w s hemail hpw hstatus
  simp only [if_neg hne] at hfinal
  have h1 : (handleSubmit stringify email password (.response status data)
        (.response csrfStatus csrfData) w s).1.localStorage.getItem "access_token" = some T := by
    rw [hfinal]
    have := hst.1
    rw [hT] at this
    exact this
  have h2 : (handleSubmit stringify email password (.response status data)
        (.response csrfStatus csrfData) w s).1.localStorage.getItem "x-csrf-token" = none := by
    rw [hfinal]
    have := hst.2.2.2.1 "x-csrf-token" (by decide) (by decide) (by decide)
    exact this.trans hstored
  refine ⟨h1, h2, ?_⟩
  intro url options
  apply secureRequest_error_of_no_token
  · rw [hframe.1]; exact hcookie
  · exact h2
  · rw [hframe.2.1]; exact hcache

/-- Witness of `login_csrf_failure_leaves_partial_session`: a login from a
fresh browser whose CSRF-token request is answered with status 500. -/
theorem login_csrf_failure_leaves_partial_session_witness :
    (handleSubmit sampleStringify "ann@example.com" "secret-password"
        (.response 200 sampleLogin) (.response 500 ⟨none, none⟩) emptyWorld
        initialForm).1.localStorage.getItem "access_token" = some "T" ∧
    (handleSubmit sampleStringify "ann@example.com" "secret-password"
        (.response 200 sampleLogin) (.response 500 ⟨none, none⟩) emptyWorld
        initialForm).1.localStorage.getItem "x-csrf-token" = none ∧
    (secureRequest .ok "/api/payment/create-intent" Options.post
        (handleSubmit sampleStringify "ann@example.com" "secret-password"
          (.response 200 sampleLogin) (.response 500 ⟨none, none⟩) emptyWorld
          initialForm).1).1 = .error "No CSRF token available. Please login again." :=
  have h := login_csrf_failure_leaves_partial_session sampleStringify .ok "ann@example.com"
    "secret-password" "T" 200 500 sampleLogin ⟨none, none⟩ emptyWorld initialForm
    (by decide) (by decide) (Or.inl rfl) rfl (by decide) rfl rfl rfl
  ⟨h.1, h.2.1, congrArg Prod.fst (h.2.2 "/api/payment/create-intent" Options.post)⟩

/-- C8: in the advisor login handler, when the login request returns 200 or
201, localStorage `access_token` is set to the returned access token,
`refresh_token` and `user` are overwritten exactly when the response contains
them and otherwise keep their prior values, and when the CSRF-token request
returns 200 or 201 the CSRF token it returned is stored under
`x-csrf-token`. -/
theorem login_success_stores_session (stringify : UserProfile → String)
    (email password : String) (status : Nat) (data : LoginData) (csrf : HttpOutcome CsrfData)
    (w : World) (s : FormState)
    (hemail : validateEmail email = "") (hpw : validatePassword password = "")
    (hstatus : status = 200 ∨ status = 201) :
    (∀ T, data.access_token = some T →
      (handleSubmit stringify email password (.response status data) csrf w
        s).1.localStorage.getItem "access_token" = some T) ∧
    (∀ r, data.refresh_token = some r → r ≠ "" →
      (handleSubmit stringify email password (.response status data) csrf w
        s).1.localStorage.getItem "refresh_token" = some r) ∧
    ((data.refresh_token = none ∨ data.refresh_token = some "") →
      (handleSubmit stringify email password (.response status data) csrf w
        s).1.localStorage.getItem "refresh_token" = w.localStorage.getItem "refresh_token") ∧
    (∀ u, data.user = some u →
      (handleSubmit stringify email password (.response status data) csrf w
        s).1.localStorage.getItem "user" = some (stringify u)) ∧
    (data.user = none →
      (handleSubmit stringify email password (.response status data) csrf w
        s).1.localStorage.getItem "user" = w.localStorage.getItem "user") ∧
    (∀ csrfStatus csrfData t, csrf = .response csrfStatus csrfData →
      (csrfStatus = 200 ∨ csrfStatus = 201) → csrfData.csrfToken = some t →
      (handleSubmit stringify email password (.response status data) csrf w
        s).1.localStorage.getItem "x-csrf-token" = some t) := by
  have hst := storeLogin_spec stringify data
    ((w.send loginRequest).toast (.success "Login successful ✅"))
  have hfinal := handleSubmit_login_ok stringify email password status data csrf w s
    hemail hpw hstatus
  have hkeep : ∀ k, k ≠ "x-csrf-token" →
      (handleSubmit stringify email password (.response status data) csrf w
        s).1.localStorage.getItem k
      = (storeLogin stringify data ((w.send loginRequest).toast
          (.success "Login successful ✅"))).localStorage.getItem k := by
    intro k hk
    rw [hfinal]
    cases csrf with
    | networkError => rfl
    | response csrfStatus csrfData =>
      simp only []
      split_ifs
      · exact (getItem_setLocal _ _ _ k).trans (if_neg hk)
      · rfl
  refine ⟨?_, ?_, ?_, ?_, ?_, ?_⟩
  · intro T hT
    rw [hkeep _ (by decide), hst.1, hT]; rfl
  · intro r hr hne
    rw [hkeep _ (by decide), hst.2.1, hr, truthyValue_some r hne]
  · intro hr
    rw [hkeep _ (by decide), hst.2.1, (truthyValue_eq_none_iff _).2 hr]; rfl
  · intro u hu
    rw [hkeep _ (by decide), hst.2.2.1, hu]
  · intro hu
    rw [hkeep _ (by decide), hst.2.2.1, hu]; rfl
  · intro csrfStatus csrfData t hcsrf hcs ht
    rw [hfinal, hcsrf]
    simp only [if_pos hcs, ht]
    rfl

/-- Witness of `login_success_stores_session`: a login whose response has an
access token and a user but no refresh token, followed by a CSRF-token
response with status 200. -/
theorem login_success_stores_session_witness :
    (handleSubmit sampleStringify "ann@example.com" "secret-password"
        (.response 200 sampleLogin) (.response 200 ⟨some "C", none⟩) emptyWorld
        initialForm).1.localStorage.getItem "access_token" = some "T" ∧
    (handleSubmit sampleStringify "ann@example.com" "secret-password"
        (.response 200 sampleLogin) (.response 200 ⟨some "C", none⟩) emptyWorld
        initialForm).1.localStorage.getItem "refresh_token" = none ∧
    (handleSubmit sampleStringify "ann@example.com" "secret-password"
        (.response 200 sampleLogin) (.response 200 ⟨some "C", none⟩) emptyWorld
        initialForm).1.localStorage.getItem "user" = some "ann@example.com" ∧
    (handleSubmit sampleStringify "ann@example.com" "secret-password"
        (.response 200 sampleLogin) (.response 200 ⟨some "C", none⟩) emptyWorld
        initialForm).1.localStorage.getItem "x-csrf-token" = some "C" :=
  have h := login_success_stores_session sampleStringify "ann@example.com" "secret-password"
    200 sampleLogin (.response 200 ⟨some "C", none⟩) emptyWorld initialForm
    (by decide) (by decide) (Or.inl rfl)
  ⟨h.1 "T" rfl, h.2.2.1 (Or.inl rfl), h.2.2.2.1 unpaidAdvisor rfl,
   h.2.2.2.2.2 200 ⟨some "C", none⟩ "C" rfl (Or.inl rfl) rfl⟩

/-! ## Theorems: the headers of the state-changing requests -/

/-- The helper `getCSRFToken` writes only its in-memory cache. -/
theorem getCSRFToken_frame (decodeURIComponent : String → Except String String) (w : World) :
    (getCSRFToken decodeURIComponent w).2.localStorage = w.localStorage ∧
    (getCSRFToken decodeURIComponent w).2.sessionStorage = w.sessionStorage ∧
    (getCSRFToken decodeURIComponent w).2.cookie = w.cookie ∧
    (getCSRFToken decodeURIComponent w).2.requests = w.requests := by
  unfold getCSRFToken
  cases getCsrfTokenFromCookie decodeURIComponent w.cookie with
  | error e => exact ⟨rfl, rfl, rfl, rfl⟩
  | ok v =>
    simp only []
    cases truthyValue v with
    | some c => exact ⟨rfl, rfl, rfl, rfl⟩
    | none =>
      simp only []
      cases truthyValue (w.localStorage.getItem "x-csrf-token") with
      | some c => exact ⟨rfl, rfl, rfl, rfl⟩
      | none =>
        simp only []
        cases truthyValue w.csrfToken <;> exact ⟨rfl, rfl, rfl, rfl⟩

/-- A non-empty `access_token` in localStorage is the token `secureRequest`
finds. -/
theorem findToken_of_access_token (w : World) (t : String)
    (ht : w.localStorage.getItem "access_token" = some t) (hne : t ≠ "") :
    findToken w = some t := by
  simp [findToken, jsOr, ht, truthy, hne]

/-- The headers of a request of `secureRequest` whose options carry none. -/
theorem header_of_defaultHeaders (r : Request) (csrfToken : String) (token : Option String)
    (h : r.headers = defaultHeaders csrfToken token ++ []) :
    r.header "x-csrf-token" = some csrfToken ∧
    (∀ t, token = some t → t ≠ "" → r.header "Authorization" = some ("Bearer " ++ t)) := by
  constructor
  · cases ht : truthyValue token <;> simp [Request.header, h, defaultHeaders, ht]
  · intro t ht hne
    simp [Request.header, h, defaultHeaders, ht, truthyValue, hne]

/-- C9: the payment calls made through `secureRequest` (options without
headers of their own) carry an `x-csrf-token` header with the CSRF token and,
when a non-empty access token is stored, an `Authorization` bearer header with
it; the file-upload, profile-creation and seller-profile POST calls carry an
`Authorization` bearer header with the stored access token and no
`x-csrf-token` header. -/
theorem state_changing_request_headers :
    (∀ (decodeURIComponent : String → Except String String) (url : String)
        (options : Options) (w w1 : World) (csrfToken : String),
      options.headers = [] → getCSRFToken decodeURIComponent w = (.ok csrfToken, w1) →
      ∃ request, secureRequest decodeURIComponent url options w = (.ok request, w1.send request)
        ∧ request.header "x-csrf-token" = some csrfToken
        ∧ ∀ t, w.localStorage.getItem "access_token" = some t → t ≠ "" →
            request.header "Authorization" = some ("Bearer " ++ t)) ∧
    (∀ (endpoint : String) (net : HttpOutcome AdvisorUpload.UploadData) (w : World) (t : String),
      w.localStorage.getItem "access_token" = some t →
      (AdvisorUpload.handleFileUpload endpoint net w).2.requests
          = w.requests ++ [AdvisorUpload.uploadRequest endpoint w]
        ∧ (AdvisorUpload.uploadRequest endpoint w).header "Authorization"
            = some ("Bearer " ++ t)
        ∧ (AdvisorUpload.uploadRequest endpoint w).header "x-csrf-token" = none) ∧
    (∀ (w : World) (t : String), w.localStorage.getItem "access_token" = some t →
      (AdvisorUpload.profileRequest w).header "Authorization" = some ("Bearer " ++ t)
        ∧ (AdvisorUpload.profileRequest w).header "x-csrf-token" = none
        ∧ (AdvisorForm.profileRequest w).header "Authorization" = some ("Bearer " ++ t)
        ∧ (AdvisorForm.profileRequest w).header "x-csrf-token" = none
        ∧ ∀ endpoint,
          (AdvisorForm.uploadRequest endpoint w).header "Authorization" = some ("Bearer " ++ t)
          ∧ (AdvisorForm.uploadRequest endpoint w).header "x-csrf-token" = none) ∧
    (∀ (net : HttpOutcome SellerForm.ProfileResponse) (w : World) (t : String),
      w.localStorage.getItem "access_token" = some t → t ≠ "" →
      (SellerForm.handleSubmit net w).requests = w.requests ++ [SellerForm.profileRequest t]
        ∧ (SellerForm.profileRequest t).header "Authorization" = some ("Bearer " ++ t)
        ∧ (SellerForm.profileRequest t).header "x-csrf-token" = none) := by
  refine ⟨?_, ?_, ?_, ?_⟩
  · intro decodeURIComponent url options w w1 csrfToken hopt hcsrf
    have hframe := getCSRFToken_frame decodeURIComponent w
    rw [hcsrf] at hframe
    have hsend : secureRequest decodeURIComponent url options w =
        (.ok (Request.mk (options.method.getD "GET") (BACKEND_URL ++ url)
            (defaultHeaders csrfToken (findToken w1) ++ options.headers) true),
         w1.send (Request.mk (options.method.getD "GET") (BACKEND_URL ++ url)
            (defaultHeaders csrfToken (findToken w1) ++ options.headers) true)) := by
      unfold secureRequest
      rw [hcsrf]
    have hh := header_of_defaultHeaders
      (Request.mk (options.method.getD "GET") (BACKEND_URL ++ url)
        (defaultHeaders csrfToken (findToken w1) ++ options.headers) true)
      csrfToken (findToken w1) (by rw [hopt])
    refine ⟨_, hsend, hh.1, ?_⟩
    intro t ht hne
    refine hh.2 t (findToken_of_access_token w1 t ?_ hne) hne
    rw [hframe.1]; exact ht
  · intro endpoint net w t ht
    refine ⟨?_, ?_, ?_⟩
    · unfold AdvisorUpload.handleFileUpload
      cases axiosDefault net <;> rfl
    · simp [Request.header, AdvisorUpload.uploadRequest, ht, jsString]
    · simp [Request.header, AdvisorUpload.uploadRequest]
  · intro w t ht
    refine ⟨?_, ?_, ?_, ?_, ?_⟩
    · simp [Request.header, AdvisorUpload.profileRequest, ht, jsString]
    · simp [Request.header, AdvisorUpload.profileRequest]
    · simp [Request.header, AdvisorForm.profileRequest, ht, jsString]
    · simp [Request.header, AdvisorForm.profileRequest]
    · intro endpoint
      constructor
      · simp [Request.header, AdvisorForm.uploadRequest, ht, jsString]
      · simp [Request.header, AdvisorForm.uploadRequest]
  · intro net w t ht hne
    refine ⟨?_, ?_, ?_⟩
    · unfold SellerForm.handleSubmit
      rw [ht, truthyValue_some t hne]
      simp only []
      cases net with
      | networkError => rfl
      | response status data =>
        simp only [axiosAnyStatus]
        split_ifs <;> rfl
    · simp [Request.header, SellerForm.profileRequest]
    · simp [Request.header, SellerForm.profileRequest]

/-- Witness of `state_changing_request_headers`: the confirm call of the
payment page and the logo upload, both in a browser that stores the access
token `T` and the CSRF token `C`. -/
theorem state_changing_request_headers_witness :
    (∃ request, secureRequest .ok "/api/payment/confirm" Options.post csrfWorld
        = (.ok request, { csrfWorld with csrfToken := some "C" }.send request)
      ∧ request.header "x-csrf-token" = some "C"
      ∧ request.header "Authorization" = some "Bearer T") ∧
    (AdvisorUpload.uploadRequest (BACKEND_URL ++ "/api/upload/logo") csrfWorld).header
      "Authorization" = some "Bearer T" :=
  ⟨(state_changing_request_headers.1 .ok "/api/payment/confirm" Options.post csrfWorld
      { csrfWorld with csrfToken := some "C" } "C" rfl rfl).imp
      (fun _ h => ⟨h.1, h.2.1, h.2.2 "T" rfl (by decide)⟩),
   ((state_changing_request_headers.2.1 (BACKEND_URL ++ "/api/upload/logo")
      (.response 200 ⟨some "https://cdn.example.com/logo.png"⟩) csrfWorld "T" rfl).2.1)⟩

/-- C9, counterexample: in a browser that stores the access token `T` and the
CSRF token `C`, the logo upload is sent with the bearer header and without any
`x-csrf-token` header. -/
theorem upload_request_lacks_csrf_header :
    (AdvisorUpload.handleFileUpload (BACKEND_URL ++ "/api/upload/logo")
        (.response 200 ⟨some "https://cdn.example.com/logo.png"⟩) csrfWorld).2.requests
      = [AdvisorUpload.uploadRequest (BACKEND_URL ++ "/api/upload/logo") csrfWorld] ∧
    (AdvisorUpload.uploadRequest (BACKEND_URL ++ "/api/upload/logo") csrfWorld).header
      "Authorization" = some "Bearer T" ∧
    (AdvisorUpload.uploadRequest (BACKEND_URL ++ "/api/upload/logo") csrfWorld).header
      "x-csrf-token" = none ∧
    csrfWorld.localStorage.getItem "x-csrf-token" = some "C" := by
  refine ⟨rfl, ?_, ?_, rfl⟩ <;> decide

/-! ## Theorems: the login pages on mount -/

/-- The mount effect of the advisor login page leaves the stored CSRF token
in place. -/
theorem advisorAuth_mount_keeps_csrf_token (w : World) :
    (AdvisorAuth.mountEffect w).localStorage.getItem "x-csrf-token"
      = w.localStorage.getItem "x-csrf-token" := by
  simp [AdvisorAuth.mountEffect, getItem_setLocal]

/-- C10: after the advisor login page has mounted, localStorage holds the
empty string under `access_token` and `refresh_token` and the serialized empty
object under `user`, so no access token, refresh token or user object of a
previous session is left; the generic login page runs no effect on mount and
leaves the stored session as it was. -/
theorem login_page_mount_effects (w : World) :
    (AdvisorAuth.mountEffect w).localStorage.getItem "access_token" = some "" ∧
    (AdvisorAuth.mountEffect w).localStorage.getItem "refresh_token" = some "" ∧
    (AdvisorAuth.mountEffect w).localStorage.getItem "user" = some "\x7b\x7d" ∧
    Auth.mountEffect w = w := by
  refine ⟨?_, ?_, ?_, rfl⟩ <;> simp [AdvisorAuth.mountEffect, getItem_setLocal]

/-- C10, counterexample: the generic login page mounted in a browser that
stores the access token `T` and the CSRF token `C` of a previous session
leaves both in localStorage. -/
theorem auth_mount_keeps_previous_session :
    (Auth.mountEffect csrfWorld).localStorage.getItem "access_token" = some "T" ∧
    (Auth.mountEffect csrfWorld).localStorage.getItem "x-csrf-token" = some "C" := by
  constructor <;> decide

/-! ## Theorems: logout -/

/-- C11: `handleLogout` of the advisor dashboard clears the session for every
outcome of the logout request, also when no request is sent because no token
is stored: afterwards localStorage and sessionStorage are both empty and the
app has navigated to `/advisor-login`. -/
theorem advisor_logout_clears_session (net : HttpOutcome Unit) (w : World) :
    (AdvisorDashboard.handleLogout net w).localStorage = Storage.empty ∧
    (AdvisorDashboard.handleLogout net w).sessionStorage = Storage.empty ∧
    (∀ key, (AdvisorDashboard.handleLogout net w).localStorage.getItem key = none) ∧
    (∀ key, (AdvisorDashboard.handleLogout net w).sessionStorage.getItem key = none) ∧
    (AdvisorDashboard.handleLogout net w).navigations = w.navigations ++ ["/advisor-login"] ∧
    ((w.localStorage.getItem "access_token" = none
        ∨ w.localStorage.getItem "access_token" = some "") →
      (AdvisorDashboard.handleLogout net w).requests = w.requests) := by
  unfold AdvisorDashboard.handleLogout
  refine ⟨?_, ?_, ?_, ?_, ?_, ?_⟩
  · cases truthyValue (w.localStorage.getItem "access_token") <;> rfl
  · cases truthyValue (w.localStorage.getItem "access_token") <;> rfl
  · intro key; cases truthyValue (w.localStorage.getItem "access_token") <;> rfl
  · intro key; cases truthyValue (w.localStorage.getItem "access_token") <;> rfl
  · cases truthyValue (w.localStorage.getItem "access_token") <;> rfl
  · intro h
    rw [(truthyValue_eq_none_iff _).2 h]
    rfl

/-- Witness of `advisor_logout_clears_session`: a logout without a stored
token sends nothing and still navigates to the login page. -/
theorem advisor_logout_clears_session_witness :
    (AdvisorDashboard.handleLogout .networkError emptyWorld).requests = [] ∧
    (AdvisorDashboard.handleLogout .networkError sessionWorld).localStorage.getItem
      "access_token" = none ∧
    (AdvisorDashboard.handleLogout .networkError sessionWorld).navigations
      = ["/advisor-login"] :=
  ⟨(advisor_logout_clears_session .networkError emptyWorld).2.2.2.2.2 (Or.inl rfl),
   (advisor_logout_clears_session .networkError sessionWorld).2.2.1 "access_token",
   (advisor_logout_clears_session .networkError sessionWorld).2.2.2.2.1⟩

/-- The logout of the seller dashboard writes `document.cookie` only: both
storages stay as they are, whatever the setter of the cookies does. -/
theorem seller_logout_frame (assignCookie : String → String → String)
    (net : HttpOutcome Unit) (w : World) :
    (SellerDashboard.handleLogout assignCookie net w).localStorage = w.localStorage ∧
    (SellerDashboard.handleLogout assignCookie net w).sessionStorage = w.sessionStorage :=
  ⟨rfl, rfl⟩

/-- C12, the code at the failing input: after `handleLogout` of the seller
dashboard has run in a browser whose localStorage holds the access token, the
refresh token, the serialized user and the CSRF token, all four are still
stored, for every outcome of the logout request and whatever the setter of the
cookies does. -/
theorem seller_logout_keeps_session (assignCookie : String → String → String)
    (net : HttpOutcome Unit) :
    (SellerDashboard.handleLogout assignCookie net sessionWorld).localStorage.getItem
      "access_token" = some "T" ∧
    (SellerDashboard.handleLogout assignCookie net sessionWorld).localStorage.getItem
      "refresh_token" = some "R" ∧
    (SellerDashboard.handleLogout assignCookie net sessionWorld).localStorage.getItem
      "user" = some "ann@example.com" ∧
    (SellerDashboard.handleLogout assignCookie net sessionWorld).localStorage.getItem
      "x-csrf-token" = some "C" := by
  rw [(seller_logout_frame assignCookie net sessionWorld).1]
  refine ⟨?_, ?_, ?_, ?_⟩ <;> decide

/-! ## Theorems: the guard, its first render and its storage frame -/

/-- C19: without an access token the first render of the guard, made with the
initial state before the effect runs, shows the loading indicator; `checkAuth`
then finishes without sending a request, and the next render is the
redirect. -/
theorem no_token_spinner_then_redirect (p : Props) (net : HttpOutcome UserProfile) (w : World)
    (h : w.localStorage.getItem "access_token" = none
      ∨ w.localStorage.getItem "access_token" = some "") :
    (∃ path, renderTrace p net w = [.spinner, .navigate path]) ∧
    (mount p net w).1.requests = w.requests := by
  have hm := mount_no_token p net w ((truthy_eq_false_iff _).2 h)
  unfold renderTrace
  rw [hm, render_no_user]
  refine ⟨?_, rfl⟩
  have h1 : render p initialState = .spinner := by simp [render, initialState]
  rw [h1]
  split_ifs <;> exact ⟨_, rfl⟩

/-- Witness of `no_token_spinner_then_redirect` in a fresh browser. -/
theorem no_token_spinner_then_redirect_witness :
    (∃ path, renderTrace ⟨some "seller", none⟩ .networkError emptyWorld
      = [.spinner, .navigate path]) ∧
    (mount ⟨some "seller", none⟩ .networkError emptyWorld).1.requests = [] :=
  no_token_spinner_then_redirect ⟨some "seller", none⟩ .networkError emptyWorld (Or.inl rfl)

/-- C19, counterexample: in a fresh browser, without any access token, the
guard of an advisor page renders the loading indicator before it renders the
redirect to `/advisor-login`. -/
theorem no_token_first_render_is_spinner :
    emptyWorld.localStorage.getItem "access_token" = none ∧
    renderTrace ⟨some "advisor", none⟩ .networkError emptyWorld
      = [.spinner, .navigate "/advisor-login"] := by
  constructor <;> decide

/-- C20: for every stored token and every outcome of the profile request,
`checkAuth` leaves localStorage and sessionStorage exactly as they were; of
the storages it reads `access_token` only, so two worlds that agree on that
key give the same component state. -/
theorem checkAuth_storage_frame (p : Props) (net : HttpOutcome UserProfile) (s : State) :
    (∀ w : World, (checkAuth p net w s).1.localStorage = w.localStorage ∧
      (checkAuth p net w s).1.sessionStorage = w.sessionStorage) ∧
    (∀ w w0 : World,
      w.localStorage.getItem "access_token" = w0.localStorage.getItem "access_token" →
      (checkAuth p net w s).2 = (checkAuth p net w0 s).2) := by
  constructor
  · intro w
    unfold checkAuth
    cases w.localStorage.getItem "access_token" with
    | none => exact ⟨rfl, rfl⟩
    | some token =>
      simp only []
      split_ifs
      · exact ⟨rfl, rfl⟩
      · cases axiosDefault net with
        | none => exact ⟨rfl, rfl⟩
        | some u =>
          simp only []
          split_ifs <;> exact ⟨rfl, rfl⟩
  · intro w w0 h
    unfold checkAuth
    rw [← h]
    cases w.localStorage.getItem "access_token" with
    | none => rfl
    | some token =>
      simp only []
      split_ifs
      · rfl
      · cases axiosDefault net with
        | none => rfl
        | some u =>
          simp only []
          split_ifs <;> rfl

/-- Witness of `checkAuth_storage_frame`: a full session survives the check,
and dropping every other key does not change what the guard decides. -/
theorem checkAuth_storage_frame_witness :
    (checkAuth ⟨some "advisor", none⟩ (.response 200 unpaidAdvisor) sessionWorld
      initialState).1.localStorage = sessionWorld.localStorage ∧
    (checkAuth ⟨some "advisor", none⟩ (.response 200 unpaidAdvisor) sessionWorld
      initialState).2
      = (checkAuth ⟨some "advisor", none⟩ (.response 200 unpaidAdvisor) loggedInWorld
        initialState).2 :=
  ⟨((checkAuth_storage_frame ⟨some "advisor", none⟩ (.response 200 unpaidAdvisor)
      initialState).1 sessionWorld).1,
   (checkAuth_storage_frame ⟨some "advisor", none⟩ (.response 200 unpaidAdvisor)
      initialState).2 sessionWorld loggedInWorld rfl⟩

/-! ## Theorems: the address pattern -/

/-- An empty pattern matches the empty string only. -/
theorem matchAtoms_nil (s : List Char) : matchAtoms [] s = true ↔ s = [] := by
  cases s <;> simp [matchAtoms]

/-- A class that occurs once takes the first character. -/
theorem matchAtoms_one (cls : Char → Bool) (rest : List Atom) (s : List Char) :
    matchAtoms (⟨cls, .one⟩ :: rest) s = true
      ↔ ∃ c t, s = c :: t ∧ cls c = true ∧ matchAtoms rest t = true := by
  cases s with
  | nil => simp [matchAtoms]
  | cons c t =>
    simp only [matchAtoms, Bool.and_eq_true, List.cons.injEq]
    constructor
    · rintro ⟨h1, h2⟩; exact ⟨c, t, ⟨rfl, rfl⟩, h1, h2⟩
    · rintro ⟨c0, t0, ⟨rfl, rfl⟩, h1, h2⟩; exact ⟨h1, h2⟩

/-- A class under `+` takes a non-empty run of its characters. -/
theorem matchAtoms_plus (cls : Char → Bool) (rest : List Atom) (s : List Char) :
    matchAtoms (⟨cls, .plus⟩ :: rest) s = true
      ↔ ∃ a t, a ≠ [] ∧ s = a ++ t ∧ (∀ c ∈ a, cls c = true)
          ∧ matchAtoms rest t = true := by
  induction s with
  | nil =>
    simp only [matchAtoms, Bool.false_eq_true, false_iff, not_exists, not_and]
    intro a t ha hs
    cases a with
    | nil => exact absurd rfl ha
    | cons x xs => simp at hs
  | cons c t ih =>
    simp only [matchAtoms, Bool.and_eq_true, Bool.or_eq_true]
    constructor
    · rintro ⟨hc, h | h⟩
      · exact ⟨[c], t, by simp, rfl, by simpa using hc, h⟩
      · obtain ⟨a, u, _, hs, ha, hu⟩ := ih.1 h
        refine ⟨c :: a, u, by simp, by simp [hs], ?_, hu⟩
        intro x hx
        rcases List.mem_cons.1 hx with rfl | hx
        · exact hc
        · exact ha x hx
    · rintro ⟨a, u, hne, hs, ha, hu⟩
      cases a with
      | nil => exact absurd rfl hne
      | cons x xs =>
        simp only [List.cons_append, List.cons.injEq] at hs
        obtain ⟨rfl, rfl⟩ := hs
        refine ⟨ha c (by simp), ?_⟩
        cases xs with
        | nil => left; simpa using hu
        | cons y ys =>
          right
          exact ih.2 ⟨y :: ys, u, by simp, rfl, fun z hz => ha z (by simp [hz]), hu⟩

/-- The address pattern matches exactly the strings `a@b.c` with non-empty
`a`, `b`, `c` free of white space and `@`. -/
theorem matchAtoms_emailRegex (s : List Char) :
    matchAtoms emailRegex s = true
      ↔ ∃ a b c, s = a ++ '@' :: (b ++ '.' :: c) ∧ a ≠ [] ∧ b ≠ [] ∧ c ≠ [] ∧
          (∀ x ∈ a, notSpaceOrAt x = true) ∧ (∀ x ∈ b, notSpaceOrAt x = true) ∧
          (∀ x ∈ c, notSpaceOrAt x = true) := by
  unfold emailRegex
  constructor
  · intro h
    obtain ⟨a, t1, ha, hs1, hca, h1⟩ := (matchAtoms_plus _ _ _).1 h
    obtain ⟨x, t2, hs2, hx, h2⟩ := (matchAtoms_one _ _ _).1 h1
    obtain ⟨b, t3, hb, hs3, hcb, h3⟩ := (matchAtoms_plus _ _ _).1 h2
    obtain ⟨y, t4, hs4, hy, h4⟩ := (matchAtoms_one _ _ _).1 h3
    obtain ⟨c, t5, hc, hs5, hcc, h5⟩ := (matchAtoms_plus _ _ _).1 h4
    have ht5 : t5 = [] := (matchAtoms_nil t5).1 h5
    have hx' : x = '@' := by simpa using hx
    have hy' : y = '.' := by simpa using hy
    subst ht5 hx' hy'
    refine ⟨a, b, c, ?_, ha, hb, hc, hca, hcb, hcc⟩
    rw [hs1, hs2, hs3, hs4, hs5, List.append_nil]
  · rintro ⟨a, b, c, hs, ha, hb, hc, hca, hcb, hcc⟩
    refine (matchAtoms_plus _ _ _).2 ⟨a, _, ha, hs, hca, ?_⟩
    refine (matchAtoms_one _ _ _).2 ⟨'@', _, rfl, by simp, ?_⟩
    refine (matchAtoms_plus _ _ _).2 ⟨b, _, hb, rfl, hcb, ?_⟩
    refine (matchAtoms_one _ _ _).2 ⟨'.', _, rfl, by simp, ?_⟩
    exact (matchAtoms_plus _ _ _).2 ⟨c, [], hc, by simp, hcc, (matchAtoms_nil _).2 rfl⟩

/-- The decomposition of a match, in the words of the spec. -/
theorem matchAtoms_emailRegex_iff_shape (s : List Char) :
    matchAtoms emailRegex s = true ↔ EmailShape s := by
  have hcls : ∀ x, notSpaceOrAt x = true ↔ isJsWhitespace x = false ∧ x ≠ '@' := by
    intro x; simp [notSpaceOrAt]
  rw [matchAtoms_emailRegex]
  constructor
  · rintro ⟨a, b, c, hs, ha, hb, hc, hca, hcb, hcc⟩
    refine ⟨?_, a, b ++ '.' :: c, hs, ?_, ?_, ha, b, c, rfl, hb, hc⟩
    · intro x hx
      rw [hs] at hx
      simp only [List.mem_append, List.mem_cons] at hx
      rcases hx with hx | rfl | hx | rfl | hx
      · exact ((hcls x).1 (hca x hx)).1
      · decide
      · exact ((hcls x).1 (hcb x hx)).1
      · decide
      · exact ((hcls x).1 (hcc x hx)).1
    · intro hm; exact ((hcls _).1 (hca _ hm)).2 rfl
    · intro hm
      simp only [List.mem_append, List.mem_cons] at hm
      rcases hm with hm | hm | hm
      · exact ((hcls _).1 (hcb _ hm)).2 rfl
      · exact absurd hm (by decide)
      · exact ((hcls _).1 (hcc _ hm)).2 rfl
  · rintro ⟨hws, loc, dom, hs, hloc, hdom, hne, b, c, hd, hb, hc⟩
    subst hd
    refine ⟨loc, b, c, hs, hne, hb, hc, ?_, ?_, ?_⟩
    · intro x hx
      exact (hcls x).2 ⟨hws x (by simp [hs, hx]), fun e => hloc (e ▸ hx)⟩
    · intro x hx
      exact (hcls x).2 ⟨hws x (by simp [hs, hx]),
        fun e => hdom (List.mem_append_left _ (e ▸ hx))⟩
    · intro x hx
      exact (hcls x).2 ⟨hws x (by simp [hs, hx]),
        fun e => hdom (List.mem_append_right _ (List.mem_cons_of_mem _ (e ▸ hx)))⟩

/-- C13: `validateEmail` (the same function in the login, advisor-login and
forgot-password forms) returns `Email is required` for the empty string; it
returns the empty string, meaning valid, exactly for the inputs without white
space, with exactly one `@` that has a non-empty part before it, and after it
a domain with a `.` that is neither its first nor its last character; and it
returns `Please enter a valid email address` for every other input.  So
`foo@bar` is rejected and `foo@bar.com` is accepted. -/
theorem validateEmail_shape (value : String) :
    Auth.validateEmail "" = "Email is required" ∧
    (Auth.validateEmail value = "" ↔ EmailShape value.data) ∧
    (value ≠ "" → ¬ EmailShape value.data →
      Auth.validateEmail value = "Please enter a valid email address") ∧
    Auth.validateEmail "foo@bar" = "Please enter a valid email address" ∧
    Auth.validateEmail "foo@bar.com" = "" ∧
    AdvisorAuth.validateEmail value = Auth.validateEmail value ∧
    ForgotPassword.validateEmail value = Auth.validateEmail value := by
  have hshape := matchAtoms_emailRegex_iff_shape value.data
  have hempty : ¬ EmailShape ("" : String).data := by
    rintro ⟨-, loc, dom, hs, -⟩
    cases loc <;> simp at hs
  refine ⟨by decide, ?_, ?_, by decide, by decide, rfl, rfl⟩
  · unfold Auth.validateEmail
    by_cases hv : value = ""
    · subst hv
      simp only [if_true]
      constructor
      · intro h; exact absurd h (by decide)
      · intro h; exact absurd h hempty
    · rw [if_neg hv]
      by_cases hm : matchAtoms emailRegex value.data = true
      · have : ¬ (matchAtoms emailRegex value.data = false) := by simp [hm]
        rw [if_neg this]
        exact ⟨fun _ => hshape.1 hm, fun _ => rfl⟩
      · have hf : matchAtoms emailRegex value.data = false := by simpa using hm
        rw [if_pos hf]
        constructor
        · intro h; exact absurd h (by decide)
        · intro h; exact absurd (hshape.2 h) hm
  · intro hv hs
    unfold Auth.validateEmail
    have hf : matchAtoms emailRegex value.data = false := by
      cases h : matchAtoms emailRegex value.data with
      | false => rfl
      | true => exact absurd (hshape.1 h) hs
    rw [if_neg hv, if_pos hf]

/-- Witness of `validateEmail_shape`: the shape of `foo@bar.com`, and an
address with a space in it. -/
theorem validateEmail_shape_witness :
    EmailShape "foo@bar.com".data ∧
    Auth.validateEmail "foo bar@baz.com" = "Please enter a valid email address" :=
  ⟨(validateEmail_shape "foo@bar.com").2.1.1 (by decide),
   (validateEmail_shape "foo bar@baz.com").2.2.1 (by decide)
     (fun h => absurd ((validateEmail_shape "foo bar@baz.com").2.1.2 h) (by decide))⟩

/-! ## Theorems: password strength -/

/-- The counter of `checkPasswordStrength` never exceeds five. -/
theorem strength_le_five (value : String) : Auth.strength value ≤ 5 := by
  unfold Auth.strength
  split_ifs <;> omega

/-- The three bands of `checkPasswordStrength`. -/
theorem checkPasswordStrength_cases (value : String) :
    (Auth.checkPasswordStrength value = "Weak" ↔ Auth.strength value ≤ 2) ∧
    (Auth.checkPasswordStrength value = "Medium"
      ↔ Auth.strength value = 3 ∨ Auth.strength value = 4) ∧
    (Auth.checkPasswordStrength value = "Strong" ↔ Auth.strength value = 5) ∧
    Auth.checkPasswordStrength value ≠ "" := by
  have h5 := strength_le_five value
  unfold Auth.checkPasswordStrength
  generalize Auth.strength value = n at h5 ⊢
  have e1 : ("Medium" = "Weak") = False := by decide
  have e2 : ("Strong" = "Weak") = False := by decide
  have e3 : ("Weak" = "Medium") = False := by decide
  have e4 : ("Strong" = "Medium") = False := by decide
  have e5 : ("Weak" = "Strong") = False := by decide
  have e6 : ("Medium" = "Strong") = False := by decide
  have e7 : ("Weak" = "") = False := by decide
  have e8 : ("Medium" = "") = False := by decide
  have e9 : ("Strong" = "") = False := by decide
  split_ifs with h1 h2 h3
  · simp only [e3, e5, e7, ne_eq, not_false_eq_true, true_iff, false_iff, and_true]
    omega
  · simp only [e1, e6, e8, ne_eq, not_false_eq_true, true_iff, false_iff, and_true]
    omega
  · simp only [e2, e4, e9, ne_eq, not_false_eq_true, true_iff, false_iff, and_true]
    omega
  · omega

/-- C14: `checkPasswordStrength` awards one point for each of: length at
least 8, an uppercase letter, a lowercase letter, a digit, a symbol; for every
input it returns `Weak` iff the score is at most 2, `Medium` iff the score is
3 or 4, `Strong` iff the score is 5, and never the empty string.  `abc` is
Weak and `Abcdefgh1`, with score 4, is Medium. -/
theorem checkPasswordStrength_bands (value : String) :
    Auth.strength value
      = (if 8 ≤ jsLength value then 1 else 0)
        + (if ∃ c ∈ value.data, 'A'.toNat ≤ c.toNat ∧ c.toNat ≤ 'Z'.toNat then 1 else 0)
        + (if ∃ c ∈ value.data, 'a'.toNat ≤ c.toNat ∧ c.toNat ≤ 'z'.toNat then 1 else 0)
        + (if ∃ c ∈ value.data, '0'.toNat ≤ c.toNat ∧ c.toNat ≤ '9'.toNat then 1 else 0)
        + (if ∃ c ∈ value.data, isSymbol c = true then 1 else 0) ∧
    (Auth.checkPasswordStrength value = "Weak" ↔ Auth.strength value ≤ 2) ∧
    (Auth.checkPasswordStrength value = "Medium"
      ↔ Auth.strength value = 3 ∨ Auth.strength value = 4) ∧
    (Auth.checkPasswordStrength value = "Strong" ↔ Auth.strength value = 5) ∧
    Auth.checkPasswordStrength value ≠ "" ∧
    AdvisorAuth.checkPasswordStrength value = Auth.checkPasswordStrength value ∧
    Auth.checkPasswordStrength "abc" = "Weak" ∧
    Auth.strength "Abcdefgh1" = 4 ∧
    Auth.checkPasswordStrength "Abcdefgh1" = "Medium" := by
  have h5 := strength_le_five value
  have hcls : ∀ (cls : Char → Bool) (P : Char → Prop) [DecidablePred P],
      (∀ c, cls c = true ↔ P c) →
      (if testClass cls value = true then 1 else 0)
        = (if ∃ c ∈ value.data, P c then 1 else 0) := by
    intro cls P _ hP
    have : testClass cls value = true ↔ ∃ c ∈ value.data, P c := by
      simp [testClass, List.any_eq_true, hP]
    by_cases h : testClass cls value = true
    · rw [if_pos h, if_pos (this.1 h)]
    · rw [if_neg h, if_neg (fun h2 => h (this.2 h2))]
  have hU : ∀ c, isUpperAZ c = true ↔ 'A'.toNat ≤ c.toNat ∧ c.toNat ≤ 'Z'.toNat := by
    intro c
    have e1 : 'A'.toNat = 65 := rfl
    have e2 : 'Z'.toNat = 90 := rfl
    simp [isUpperAZ, e1, e2]
  have hL : ∀ c, isLowerAZ c = true ↔ 'a'.toNat ≤ c.toNat ∧ c.toNat ≤ 'z'.toNat := by
    intro c
    have e1 : 'a'.toNat = 97 := rfl
    have e2 : 'z'.toNat = 122 := rfl
    simp [isLowerAZ, e1, e2]
  have hD : ∀ c, isDigit09 c = true ↔ '0'.toNat ≤ c.toNat ∧ c.toNat ≤ '9'.toNat := by
    intro c
    have e1 : '0'.toNat = 48 := rfl
    have e2 : '9'.toNat = 57 := rfl
    simp [isDigit09, e1, e2]
  refine ⟨?_, ?_, ?_, ?_, ?_, rfl, by decide, by decide, by decide⟩
  · unfold Auth.strength
    rw [hcls isUpperAZ _ hU, hcls isLowerAZ _ hL, hcls isDigit09 _ hD,
      hcls isSymbol (fun c => isSymbol c = true) (fun _ => Iff.rfl)]
  · exact (checkPasswordStrength_cases value).1
  · exact (checkPasswordStrength_cases value).2.1
  · exact (checkPasswordStrength_cases value).2.2.1
  · exact (checkPasswordStrength_cases value).2.2.2

/-! ## Theorems: the generic login handler -/

/-- C18: in the login handler of auth.jsx with valid fields, a 200 response
whose user has a verified address and the role seller stores `access_token`,
`refresh_token` and the serialized user in localStorage and navigates to
`/seller-dashboard`; a 200 response whose user has an unverified address
performs no navigation, shows the verify-your-email notification and leaves
localStorage exactly as it was. -/
theorem auth_login_verified_or_not (stringify : UserProfile → String)
    (email password : String) (data : LoginData) (user : UserProfile) (w : World)
    (hemail : Auth.validateEmail email = "") (hpw : Auth.validatePassword password = "")
    (huser : data.user = some user) :
    (user.isEmailVerified = true → user.role = "seller" →
      (Auth.handleSubmit stringify email password (.response 200 data) w).1.localStorage.getItem
          "access_token" = some (jsString "undefined" data.access_token) ∧
      (Auth.handleSubmit stringify email password (.response 200 data) w).1.localStorage.getItem
          "refresh_token" = some (jsString "undefined" data.refresh_token) ∧
      (Auth.handleSubmit stringify email password (.response 200 data) w).1.localStorage.getItem
          "user" = some (stringify user) ∧
      (Auth.handleSubmit stringify email password (.response 200 data) w).1.navigations
        = w.navigations ++ ["/seller-dashboard"]) ∧
    (user.isEmailVerified = false →
      (Auth.handleSubmit stringify email password (.response 200 data) w).1.navigations
        = w.navigations ∧
      (Auth.handleSubmit stringify email password (.response 200 data) w).1.toasts
        = w.toasts ++ [.error "Please check your email to verify your account."] ∧
      (Auth.handleSubmit stringify email password (.response 200 data) w).1.localStorage
        = w.localStorage) := by
  constructor
  · intro hv hr
    have hfinal : (Auth.handleSubmit stringify email password (.response 200 data) w).1
        = World.navigate
          (((((w.send Auth.loginRequest).toast (.success "Login successful ✅")).setLocal
            "access_token" (jsString "undefined" data.access_token)).setLocal "refresh_token"
            (jsString "undefined" data.refresh_token)).setLocal "user" (stringify user))
          "/seller-dashboard" := by
      unfold Auth.handleSubmit
      simp [hemail, hpw, axiosAnyStatus, huser, hv, hr]
    rw [hfinal]
    refine ⟨?_, ?_, ?_, rfl⟩ <;>
      simp [World.navigate, World.setLocal, World.toast, World.send, Storage.getItem_setItem]
  · intro hv
    have hfinal : (Auth.handleSubmit stringify email password (.response 200 data) w).1
        = (w.send Auth.loginRequest).toast
            (.error "Please check your email to verify your account.") := by
      unfold Auth.handleSubmit
      simp [hemail, hpw, axiosAnyStatus, huser, hv]
    rw [hfinal]
    exact ⟨rfl, rfl, rfl⟩

/-- Witness of `auth_login_verified_or_not`: a verified seller is sent to the
dashboard with the token stored. -/
theorem auth_login_verified_or_not_witness :
    (Auth.handleSubmit sampleStringify "sam@example.com" "secret-password"
        (.response 200 ⟨some "T", some "R", some verifiedSeller, none⟩)
        emptyWorld).1.localStorage.getItem "access_token" = some "T" ∧
    (Auth.handleSubmit sampleStringify "sam@example.com" "secret-password"
        (.response 200 ⟨some "T", some "R", some verifiedSeller, none⟩)
        emptyWorld).1.navigations = ["/seller-dashboard"] ∧
    (Auth.handleSubmit sampleStringify "ann@example.com" "secret-password"
        (.response 200 ⟨some "T", some "R", some unverifiedSeller, none⟩)
        sessionWorld).1.localStorage = sessionWorld.localStorage :=
  have h := (auth_login_verified_or_not sampleStringify "sam@example.com" "secret-password"
    ⟨some "T", some "R", some verifiedSeller, none⟩ verifiedSeller emptyWorld
    (by decide) (by decide) rfl).1 rfl rfl
  ⟨h.1, h.2.2.2,
   ((auth_login_verified_or_not sampleStringify "ann@example.com" "secret-password"
    ⟨some "T", some "R", some unverifiedSeller, none⟩ unverifiedSeller sessionWorld
    (by decide) (by decide) rfl).2 rfl).2.2⟩

/-! ## Theorems: validation failures stay local -/

/-- C15: in the submit handlers of the two login forms, the forgot-password
form and the advisor-registration form, whenever a field validator reports an
error for the entered values the handler sends no request, writes nothing to
localStorage and performs no navigation. -/
theorem invalid_fields_block_submit :
    (∀ (stringify : UserProfile → String) (email password : String)
        (login : HttpOutcome LoginData) (w : World),
      (Auth.validateEmail email ≠ "" ∨ Auth.validatePassword password ≠ "") →
      (Auth.handleSubmit stringify email password login w).1.requests = w.requests ∧
      (Auth.handleSubmit stringify email password login w).1.localStorage = w.localStorage ∧
      (Auth.handleSubmit stringify email password login w).1.navigations = w.navigations) ∧
    (∀ (stringify : UserProfile → String) (email password : String)
        (login : HttpOutcome LoginData) (csrf : HttpOutcome CsrfData) (w : World)
        (s : FormState),
      (validateEmail email ≠ "" ∨ validatePassword password ≠ "") →
      (handleSubmit stringify email password login csrf w s).1.requests = w.requests ∧
      (handleSubmit stringify email password login csrf w s).1.localStorage = w.localStorage ∧
      (handleSubmit stringify email password login csrf w s).1.navigations = w.navigations) ∧
    (∀ (email : String) (net : HttpOutcome ForgotPassword.ResponseData) (w : World)
        (s : ForgotPassword.FormState),
      ForgotPassword.validateEmail email ≠ "" →
      (ForgotPassword.handleSubmit email net w s).1.requests = w.requests ∧
      (ForgotPassword.handleSubmit email net w s).1.localStorage = w.localStorage ∧
      (ForgotPassword.handleSubmit email net w s).1.navigations = w.navigations) ∧
    (∀ (stringify : UserProfile → String) (formData : AdvisorRegister.FormData)
        (net : HttpOutcome (Option AdvisorRegister.RegisterData)) (w : World),
      AdvisorRegister.validateForm formData ≠ none →
      (AdvisorRegister.handleSubmit stringify formData net w).requests = w.requests ∧
      (AdvisorRegister.handleSubmit stringify formData net w).localStorage = w.localStorage ∧
      (AdvisorRegister.handleSubmit stringify formData net w).navigations = w.navigations) := by
  refine ⟨?_, ?_, ?_, ?_⟩
  · intro stringify email password login w h
    have hn : ¬ (Auth.validateEmail email = "" ∧ Auth.validatePassword password = "") := by
      rintro ⟨h1, h2⟩; rcases h with h | h <;> contradiction
    simp [Auth.handleSubmit, hn]
  · intro stringify email password login csrf w s h
    have hn : ¬ (validateEmail email = "" ∧ validatePassword password = "") := by
      rintro ⟨h1, h2⟩; rcases h with h | h <;> contradiction
    simp [handleSubmit, hn]
  · intro email net w s h
    simp [ForgotPassword.handleSubmit, h]
  · intro stringify formData net w h
    unfold AdvisorRegister.handleSubmit
    cases hv : AdvisorRegister.validateForm formData with
    | none => exact absurd hv h
    | some msg => exact ⟨rfl, rfl, rfl⟩

/-- Witness of `invalid_fields_block_submit`: the address `foo@bar` in the
generic login form and a password without a capital in the registration
form. -/
theorem invalid_fields_block_submit_witness :
    (Auth.handleSubmit sampleStringify "foo@bar" "secret-password"
        (.response 200 sampleLogin) loggedInWorld).1.requests = [] ∧
    (AdvisorRegister.handleSubmit sampleStringify
        ⟨"Ann", "Lee", "ann@example.com", "secret12"⟩ (.response 201 none)
        loggedInWorld).requests = [] :=
  ⟨(invalid_fields_block_submit.1 sampleStringify "foo@bar" "secret-password"
      (.response 200 sampleLogin) loggedInWorld (Or.inl (by decide))).1,
   (invalid_fields_block_submit.2.2.2 sampleStringify
      ⟨"Ann", "Lee", "ann@example.com", "secret12"⟩ (.response 201 none) loggedInWorld
      (by decide)).1⟩

/-! ## Theorems: the profile and upload forms -/

/-- C16, the code at the failing input: the initial values of the profile
form, with an empty company name, fail the validation schema whatever counts
as a URL, and yet the Continue action stores them in sessionStorage as the
advisor profile and proceeds to `/advisor-upload`.  The action does the same
for every values object: it never consults the schema. -/
theorem continue_skips_validation (isUrl : String → Bool)
    (stringify : AdvisorForm.Values → String) (values : AdvisorForm.Values) (w : World) :
    AdvisorForm.validationSchema isUrl AdvisorForm.initialValues = false ∧
    (AdvisorForm.continueClick stringify AdvisorForm.initialValues w).sessionStorage.getItem
      "advisor-profile"
      = some (stringify { AdvisorForm.initialValues with testimonials := [] }) ∧
    (AdvisorForm.continueClick stringify values w).sessionStorage.getItem "advisor-profile"
      = some (stringify { values with testimonials := [] }) ∧
    (AdvisorForm.continueClick stringify values w).navigations
      = w.navigations ++ ["/advisor-upload"] := by
  refine ⟨?_, ?_, ?_, rfl⟩
  · simp [AdvisorForm.validationSchema, AdvisorForm.initialValues]
  · simp [AdvisorForm.continueClick, Storage.getItem_setItem, World.navigate]
  · simp [AdvisorForm.continueClick, Storage.getItem_setItem, World.navigate]

/-- C17: in the validation schema of the upload form, a testimonial entry
whose client name is filled in (not empty and not blank) is accepted only if
the testimonial text and the PDF file are both present; an entry whose client
name is empty or blank is accepted whatever its text and file are.  So the
entries with all three parts and with none are accepted.  The profile form
applies the same rule to the PDF address, with a client name that is filled as
soon as it is not empty. -/
theorem testimonial_rule_keyed_on_client_name :
    (∀ t : AdvisorUpload.Testimonial, AdvisorUpload.clientNameFilled t.clientName = true →
      (AdvisorUpload.testimonialSchema t = true
        ↔ t.testimonial ≠ "" ∧ t.pdfFile ≠ none)) ∧
    (∀ t : AdvisorUpload.Testimonial, AdvisorUpload.clientNameFilled t.clientName = false →
      AdvisorUpload.testimonialSchema t = true) ∧
    (∀ name : String,
      AdvisorUpload.clientNameFilled name = true ↔ name ≠ "" ∧ jsTrim name ≠ "") ∧
    (∀ t : AdvisorUpload.Testimonial,
      t.clientName = "" → t.testimonial = "" → t.pdfFile = none →
      AdvisorUpload.testimonialSchema t = true) ∧
    (∀ t : AdvisorForm.TestimonialEntry,
      AdvisorForm.testimonialSchema t = true
        ↔ (t.clientName ≠ "" → t.testimonial ≠ "" ∧ t.pdfUrl ≠ "")) := by
  refine ⟨?_, ?_, ?_, ?_, ?_⟩
  · intro t h
    simp [AdvisorUpload.testimonialSchema, h, Option.isSome_iff_ne_none]
  · intro t h
    simp [AdvisorUpload.testimonialSchema, h]
  · intro name
    simp [AdvisorUpload.clientNameFilled]
  · intro t h1 _ _
    simp [AdvisorUpload.testimonialSchema, AdvisorUpload.clientNameFilled, h1]
  · intro t
    by_cases h : t.clientName = "" <;> simp [AdvisorForm.testimonialSchema, h]

/-- Witness of `testimonial_rule_keyed_on_client_name`: the entry with all
three parts passes, and so does the entry without any. -/
theorem testimonial_rule_keyed_on_client_name_witness :
    AdvisorUpload.testimonialSchema fullTestimonial = true ∧
    AdvisorUpload.testimonialSchema ⟨"", "", none⟩ = true :=
  ⟨(testimonial_rule_keyed_on_client_name.1 fullTestimonial (by decide)).2
      ⟨by decide, by decide⟩,
   testimonial_rule_keyed_on_client_name.2.2.2.1 ⟨"", "", none⟩ rfl rfl rfl⟩

/-- C17, counterexample: an entry with a testimonial text but without a
client name and without a PDF file passes the entry schema, and the whole
schema accepts it next to a complete entry. -/
theorem text_only_testimonial_accepted :
    textOnlyTestimonial.testimonial ≠ "" ∧ textOnlyTestimonial.clientName = "" ∧
    textOnlyTestimonial.pdfFile = none ∧
    AdvisorUpload.testimonialSchema textOnlyTestimonial = true ∧
    AdvisorUpload.validationSchema (some "logo.png") [textOnlyTestimonial, fullTestimonial]
      = true := by
  refine ⟨?_, ?_, ?_, ?_, ?_⟩ <;> decide

/-! ## Theorems: the route table -/

/-- C21: each of the fourteen client-side paths the spec lists is declared in
`AppRoutes`; among them exactly `/seller-dashboard` (role seller) and
`/advisor-dashboard`, `/advisor-payments`, `/advisor-form`, `/advisor-upload`
(role advisor) are wrapped in `ProtectedRoute`, and the remaining nine are
unguarded. -/
theorem spec_paths_declared_and_guarded :
    specPaths.length = 14 ∧
    (∀ path ∈ specPaths, ∃ r ∈ AppRoutes, r.path = path) ∧
    (routeOf "/seller-dashboard").map Route.guard
      = some (some { requiredRole := some "seller", requiresPayment := none }) ∧
    (∀ path ∈ ["/advisor-dashboard", "/advisor-payments", "/advisor-form", "/advisor-upload"],
      (routeOf path).map Route.guard
        = some (some { requiredRole := some "advisor", requiresPayment := none })) ∧
    (∀ path ∈ ["/", "/auth", "/seller-login", "/seller-register", "/advisor-login",
        "/advisor-register", "/reset-password", "/forgot-password", "/continue"],
      (routeOf path).map Route.guard = some none) ∧
    specPaths.filter (fun path => decide (∃ r ∈ AppRoutes, r.path = path ∧ r.guard ≠ none))
      = ["/seller-dashboard", "/advisor-dashboard", "/advisor-payments", "/advisor-form",
         "/advisor-upload"] := by
  refine ⟨rfl, ?_, ?_, ?_, ?_, ?_⟩ <;> decide

/-- Every guard in `AppRoutes` is one of the two role guards. -/
theorem guard_of_AppRoutes (r : Route) (hr : r ∈ AppRoutes) (p : Props)
    (hp : r.guard = some p) : p = advisorGuard ∨ p = sellerGuard := by
  have h : ∀ r ∈ AppRoutes, r.guard = none ∨ r.guard = some advisorGuard
      ∨ r.guard = some sellerGuard := by decide
  rcases h r hr with h | h | h
  · rw [h] at hp; cases hp
  · rw [h] at hp; exact Or.inl (Option.some.inj hp).symm
  · rw [h] at hp; exact Or.inr (Option.some.inj hp).symm

/-- The two ways `checkAuth` ends, for all guards at once: no user is set (no
token, or the request rejects), or the fetched user is set. -/
theorem finalRender_cases (net : HttpOutcome UserProfile) (w : World) :
    (∀ p : Props,
      finalRender p net w = render p { loading := false, user := none, authorized := false })
    ∨ ∃ status u, net = .response status u ∧ ∀ p : Props,
      finalRender p net w = render p
        { loading := false, user := some u,
          authorized := decide
            (¬ (truthy p.requiredRole = true ∧ some u.role ≠ p.requiredRole) ∧
             ¬ (p.paymentRequired = true ∧ u.role = "advisor"
                ∧ u.isPaymentVerified = false)) } := by
  by_cases htr : truthy (w.localStorage.getItem "access_token") = false
  · left
    intro p
    unfold finalRender
    rw [mount_no_token p net w htr]
  · obtain ⟨token, htok, hne⟩ : ∃ token, w.localStorage.getItem "access_token" = some token
        ∧ token ≠ "" := by
      cases hg : w.localStorage.getItem "access_token" with
      | none => simp [hg, truthy] at htr
      | some t => exact ⟨t, rfl, by simpa [hg, truthy] using htr⟩
    cases hnet : axiosDefault net with
    | none => exact Or.inl (fun p => finalRender_fetch_failed p net w hnet)
    | some u =>
      obtain ⟨status, hresp, hlo, hhi⟩ := (axiosDefault_eq_some net u).1 hnet
      right
      refine ⟨status, u, hresp, fun p => ?_⟩
      rw [hresp]
      exact finalRender_fetch_ok p w token status u htok hne hlo hhi

/-! ## Theorems: the payment handler -/

/-- The method `getCSRFToken` navigates nowhere. -/
theorem getCSRFToken_navigations (decodeURIComponent : String → Except String String)
    (w : World) : (getCSRFToken decodeURIComponent w).2.navigations = w.navigations := by
  unfold getCSRFToken
  cases getCsrfTokenFromCookie decodeURIComponent w.cookie with
  | error e => rfl
  | ok v =>
    simp only []
    cases truthyValue v with
    | some c => rfl
    | none =>
      simp only []
      cases truthyValue (w.localStorage.getItem "x-csrf-token") with
      | some c => rfl
      | none =>
        simp only []
        cases truthyValue w.csrfToken <;> rfl

/-- What `secureRequest` leaves in the logs: nothing when it throws, else the
one request to the address asked for; it navigates nowhere. -/
theorem secureRequest_trace (decodeURIComponent : String → Except String String)
    (url : String) (options : Options) (w : World) :
    (∃ e w1, secureRequest decodeURIComponent url options w = (.error e, w1) ∧
      w1.requests = w.requests ∧ w1.navigations = w.navigations) ∨
    (∃ request w1, secureRequest decodeURIComponent url options w = (.ok request, w1) ∧
      request.url = BACKEND_URL ++ url ∧ w1.requests = w.requests ++ [request] ∧
      w1.navigations = w.navigations) := by
  have hframe := getCSRFToken_frame decodeURIComponent w
  have hnav := getCSRFToken_navigations decodeURIComponent w
  unfold secureRequest
  rcases hcsrf : getCSRFToken decodeURIComponent w with ⟨res, w1⟩
  rw [hcsrf] at hframe hnav
  cases res with
  | error e => exact Or.inl ⟨e, w1, rfl, hframe.2.2.2, hnav⟩
  | ok csrfToken =>
    refine Or.inr ⟨_, _, rfl, rfl, ?_, hnav⟩
    show w1.requests ++ [_] = w.requests ++ [_]
    rw [hframe.2.2.2]

/-- The two ways `handleSubmitPayment` ends: with an error toast, no redirect
and the form kept, having called the confirm endpoint only after a succeeded
Stripe payment; or with the success toast, the redirect and the form reset,
after every step went well. -/
theorem handleSubmitPayment_shape (decodeURIComponent : String → Except String String)
    (stripeLoaded : Bool) (intentNet : HttpOutcome (Option AdvisorPayments.PaymentData))
    (stripe : AdvisorPayments.StripeOutcome)
    (confirmNet : HttpOutcome (Option AdvisorPayments.PaymentData)) (w : World) :
    (∃ (wX : World) (t : Toast) (new : List Request),
      AdvisorPayments.handleSubmitPayment decodeURIComponent stripeLoaded intentNet stripe
          confirmNet w = { world := wX.toast t, formReset := false } ∧
      wX.requests = w.requests ++ new ∧ wX.navigations = w.navigations ∧
      ((∃ request ∈ new, request.url = BACKEND_URL ++ "/api/payment/confirm") →
        ∃ intent, stripe = .result none (some intent) ∧ intent.status = "succeeded")) ∨
    (∃ (wX : World) (t : Toast) (new : List Request),
      AdvisorPayments.handleSubmitPayment decodeURIComponent stripeLoaded intentNet stripe
          confirmNet w
        = { world := (wX.toast t).navigate "/advisor-form", formReset := true } ∧
      wX.requests = w.requests ++ new ∧ wX.navigations = w.navigations ∧
      stripeLoaded = true ∧
      (∃ status data secret, intentNet = .response status (some data) ∧
        AdvisorPayments.responseOk status = true ∧
        truthyValue data.clientSecret = some secret) ∧
      (∃ intent, stripe = .result none (some intent) ∧ intent.status = "succeeded") ∧
      (∃ status body, confirmNet = .response status body ∧
        AdvisorPayments.responseOk status = true)) := by
  have hurl : BACKEND_URL ++ "/api/payment/create-intent"
      ≠ BACKEND_URL ++ "/api/payment/confirm" := by decide
  unfold AdvisorPayments.handleSubmitPayment
  by_cases hs : stripeLoaded = false
  · rw [if_pos hs]
    exact Or.inl ⟨w, _, [], rfl, by simp, rfl, by simp⟩
  rw [if_neg hs]
  have hs1 : stripeLoaded = true := by simpa using hs
  rcases secureRequest_trace decodeURIComponent "/api/payment/create-intent" Options.post w
    with ⟨e, w1, h1, hr1, hn1⟩ | ⟨rq1, w1, h1, hu1, hr1, hn1⟩
  · rw [h1]
    exact Or.inl ⟨w1, _, [], rfl, by simp [hr1], hn1, by simp⟩
  rw [h1]
  simp only []
  have hnot1 : ¬ ∃ request ∈ [rq1], request.url = BACKEND_URL ++ "/api/payment/confirm" := by
    simp [hu1, hurl]
  have leaf1 : ∀ t : Toast, ∃ (wX : World) (t1 : Toast) (new : List Request),
      ({ world := w1.toast t, formReset := false } : AdvisorPayments.Submitted)
        = { world := wX.toast t1, formReset := false } ∧
      wX.requests = w.requests ++ new ∧ wX.navigations = w.navigations ∧
      ((∃ request ∈ new, request.url = BACKEND_URL ++ "/api/payment/confirm") →
        ∃ intent, stripe = .result none (some intent) ∧ intent.status = "succeeded") :=
    fun t => ⟨w1, t, [rq1], rfl, hr1, hn1, fun h => absurd h hnot1⟩
  cases intentNet with
  | networkError => exact Or.inl (leaf1 _)
  | response intentStatus intentBody =>
    simp only []
    by_cases hok : AdvisorPayments.responseOk intentStatus = false
    · rw [if_pos hok]
      exact Or.inl (leaf1 _)
    rw [if_neg hok]
    have hok1 : AdvisorPayments.responseOk intentStatus = true := by simpa using hok
    cases intentBody with
    | none => exact Or.inl (leaf1 _)
    | some intentData =>
      simp only []
      cases hsecret : truthyValue intentData.clientSecret with
      | none => exact Or.inl (leaf1 _)
      | some secret =>
        simp only []
        cases stripe with
        | threw => exact Or.inl (leaf1 _)
        | result error paymentIntent =>
          cases error with
          | some confirmError => exact Or.inl (leaf1 _)
          | none =>
            simp only []
            cases paymentIntent with
            | none => exact Or.inl (leaf1 _)
            | some intent =>
              simp only []
              by_cases hst : intent.status = "succeeded"
              · rw [if_pos hst]
                rcases secureRequest_trace decodeURIComponent "/api/payment/confirm"
                    Options.post w1 with
                  ⟨e, w2, h2, hr2, hn2⟩ | ⟨rq2, w2, h2, hu2, hr2, hn2⟩
                · rw [h2]
                  exact Or.inl ⟨w2, _, [rq1], rfl, by rw [hr2, hr1], by rw [hn2, hn1],
                    fun _ => ⟨intent, rfl, hst⟩⟩
                rw [h2]
                simp only []
                have hr : w2.requests = w.requests ++ [rq1, rq2] := by
                  rw [hr2, hr1]; simp
                have hn : w2.navigations = w.navigations := by rw [hn2, hn1]
                cases confirmNet with
                | networkError =>
                  exact Or.inl ⟨w2, _, _, rfl, hr, hn, fun _ => ⟨intent, rfl, hst⟩⟩
                | response confirmStatus confirmBody =>
                  simp only []
                  by_cases hc : AdvisorPayments.responseOk confirmStatus = false
                  · rw [if_pos hc]
                    exact Or.inl ⟨w2, _, _, rfl, hr, hn, fun _ => ⟨intent, rfl, hst⟩⟩
                  · rw [if_neg hc]
                    exact Or.inr ⟨w2, _, _, rfl, hr, hn, hs1,
                      ⟨intentStatus, intentData, secret, rfl, hok1, hsecret⟩,
                      ⟨intent, rfl, hst⟩,
                      ⟨confirmStatus, confirmBody, rfl, by simpa using hc⟩⟩
              · rw [if_neg hst]
                exact Or.inl (leaf1 _)

/-- C22: `handleSubmitPayment` only adds requests to the log, and a request to
`/api/payment/confirm` is among them only when `confirmCardPayment` returned no
error and a payment intent whose status is `succeeded`.  It schedules the
redirect to `/advisor-form` (and resets the form) only when in addition Stripe
is loaded, the create-intent call returned ok with a client secret and the
backend confirm call returned ok; in every other case no redirect is scheduled
and the form is not reset. -/
theorem payment_confirm_and_redirect_only_on_success
    (decodeURIComponent : String → Except String String)
    (stripeLoaded : Bool) (intentNet : HttpOutcome (Option AdvisorPayments.PaymentData))
    (stripe : AdvisorPayments.StripeOutcome)
    (confirmNet : HttpOutcome (Option AdvisorPayments.PaymentData)) (w : World) :
    (∃ new,
      (AdvisorPayments.handleSubmitPayment decodeURIComponent stripeLoaded intentNet stripe
          confirmNet w).world.requests = w.requests ++ new ∧
      ((∃ request ∈ new, request.url = BACKEND_URL ++ "/api/payment/confirm") →
        ∃ intent, stripe = .result none (some intent) ∧ intent.status = "succeeded")) ∧
    (((AdvisorPayments.handleSubmitPayment decodeURIComponent stripeLoaded intentNet stripe
          confirmNet w).world.navigations = w.navigations ++ ["/advisor-form"] ∧
      (AdvisorPayments.handleSubmitPayment decodeURIComponent stripeLoaded intentNet stripe
          confirmNet w).formReset = true ∧
      stripeLoaded = true ∧
      (∃ status data secret, intentNet = .response status (some data) ∧
        AdvisorPayments.responseOk status = true ∧
        truthyValue data.clientSecret = some secret) ∧
      (∃ intent, stripe = .result none (some intent) ∧ intent.status = "succeeded") ∧
      (∃ status body, confirmNet = .response status body ∧
        AdvisorPayments.responseOk status = true)) ∨
     ((AdvisorPayments.handleSubmitPayment decodeURIComponent stripeLoaded intentNet stripe
          confirmNet w).world.navigations = w.navigations ∧
      (AdvisorPayments.handleSubmitPayment decodeURIComponent stripeLoaded intentNet stripe
          confirmNet w).formReset = false)) := by
  rcases handleSubmitPayment_shape decodeURIComponent stripeLoaded intentNet stripe
      confirmNet w with
    ⟨wX, t, new, h, hr, hn, hc⟩ | ⟨wX, t, new, h, hr, hn, h1, h2, h3, h4⟩
  · rw [h]
    exact ⟨⟨new, hr, hc⟩, Or.inr ⟨hn, rfl⟩⟩
  · rw [h]
    refine ⟨⟨new, hr, fun _ => h3⟩, Or.inl ⟨?_, rfl, h1, h2, h3, h4⟩⟩
    show wX.navigations ++ _ = _
    rw [hn]

/-- With the tokens stored, Stripe loaded and every step answering well, the
handler calls both endpoints, schedules the redirect and resets the form. -/
theorem payment_success_redirects :
    ((AdvisorPayments.handleSubmitPayment .ok true paymentOk
        (.result none (some ⟨"pi_1", "succeeded"⟩)) paymentOk csrfWorld).world.requests.map
        Request.url
      = [BACKEND_URL ++ "/api/payment/create-intent", BACKEND_URL ++ "/api/payment/confirm"]) ∧
    (AdvisorPayments.handleSubmitPayment .ok true paymentOk
        (.result none (some ⟨"pi_1", "succeeded"⟩)) paymentOk csrfWorld).world.navigations
      = ["/advisor-form"] ∧
    (AdvisorPayments.handleSubmitPayment .ok true paymentOk
        (.result none (some ⟨"pi_1", "succeeded"⟩)) paymentOk csrfWorld).formReset = true := by
  refine ⟨?_, ?_, ?_⟩ <;> decide

/-- Witness of `payment_confirm_and_redirect_only_on_success`: when Stripe
declines the card after a good create-intent answer, no redirect is scheduled
and the form is kept. -/
theorem payment_confirm_and_redirect_only_on_success_witness :
    (AdvisorPayments.handleSubmitPayment .ok true paymentOk
        (.result (some (some "Your card was declined.")) none) paymentOk
        csrfWorld).world.navigations = csrfWorld.navigations ∧
    (AdvisorPayments.handleSubmitPayment .ok true paymentOk
        (.result (some (some "Your card was declined.")) none) paymentOk
        csrfWorld).formReset = false :=
  (payment_confirm_and_redirect_only_on_success .ok true paymentOk
      (.result (some (some "Your card was declined.")) none) paymentOk csrfWorld).2.resolve_left
    (fun h => by
      obtain ⟨-, -, -, -, ⟨intent, hintent, -⟩, -⟩ := h
      cases hintent)

/-! ## Theorems: the industry and geography labels -/

/-- The functions `mapIndustry` and `mapGeography` look at the top-level
entries and at their direct children only: the result is the label of the
first top-level entry whose id, or the id of one of whose children, is the
selected one, and the fallback if there is none. -/
theorem mapGeography_eq_find (data : List Node) (selectedId : String) :
    SellerForm.mapGeography data selectedId
      = ((data.find? (fun c => c.id == selectedId ||
            (c.children.getD []).any (fun n => n.id == selectedId))).map Node.label).getD
          "North America" ∧
    SellerForm.mapIndustry data selectedId
      = ((data.find? (fun c => c.id == selectedId ||
            (c.children.getD []).any (fun n => n.id == selectedId))).map Node.label).getD
          "Technology" := by
  induction data with
  | nil => exact ⟨rfl, rfl⟩
  | cons c rest ih =>
    unfold SellerForm.mapGeography SellerForm.mapIndustry
    by_cases h : c.id = selectedId
    · simp [h, List.find?]
    · rw [if_neg h, if_neg h]
      have hb : (c.id == selectedId) = false := by simpa using h
      cases hc : c.children with
      | none => simp [hb, hc, List.find?, ih.1, ih.2]
      | some l =>
        simp only []
        by_cases hl : l.any (fun n => n.id == selectedId) = true
        · have : (l.find? (fun n => n.id == selectedId)).isSome = true := by
            rw [List.find?_isSome]
            simpa using hl
          simp [hb, hc, List.find?, this, hl]
        · have : (l.find? (fun n => n.id == selectedId)).isSome = false := by
            rw [Bool.eq_false_iff, Ne, List.find?_isSome]
            simpa using hl
          have hl2 : l.any (fun n => n.id == selectedId) = false := by simpa using hl
          simp [hb, hc, List.find?, this, hl2, ih.1, ih.2]

/-- C23: the id `eng` occurs in the geography table, two levels below the
top-level entry `Europe`, and `bio` occurs in the industry table two levels
below `Healthcare`; `mapGeography` and `mapIndustry` return the fallbacks
`North America` and `Technology` for them, not the label of the top-level
entry whose subtree holds the id. -/
theorem map_functions_miss_deeper_ids :
    (∃ top ∈ sampleGeography, top.label = "Europe" ∧
      (Node.subtree top).any (fun n => n.id == "eng") = true) ∧
    SellerForm.mapGeography sampleGeography "eng" = "North America" ∧
    (∃ top ∈ sampleIndustry, top.label = "Healthcare" ∧
      (Node.subtree top).any (fun n => n.id == "bio") = true) ∧
    SellerForm.mapIndustry sampleIndustry "bio" = "Technology" ∧
    SellerForm.mapGeography sampleGeography "uk" = "Europe" ∧
    SellerForm.mapIndustry sampleIndustry "pharma" = "Healthcare" := by
  refine ⟨⟨_, List.mem_cons_of_mem _ (List.mem_cons_self _ _), rfl, by decide⟩, by decide,
    ⟨_, List.mem_cons_of_mem _ (List.mem_cons_self _ _), rfl, by decide⟩, by decide,
    by decide, by decide⟩

/-! ## Theorems: the guards of the route table -/

/-- A guard that does not require payment renders the same for two profiles
that differ in `isPaymentVerified` only. -/
theorem finalRender_flag_irrelevant (p : Props) (hp : p.paymentRequired = false) (w : World)
    (status : Nat) (u : UserProfile) (flag : Bool) :
    finalRender p (.response status u) w
      = finalRender p (.response status { u with isPaymentVerified := flag }) w := by
  have hpay : ∀ v : UserProfile, ¬ (p.paymentRequired = true ∧ v.role = "advisor"
      ∧ v.isPaymentVerified = false) := by
    intro v h; rw [hp] at h; exact absurd h.1 (by decide)
  by_cases htr : truthy (w.localStorage.getItem "access_token") = false
  · unfold finalRender
    rw [mount_no_token p _ w htr, mount_no_token p _ w htr]
  · obtain ⟨token, htok, hne⟩ : ∃ token, w.localStorage.getItem "access_token" = some token
        ∧ token ≠ "" := by
      cases hg : w.localStorage.getItem "access_token" with
      | none => simp [hg, truthy] at htr
      | some t => exact ⟨t, rfl, by simpa [hg, truthy] using htr⟩
    by_cases hs : 200 ≤ status ∧ status < 300
    · rw [finalRender_fetch_ok p w token status u htok hne hs.1 hs.2,
        finalRender_fetch_ok p w token status _ htok hne hs.1 hs.2,
        render_with_user, render_with_user]
      simp only [if_neg (hpay _)]
      by_cases hr : truthy p.requiredRole = true ∧ some u.role ≠ p.requiredRole
      · rw [if_pos hr, if_pos hr]
      · rw [if_neg hr, if_neg hr, decide_eq_true ⟨hr, hpay u⟩,
          decide_eq_true (⟨hr, hpay { u with isPaymentVerified := flag }⟩ :
            ¬ (truthy p.requiredRole = true
                ∧ some ({ u with isPaymentVerified := flag } : UserProfile).role
                  ≠ p.requiredRole) ∧ _)]
        simp [hp]
    · rw [finalRender_fetch_failed p _ w (axiosDefault_eq_none _ (Or.inr ⟨_, _, rfl, hs⟩)),
        finalRender_fetch_failed p _ w (axiosDefault_eq_none _ (Or.inr ⟨_, _, rfl, hs⟩))]

/-- C24: for every route that `AppRoutes` wraps in `ProtectedRoute`, the
outcome of the guard does not depend on `isPaymentVerified`: two fetched
profiles that differ in that flag only give the same render, so an advisor
whose payment is unverified is rendered `/advisor-dashboard`, `/advisor-form`
and `/advisor-upload`. -/
theorem routes_ignore_payment_flag :
    (∀ r ∈ AppRoutes, ∀ p, r.guard = some p →
      ∀ (w : World) (status : Nat) (u : UserProfile) (flag : Bool),
        finalRender p (.response status u) w
          = finalRender p (.response status { u with isPaymentVerified := flag }) w) ∧
    (∀ path ∈ ["/advisor-dashboard", "/advisor-form", "/advisor-upload"],
      ∃ r p, routeOf path = some r ∧ r.guard = some p ∧
        ∀ (w : World) (token : String) (status : Nat) (u : UserProfile),
          w.localStorage.getItem "access_token" = some token → token ≠ "" →
          200 ≤ status → status < 300 → u.role = "advisor" → u.isPaymentVerified = false →
          finalRender p (.response status u) w = .children) := by
  constructor
  · intro r hr p hp w status u flag
    have hpr : p.paymentRequired = false := by
      rcases guard_of_AppRoutes r hr p hp with h | h <;> rw [h] <;> rfl
    exact finalRender_flag_irrelevant p hpr w status u flag
  · have key : ∀ (w : World) (token : String) (status : Nat) (u : UserProfile),
        w.localStorage.getItem "access_token" = some token → token ≠ "" →
        200 ≤ status → status < 300 → u.role = "advisor" → u.isPaymentVerified = false →
        finalRender advisorGuard (.response status u) w = .children := by
      intro w token status u htok hne hlo hhi hrole _
      have h1 : ¬ (truthy advisorGuard.requiredRole = true
          ∧ some u.role ≠ advisorGuard.requiredRole) := by
        simp [advisorGuard, hrole]
      have h2 : ¬ (advisorGuard.paymentRequired = true ∧ u.role = "advisor"
          ∧ u.isPaymentVerified = false) := by
        simp [advisorGuard, Props.paymentRequired]
      rw [finalRender_fetch_ok _ w token status u htok hne hlo hhi, render_with_user,
        if_neg h1, if_neg h2, decide_eq_true ⟨h1, h2⟩]
      simp
    intro path hpath
    simp only [List.mem_cons, List.mem_singleton, List.not_mem_nil, or_false] at hpath
    rcases hpath with rfl | rfl | rfl
    · exact ⟨⟨"/advisor-dashboard", some advisorGuard⟩, advisorGuard, by decide, rfl, key⟩
    · exact ⟨⟨"/advisor-form", some advisorGuard⟩, advisorGuard, by decide, rfl, key⟩
    · exact ⟨⟨"/advisor-upload", some advisorGuard⟩, advisorGuard, by decide, rfl, key⟩

/-- Witness of `routes_ignore_payment_flag`: the guard of `/advisor-form`
renders the page for an advisor with an unverified payment. -/
theorem routes_ignore_payment_flag_witness :
    finalRender advisorGuard (.response 200 unpaidAdvisor) loggedInWorld
      = finalRender advisorGuard
          (.response 200 { unpaidAdvisor with isPaymentVerified := true }) loggedInWorld ∧
    ∃ r p, routeOf "/advisor-form" = some r ∧ r.guard = some p ∧
      finalRender p (.response 200 unpaidAdvisor) loggedInWorld = .children :=
  ⟨routes_ignore_payment_flag.1 ⟨"/advisor-form", some advisorGuard⟩ (by decide) advisorGuard
      rfl loggedInWorld 200 unpaidAdvisor true,
   (routes_ignore_payment_flag.2 "/advisor-form" (by decide)).imp fun _ h =>
      h.imp fun _ h => ⟨h.1, h.2.1,
        h.2.2 loggedInWorld "T" 200 unpaidAdvisor rfl (by decide) (by decide) (by decide)
          rfl rfl⟩⟩

/-- The render of a role guard without payment requirement once a user is
set. -/
theorem render_role_guard (role : String) (hrole : role ≠ "") (u : UserProfile) (a : Bool) :
    render { requiredRole := some role, requiresPayment := none }
        { loading := false, user := some u, authorized := a }
      = if u.role ≠ role then
          if u.role = "advisor" then .navigate "/advisor-dashboard"
          else if u.role = "seller" then .navigate "/seller-dashboard"
          else .navigate "/"
        else if a = false then .navigate "/"
        else .children := by
  rw [render_with_user]
  have h1 : truthy (Props.mk (some role) none).requiredRole = true := by
    simp [truthy, hrole]
  have h2 : ¬ ((Props.mk (some role) none).paymentRequired = true ∧ u.role = "advisor"
      ∧ u.isPaymentVerified = false) := by
    simp [Props.paymentRequired]
  by_cases h : u.role = role
  · have : ¬ (truthy (Props.mk (some role) none).requiredRole = true
        ∧ some u.role ≠ (Props.mk (some role) none).requiredRole) := by
      simp [h]
    rw [if_neg this, if_neg h2, if_neg (not_not.2 h)]
  · have : truthy (Props.mk (some role) none).requiredRole = true
        ∧ some u.role ≠ (Props.mk (some role) none).requiredRole :=
      ⟨h1, by simpa using h⟩
    rw [if_pos this, if_pos h]

/-- A redirect of a guard of `AppRoutes` goes to a declared route that is
unguarded, or whose guard renders its children when it is mounted afresh (a
page load at that path) for the same stored token and the same answer of the
profile request. -/
theorem redirect_target_renders_children_on_mount (r : Route) (hr : r ∈ AppRoutes) (p : Props)
    (hp : r.guard = some p) (net : HttpOutcome UserProfile) (w : World) :
    finalRender p net w = .children ∨
    ∃ path, finalRender p net w = .navigate path ∧
      ∃ t ∈ AppRoutes, t.path = path ∧
        (t.guard = none ∨ ∃ q, t.guard = some q ∧ finalRender q net w = .children) := by
  have hlogin : (⟨"/advisor-login", none⟩ : Route) ∈ AppRoutes := by decide
  have hslogin : (⟨"/seller-login", none⟩ : Route) ∈ AppRoutes := by decide
  have hhome : (⟨"/", none⟩ : Route) ∈ AppRoutes := by decide
  have hadv : (⟨"/advisor-dashboard", some advisorGuard⟩ : Route) ∈ AppRoutes := by decide
  have hsel : (⟨"/seller-dashboard", some sellerGuard⟩ : Route) ∈ AppRoutes := by decide
  have hdec : ∀ (role : String) (u : UserProfile), u.role = role →
      decide (¬ (truthy (Props.mk (some role) none).requiredRole = true
          ∧ some u.role ≠ (Props.mk (some role) none).requiredRole) ∧
        ¬ ((Props.mk (some role) none).paymentRequired = true ∧ u.role = "advisor"
          ∧ u.isPaymentVerified = false)) = true := by
    intro role u h
    apply decide_eq_true
    constructor
    · simp [h]
    · simp [Props.paymentRequired]
  have hchildren : ∀ (role : String), role ≠ "" → ∀ u : UserProfile, u.role = role →
      (∀ q : Props, finalRender q net w = render q
        { loading := false, user := some u,
          authorized := decide
            (¬ (truthy q.requiredRole = true ∧ some u.role ≠ q.requiredRole) ∧
             ¬ (q.paymentRequired = true ∧ u.role = "advisor"
                ∧ u.isPaymentVerified = false)) }) →
      finalRender { requiredRole := some role, requiresPayment := none } net w
        = .children := by
    intro role hrole u hu hall
    rw [hall, render_role_guard role hrole, if_neg (not_not.2 hu), hdec role u hu]
    simp
  rcases finalRender_cases net w with hnone | ⟨status, u, -, hall⟩
  · right
    rcases guard_of_AppRoutes r hr p hp with rfl | rfl
    · exact ⟨"/advisor-login", by rw [hnone, render_no_user]; rfl, _, hlogin, rfl, Or.inl rfl⟩
    · exact ⟨"/seller-login", by rw [hnone, render_no_user]; rfl, _, hslogin, rfl, Or.inl rfl⟩
  · have hrender : ∀ role : String, role ≠ "" → u.role ≠ role →
        finalRender { requiredRole := some role, requiresPayment := none } net w
          = if u.role = "advisor" then .navigate "/advisor-dashboard"
            else if u.role = "seller" then .navigate "/seller-dashboard"
            else .navigate "/" := by
      intro role hrole hne
      rw [hall, render_role_guard role hrole, if_pos hne]
    have hredirect : ∀ role : String, role ≠ "" → u.role ≠ role →
        ∃ path, finalRender { requiredRole := some role, requiresPayment := none } net w
            = .navigate path ∧
          ∃ t ∈ AppRoutes, t.path = path ∧
            (t.guard = none ∨ ∃ q, t.guard = some q ∧ finalRender q net w = .children) := by
      intro role hrole hne
      rw [hrender role hrole hne]
      by_cases ha : u.role = "advisor"
      · rw [if_pos ha]
        exact ⟨_, rfl, _, hadv, rfl,
          Or.inr ⟨advisorGuard, rfl, hchildren "advisor" (by decide) u ha hall⟩⟩
      · rw [if_neg ha]
        by_cases hs : u.role = "seller"
        · rw [if_pos hs]
          exact ⟨_, rfl, _, hsel, rfl,
            Or.inr ⟨sellerGuard, rfl, hchildren "seller" (by decide) u hs hall⟩⟩
        · rw [if_neg hs]
          exact ⟨_, rfl, _, hhome, rfl, Or.inl rfl⟩
    rcases guard_of_AppRoutes r hr p hp with rfl | rfl
    · by_cases h : u.role = "advisor"
      · exact Or.inl (hchildren "advisor" (by decide) u h hall)
      · exact Or.inr (hredirect "advisor" (by decide) h)
    · by_cases h : u.role = "seller"
      · exact Or.inl (hchildren "seller" (by decide) u h hall)
      · exact Or.inr (hredirect "seller" (by decide) h)

/-- The two states in which `checkAuth` leaves a role guard without payment
requirement: no user is set, or the fetched user is set and `authorized` says
whether the role is the required one. -/
theorem mount_role_guard_state (role : String) (hrole : role ≠ "")
    (net : HttpOutcome UserProfile) (w : World) :
    (mount { requiredRole := some role, requiresPayment := none } net w).2
      = { loading := false, user := none, authorized := false } ∨
    ∃ u, (mount { requiredRole := some role, requiresPayment := none } net w).2
      = { loading := false, user := some u, authorized := decide (u.role = role) } := by
  by_cases htr : truthy (w.localStorage.getItem "access_token") = false
  · left
    rw [mount_no_token _ net w htr]
  · obtain ⟨token, htok, hne⟩ : ∃ token, w.localStorage.getItem "access_token" = some token
        ∧ token ≠ "" := by
      cases hg : w.localStorage.getItem "access_token" with
      | none => simp [hg, truthy] at htr
      | some t => exact ⟨t, rfl, by simpa [hg, truthy] using htr⟩
    cases hnet : axiosDefault net with
    | none =>
      left
      rw [mount_fetch_failed _ net w token htok hne hnet]
    | some u =>
      right
      refine ⟨u, ?_⟩
      rw [mount_fetch_ok _ net w token htok hne u hnet]
      simp [truthy, hrole, Props.paymentRequired]

/-- Following the redirects of a guard of `AppRoutes` ends: the guard instance
that the router keeps across the guarded routes sends it on at most twice, the
second time to the unguarded `/`. -/
theorem followRedirects_within_two_hops (r : Route) (hr : r ∈ AppRoutes) (p : Props)
    (hp : r.guard = some p) (net : HttpOutcome UserProfile) (w : World) (fuel : Nat) :
    followRedirects (mount p net w).2 (fuel + 2) (finalRender p net w)
      = followRedirects (mount p net w).2 2 (finalRender p net w) ∧
    (followRedirects (mount p net w).2 (fuel + 2) (finalRender p net w)).length ≤ 2 := by
  have hlogin : ∀ s, keptRender s "/advisor-login" = none := fun _ => rfl
  have hslogin : ∀ s, keptRender s "/seller-login" = none := fun _ => rfl
  have hhome : ∀ s, keptRender s "/" = none := fun _ => rfl
  have hadv : ∀ s, keptRender s "/advisor-dashboard" = some (render advisorGuard s) :=
    fun _ => rfl
  have hsel : ∀ s, keptRender s "/seller-dashboard" = some (render sellerGuard s) :=
    fun _ => rfl
  have key : ∀ role : String, role = "advisor" ∨ role = "seller" →
      followRedirects (mount { requiredRole := some role, requiresPayment := none } net w).2
          (fuel + 2) (finalRender { requiredRole := some role, requiresPayment := none } net w)
        = followRedirects (mount { requiredRole := some role, requiresPayment := none } net w).2
          2 (finalRender { requiredRole := some role, requiresPayment := none } net w) ∧
      (followRedirects (mount { requiredRole := some role, requiresPayment := none } net w).2
          (fuel + 2)
          (finalRender { requiredRole := some role, requiresPayment := none } net w)).length
        ≤ 2 := by
    intro role hr2
    have hrole : role ≠ "" := by rcases hr2 with rfl | rfl <;> decide
    unfold finalRender
    rcases mount_role_guard_state role hrole net w with hs | ⟨u, hs⟩
    · rw [hs, render_no_user]
      rcases hr2 with rfl | rfl
      · simp [followRedirects, hlogin]
      · simp [followRedirects, hslogin]
    · rw [hs, render_role_guard role hrole]
      by_cases hu : u.role = role
      · simp [hu, followRedirects]
      · have hd : decide (u.role = role) = false := decide_eq_false hu
        rw [if_pos hu, hd]
        by_cases ha : u.role = "advisor"
        · have hr3 : render advisorGuard
              { loading := false, user := some u, authorized := false } = .navigate "/" := by
            rw [advisorGuard, render_role_guard "advisor" (by decide), if_neg (not_not.2 ha)]
            rfl
          simp [ha, followRedirects, hadv, hr3, hhome]
        · by_cases hse : u.role = "seller"
          · have hr3 : render sellerGuard
                { loading := false, user := some u, authorized := false } = .navigate "/" := by
              rw [sellerGuard, render_role_guard "seller" (by decide),
                if_neg (not_not.2 hse)]
              rfl
            simp [ha, hse, followRedirects, hsel, hr3, hhome]
          · simp [ha, hse, followRedirects, hhome]
  rcases guard_of_AppRoutes r hr p hp with rfl | rfl
  · exact key "advisor" (Or.inl rfl)
  · exact key "seller" (Or.inr rfl)

/-- C25: an advisor with a stored token opens `/seller-dashboard`.  The guard
redirects to `/advisor-dashboard`, a guarded route whose guard renders its
children when it is mounted for that token and that answer of the profile
request; but the router keeps the guard instance, whose one check ran for the
role seller and left `authorized` false, so the guard of `/advisor-dashboard`
does not render its children: it redirects on to `/`.  Following the redirects
takes two hops, not one. -/
theorem redirect_to_own_dashboard_bounces_home :
    finalRender sellerGuard (.response 200 unpaidAdvisor) loggedInWorld
      = .navigate "/advisor-dashboard" ∧
    routeOf "/advisor-dashboard" = some ⟨"/advisor-dashboard", some advisorGuard⟩ ∧
    finalRender advisorGuard (.response 200 unpaidAdvisor) loggedInWorld = .children ∧
    keptRender (mount sellerGuard (.response 200 unpaidAdvisor) loggedInWorld).2
      "/advisor-dashboard" = some (.navigate "/") ∧
    followRedirects (mount sellerGuard (.response 200 unpaidAdvisor) loggedInWorld).2 2
      (finalRender sellerGuard (.response 200 unpaidAdvisor) loggedInWorld)
      = ["/advisor-dashboard", "/"] := by
  refine ⟨?_, ?_, ?_, ?_, ?_⟩ <;> decide

/-! ## Theorems: the headers of `secureRequest` -/

/-- The token `secureRequest` finds is the first non-empty value among the
four storage entries it reads. -/
theorem truthyValue_findToken (w : World) :
    truthyValue (findToken w)
      = [w.localStorage.getItem "access_token", w.localStorage.getItem "token",
         w.sessionStorage.getItem "access_token", w.sessionStorage.getItem "token"].findSome?
          truthyValue := by
  have key : ∀ a b : Option String, truthyValue (jsOr a b)
      = match truthyValue a with
        | some t => some t
        | none => truthyValue b := by
    intro a b
    cases a with
    | none => simp [jsOr, truthy, truthyValue]
    | some s =>
      by_cases hs : s = ""
      · simp [jsOr, truthy, truthyValue, hs]
      · simp [jsOr, truthy, truthyValue, hs]
  simp only [findToken, key, List.findSome?]
  cases truthyValue (w.localStorage.getItem "access_token") <;>
    cases truthyValue (w.localStorage.getItem "token") <;>
    cases truthyValue (w.sessionStorage.getItem "access_token") <;>
    cases truthyValue (w.sessionStorage.getItem "token") <;> rfl

/-- C26: `secureRequest` sends no request when `getCSRFToken` fails (it throws
the same error and the request log is unchanged); otherwise, for options
without headers of their own, it sends exactly one request, whose
`x-csrf-token` is the token `getCSRFToken` returned, whose `Content-Type` is
`application/json`, and whose `Authorization` header is `Bearer t` for the
first non-empty value `t` among localStorage `access_token`, localStorage
`token`, sessionStorage `access_token` and sessionStorage `token`, and absent
when none of the four is non-empty. -/
theorem secureRequest_sends_iff_csrf (decodeURIComponent : String → Except String String)
    (url : String) (options : Options) (w : World) :
    (∀ e w1, getCSRFToken decodeURIComponent w = (.error e, w1) →
      secureRequest decodeURIComponent url options w = (.error e, w1) ∧
      w1.requests = w.requests) ∧
    (∀ csrfToken w1, getCSRFToken decodeURIComponent w = (.ok csrfToken, w1) →
      options.headers = [] →
      ∃ request, secureRequest decodeURIComponent url options w = (.ok request, w1.send request)
        ∧ (w1.send request).requests = w.requests ++ [request]
        ∧ request.header "x-csrf-token" = some csrfToken
        ∧ request.header "Content-Type" = some "application/json"
        ∧ request.header "Authorization"
            = ([w.localStorage.getItem "access_token", w.localStorage.getItem "token",
                w.sessionStorage.getItem "access_token",
                w.sessionStorage.getItem "token"].findSome? truthyValue).map
                (fun t => "Bearer " ++ t)) := by
  have hframe := getCSRFToken_frame decodeURIComponent w
  constructor
  · intro e w1 hcsrf
    rw [hcsrf] at hframe
    refine ⟨?_, hframe.2.2.2⟩
    unfold secureRequest
    rw [hcsrf]
  · intro csrfToken w1 hcsrf hopt
    rw [hcsrf] at hframe
    have hsend : secureRequest decodeURIComponent url options w =
        (.ok (Request.mk (options.method.getD "GET") (BACKEND_URL ++ url)
            (defaultHeaders csrfToken (findToken w1) ++ options.headers) true),
         w1.send (Request.mk (options.method.getD "GET") (BACKEND_URL ++ url)
            (defaultHeaders csrfToken (findToken w1) ++ options.headers) true)) := by
      unfold secureRequest
      rw [hcsrf]
    have hfind := truthyValue_findToken w1
    rw [hframe.1, hframe.2.1] at hfind
    refine ⟨_, hsend, ?_, ?_, ?_, ?_⟩
    · show w1.requests ++ [_] = w.requests ++ [_]
      rw [hframe.2.2.2]
    · cases ht : truthyValue (findToken w1) <;>
        simp [Request.header, hopt, defaultHeaders, ht]
    · cases ht : truthyValue (findToken w1) <;>
        simp [Request.header, hopt, defaultHeaders, ht]
    · rw [← hfind]
      cases ht : truthyValue (findToken w1) <;>
        simp [Request.header, hopt, defaultHeaders, ht]

/-- Witness of `secureRequest_sends_iff_csrf`: with the CSRF token `C` and the
access token `T` stored, the confirm call carries both; in an empty browser
nothing is sent. -/
theorem secureRequest_sends_iff_csrf_witness :
    (∃ request, secureRequest .ok "/api/payment/confirm" Options.post csrfWorld
        = (.ok request, { csrfWorld with csrfToken := some "C" }.send request)
      ∧ request.header "x-csrf-token" = some "C"
      ∧ request.header "Content-Type" = some "application/json"
      ∧ request.header "Authorization" = some "Bearer T") ∧
    (secureRequest .ok "/api/payment/confirm" Options.post emptyWorld
        = (.error "No CSRF token available. Please login again.", emptyWorld)
      ∧ emptyWorld.requests = emptyWorld.requests) :=
  ⟨((secureRequest_sends_iff_csrf .ok "/api/payment/confirm" Options.post csrfWorld).2 "C"
      { csrfWorld with csrfToken := some "C" } rfl rfl).imp
      (fun _ h => ⟨h.1, h.2.2.1, h.2.2.2.1, h.2.2.2.2.trans (by decide)⟩),
   (secureRequest_sends_iff_csrf .ok "/api/payment/confirm" Options.post emptyWorld).1
      "No CSRF token available. Please login again." emptyWorld rfl⟩

/-! ## Theorems: the search filter of the choosers -/

/-- A filtered list is non-empty iff some element passes. -/
theorem filter_length_pos_iff_any (p : Node → Bool) (l : List Node) :
    decide (0 < (l.filter p).length) = l.any p := by
  induction l with
  | nil => rfl
  | cons a l ih =>
    cases ha : p a
    · simpa [List.filter, ha] using ih
    · simp [List.filter, ha]

mutual
/-- The callback of `filterData` keeps an item iff the label of the item or of
one of its descendants contains the query. -/
theorem filterKeeps_eq_any (toLowerCase : String → String) (currentQuery : String) :
    ∀ n : Node, filterKeeps toLowerCase currentQuery n
      = (Node.subtree n).any
          (fun m => jsIncludes (toLowerCase m.label) (toLowerCase currentQuery))
  | .mk id label none => by
    simp [filterKeeps, Node.subtree, Node.subtreeOpt, Node.label]
  | .mk id label (some l) => by
    have h := filterItems_eq_filter toLowerCase currentQuery l
    have e1 : filterKeeps toLowerCase currentQuery (.mk id label (some l))
        = (jsIncludes (toLowerCase label) (toLowerCase currentQuery)
            || decide (0 < (filterItems toLowerCase currentQuery l).length)) := by
      simp only [filterKeeps]
      cases jsIncludes (toLowerCase label) (toLowerCase currentQuery) <;>
        cases decide (0 < (filterItems toLowerCase currentQuery l).length) <;> rfl
    have e2 : (Node.subtree (.mk id label (some l))).any
          (fun m => jsIncludes (toLowerCase m.label) (toLowerCase currentQuery))
        = (jsIncludes (toLowerCase label) (toLowerCase currentQuery)
            || (Node.subtreeList l).any
              (fun m => jsIncludes (toLowerCase m.label) (toLowerCase currentQuery))) := by
      rw [Node.subtree, Node.subtreeOpt, List.any_cons]
      rfl
    rw [e1, e2, h.1, filter_length_pos_iff_any, h.2]
/-- The call `items.filter(...)` of `filterData` keeps the items with a match
in their subtree. -/
theorem filterItems_eq_filter (toLowerCase : String → String) (currentQuery : String) :
    ∀ l : List Node,
      filterItems toLowerCase currentQuery l
        = l.filter (fun n => (Node.subtree n).any
            (fun m => jsIncludes (toLowerCase m.label) (toLowerCase currentQuery))) ∧
      (Node.subtreeList l).any
          (fun m => jsIncludes (toLowerCase m.label) (toLowerCase currentQuery))
        = l.any (fun n => (Node.subtree n).any
            (fun m => jsIncludes (toLowerCase m.label) (toLowerCase currentQuery)))
  | [] => ⟨rfl, rfl⟩
  | n :: ns => by
    have h1 := filterKeeps_eq_any toLowerCase currentQuery n
    have h2 := filterItems_eq_filter toLowerCase currentQuery ns
    constructor
    · rw [filterItems, h1, h2.1, List.filter_cons]
    · rw [Node.subtreeList, List.any_append, h2.2, List.any_cons]
end

/-- C27: `filterData` returns the items unchanged for the empty query; for a
query that is not empty it returns (on every finite tree, the function being
total) the top-level items, in their order and with their children as they
are, whose own label or the label of a descendant at any depth contains the
query, both lowered by `toLowerCase`. -/
theorem filterData_keeps_items_with_match (toLowerCase : String → String) (items : List Node) :
    filterData toLowerCase items "" = items ∧
    ∀ currentQuery, currentQuery ≠ "" →
      filterData toLowerCase items currentQuery
        = items.filter (fun n => (Node.subtree n).any
            (fun m => jsIncludes (toLowerCase m.label) (toLowerCase currentQuery))) := by
  constructor
  · rfl
  · intro currentQuery hq
    unfold filterData
    rw [if_neg hq]
    exact (filterItems_eq_filter toLowerCase currentQuery items).1

/-- Witness of `filterData_keeps_items_with_match`: the query `ENG` keeps
`Europe`, whose grandchild `England` matches, with its children, and drops
`North America`. -/
theorem filterData_keeps_items_with_match_witness :
    filterData sampleToLowerCase sampleGeography "ENG"
      = [.mk "eu" "Europe" (some [.mk "uk" "United Kingdom" (some [.mk "eng" "England" none])])]
    ∧ filterData sampleToLowerCase sampleGeography "" = sampleGeography :=
  ⟨((filterData_keeps_items_with_match sampleToLowerCase sampleGeography).2 "ENG"
      (by decide)).trans rfl,
   (filterData_keeps_items_with_match sampleToLowerCase sampleGeography).1⟩

/-! ## Theorems: the payload of the upload page -/

/-- The condition of the upload callback, spelled out. -/
theorem qualifies_iff (t : AdvisorUpload.Testimonial) :
    AdvisorUpload.qualifies t = true
      ↔ t.clientName ≠ "" ∧ t.testimonial ≠ "" ∧ t.pdfFile ≠ none := by
  unfold AdvisorUpload.qualifies
  cases t.pdfFile <;> simp [and_assoc]

/-- The testimonial uploads when every upload succeeds: the entries that
qualify are uploaded in their order, each result carries the address its own
upload returned, and one request per uploaded entry joins the log. -/
theorem uploadTestimonials_ok (pdfStatus : Nat → Nat) (pdfData : Nat → AdvisorUpload.UploadData)
    (hpdf : ∀ i, 200 ≤ pdfStatus i ∧ pdfStatus i < 300) :
    ∀ (ts : List AdvisorUpload.Testimonial) (i : Nat) (w : World),
    AdvisorUpload.collect
        (AdvisorUpload.uploadTestimonials (fun i => .response (pdfStatus i) (pdfData i))
          i ts w).1
      = some (((ts.enumFrom i).filter (fun it => decide (it.2.clientName ≠ "" ∧
          it.2.testimonial ≠ "" ∧ it.2.pdfFile ≠ none))).map
          (fun it => ⟨it.2.clientName, it.2.testimonial, (pdfData it.1).url⟩)) ∧
    ∃ k, (AdvisorUpload.uploadTestimonials (fun i => .response (pdfStatus i) (pdfData i))
          i ts w).2
      = { w with
          requests := w.requests ++
            List.replicate k (AdvisorUpload.uploadRequest AdvisorUpload.testimonialEndpoint w) }
      ∧ k = ((ts.enumFrom i).filter (fun it => decide (it.2.clientName ≠ "" ∧
          it.2.testimonial ≠ "" ∧ it.2.pdfFile ≠ none))).length := by
  intro ts
  induction ts with
  | nil =>
    intro i w
    exact ⟨rfl, 0, by simp [AdvisorUpload.uploadTestimonials], rfl⟩
  | cons t ts ih =>
    intro i w
    unfold AdvisorUpload.uploadTestimonials
    by_cases hq : AdvisorUpload.qualifies t = true
    · rw [if_pos hq]
      have hd :
          decide (t.clientName ≠ "" ∧ t.testimonial ≠ "" ∧ t.pdfFile ≠ none) = true :=
        decide_eq_true ((qualifies_iff t).1 hq)
      have hup : AdvisorUpload.handleFileUpload AdvisorUpload.testimonialEndpoint
          (.response (pdfStatus i) (pdfData i)) w
          = (some (pdfData i).url,
             w.send (AdvisorUpload.uploadRequest AdvisorUpload.testimonialEndpoint w)) := by
        simp [AdvisorUpload.handleFileUpload, axiosDefault, hpdf i]
      simp only [hup]
      obtain ⟨hc, k, hk, hlen⟩ := ih (i + 1)
        (w.send (AdvisorUpload.uploadRequest AdvisorUpload.testimonialEndpoint w))
      refine ⟨?_, k + 1, ?_, ?_⟩
      · simp only [Option.map, AdvisorUpload.collect, hc, List.enumFrom, List.filter, hd,
          List.map]
      · rw [hk]
        simp [World.send, AdvisorUpload.uploadRequest, List.replicate_succ]
      · simp only [List.enumFrom, List.filter, hd, List.length_cons, hlen]
    · rw [if_neg hq]
      have hd :
          decide (t.clientName ≠ "" ∧ t.testimonial ≠ "" ∧ t.pdfFile ≠ none) = false :=
        decide_eq_false (fun h => hq ((qualifies_iff t).2 h))
      obtain ⟨hc, k, hk, hlen⟩ := ih (i + 1) w
      refine ⟨?_, k, hk, ?_⟩
      · simp only [AdvisorUpload.collect, hc, List.enumFrom, List.filter, hd]
      · simp only [List.enumFrom, List.filter, hd, hlen]

/-- C28: in `onSubmit` of the upload page, with a logo selected and all
uploads succeeding, a profile payload that is sent carries the address of the
logo upload and exactly the form entries whose client name, testimonial text
and PDF file are all non-empty, in their original order, each with the address
its own PDF upload returned; when the stored profile parses and an entry
qualifies the profile request is issued with that payload, after the logo
upload and one upload per qualifying entry; when no entry qualifies no
payload is sent and no request goes to the profile endpoint. -/
theorem upload_payload_is_qualifying_entries (parses : String → Bool) (file : String)
    (testimonials : List AdvisorUpload.Testimonial) (logoStatus : Nat)
    (logoData : AdvisorUpload.UploadData) (pdfStatus : Nat → Nat)
    (pdfData : Nat → AdvisorUpload.UploadData) (profileNet : HttpOutcome Unit) (w : World)
    (sent : List AdvisorUpload.SentTestimonial)
    (hlogo : 200 ≤ logoStatus ∧ logoStatus < 300)
    (hpdf : ∀ i, 200 ≤ pdfStatus i ∧ pdfStatus i < 300)
    (hsent : sent = ((testimonials.enum.filter (fun it => decide (it.2.clientName ≠ "" ∧
        it.2.testimonial ≠ "" ∧ it.2.pdfFile ≠ none))).map
        (fun it => ⟨it.2.clientName, it.2.testimonial, (pdfData it.1).url⟩))) :
    (∀ p, (AdvisorUpload.onSubmit parses (some file) testimonials
          (.response logoStatus logoData) (fun i => .response (pdfStatus i) (pdfData i))
          profileNet w).payload = some p →
      p.testimonials = sent ∧ p.logoUrl = logoData.url) ∧
    ((∀ text, w.sessionStorage.getItem "advisor-profile" = some text → parses text = true) →
      sent ≠ [] →
      (AdvisorUpload.onSubmit parses (some file) testimonials
          (.response logoStatus logoData) (fun i => .response (pdfStatus i) (pdfData i))
          profileNet w).payload
        = some ⟨w.sessionStorage.getItem "advisor-profile", logoData.url, sent⟩ ∧
      (AdvisorUpload.onSubmit parses (some file) testimonials
          (.response logoStatus logoData) (fun i => .response (pdfStatus i) (pdfData i))
          profileNet w).world.requests
        = w.requests ++ AdvisorUpload.uploadRequest AdvisorUpload.logoEndpoint w ::
            List.replicate sent.length
              (AdvisorUpload.uploadRequest AdvisorUpload.testimonialEndpoint w)
          ++ [AdvisorUpload.profileRequest w]) ∧
    (sent = [] →
      (AdvisorUpload.onSubmit parses (some file) testimonials
          (.response logoStatus logoData) (fun i => .response (pdfStatus i) (pdfData i))
          profileNet w).payload = none ∧
      ∃ new, (AdvisorUpload.onSubmit parses (some file) testimonials
          (.response logoStatus logoData) (fun i => .response (pdfStatus i) (pdfData i))
          profileNet w).world.requests = w.requests ++ new ∧
        ∀ request ∈ new, request.url ≠ BACKEND_URL ++ "/api/advisors/profile") := by
  have hup : AdvisorUpload.handleFileUpload AdvisorUpload.logoEndpoint
      (.response logoStatus logoData) w
      = (some logoData.url,
         w.send (AdvisorUpload.uploadRequest AdvisorUpload.logoEndpoint w)) := by
    simp [AdvisorUpload.handleFileUpload, axiosDefault, hlogo]
  obtain ⟨hc, k, hk, hlen⟩ := uploadTestimonials_ok pdfStatus pdfData hpdf testimonials 0
    (w.send (AdvisorUpload.uploadRequest AdvisorUpload.logoEndpoint w))
  rw [← List.enum, ← hsent] at hc
  have hk2 : k = sent.length := by rw [hlen, hsent, List.length_map, List.enum]
  have hurl : (AdvisorUpload.uploadRequest AdvisorUpload.logoEndpoint w).url
      ≠ BACKEND_URL ++ "/api/advisors/profile" := by
    show AdvisorUpload.logoEndpoint ≠ _
    decide
  have hturl : (AdvisorUpload.uploadRequest AdvisorUpload.testimonialEndpoint w).url
      ≠ BACKEND_URL ++ "/api/advisors/profile" := by
    show AdvisorUpload.testimonialEndpoint ≠ _
    decide
  unfold AdvisorUpload.onSubmit
  simp only [hup, hc]
  by_cases hparse : (match w.sessionStorage.getItem "advisor-profile" with
      | some text => parses text
      | none => true) = false
  · rw [if_pos hparse]
    refine ⟨fun p hp => ?_, fun hp => ?_, fun _ => ⟨rfl, [], by simp [AdvisorUpload.failed,
      World.toast], by simp⟩⟩
    · simp [AdvisorUpload.failed] at hp
    · exfalso
      cases hst : w.sessionStorage.getItem "advisor-profile" with
      | none => rw [hst] at hparse; simp at hparse
      | some text => rw [hst] at hparse; simp [hp text hst] at hparse
  · rw [if_neg hparse]
    by_cases hempty : sent.length = 0
    · rw [if_pos hempty]
      have hnil : sent = [] := List.length_eq_zero.1 hempty
      refine ⟨fun p hp => ?_, fun _ hne => absurd hnil hne, fun _ => ⟨rfl, ?_⟩⟩
      · simp at hp
      · refine ⟨[AdvisorUpload.uploadRequest AdvisorUpload.logoEndpoint w], ?_, ?_⟩
        · rw [hk, hk2, hempty]
          simp [World.toast, World.send]
        · simpa using hurl
    · rw [if_neg hempty]
      have hne : sent ≠ [] := fun h => hempty (by rw [h]; rfl)
      constructor
      · intro p hp
        cases hnet : axiosDefault profileNet with
        | none =>
          rw [hnet] at hp
          simp only [Option.some.injEq] at hp
          rw [← hp]
          exact ⟨rfl, rfl⟩
        | some u =>
          rw [hnet] at hp
          simp only [Option.some.injEq] at hp
          rw [← hp]
          exact ⟨rfl, rfl⟩
      constructor
      · intro _ _
        rw [hk, hk2]
        cases hnet : axiosDefault profileNet with
        | none =>
          refine ⟨rfl, ?_⟩
          simp [World.toast, World.send, AdvisorUpload.profileRequest,
            AdvisorUpload.uploadRequest]
        | some u =>
          refine ⟨rfl, ?_⟩
          simp [World.toast, World.send, World.navigate, AdvisorUpload.profileRequest,
            AdvisorUpload.uploadRequest]
      · intro h
        exact absurd h hne

/-- Witness of `upload_payload_is_qualifying_entries`: of three entries the
first and the third are complete; the payload holds these two, each with the
address of its own upload. -/
theorem upload_payload_is_qualifying_entries_witness :
    (AdvisorUpload.onSubmit (fun _ => true) (some "logo.png")
        [fullTestimonial, textOnlyTestimonial, secondTestimonial]
        (.response 200 ⟨some "https://cdn.example.com/logo.png"⟩)
        (fun i => .response 201 (samplePdfData i)) (.response 201 ()) loggedInWorld).payload
      = some ⟨none, some "https://cdn.example.com/logo.png",
          [⟨"Ann", "Great work", some "https://cdn.example.com/0.pdf"⟩,
           ⟨"Bob", "Reliable", some "https://cdn.example.com/2.pdf"⟩]⟩ :=
  ((upload_payload_is_qualifying_entries (fun _ => true) "logo.png"
      [fullTestimonial, textOnlyTestimonial, secondTestimonial] 200
      ⟨some "https://cdn.example.com/logo.png"⟩ (fun _ => 201) samplePdfData (.response 201 ())
      loggedInWorld
      [⟨"Ann", "Great work", some "https://cdn.example.com/0.pdf"⟩,
       ⟨"Bob", "Reliable", some "https://cdn.example.com/2.pdf"⟩]
      (by decide) (fun _ => (by decide : 200 ≤ 201 ∧ 201 < 300)) (by decide)).2.1
      (fun _ _ => rfl) (by decide)).1

/-! ## Theorems: the password policies -/

/-- An element that `p` rejects survives `dropWhile p`. -/
theorem mem_dropWhile_of_not (p : Char → Bool) (c : Char) (hc : p c = false) :
    ∀ l : List Char, c ∈ l → c ∈ l.dropWhile p := by
  intro l
  induction l with
  | nil => intro h; exact h
  | cons a l ih =>
    intro h
    rw [List.dropWhile_cons]
    by_cases ha : p a = true
    · rw [if_pos ha]
      rcases List.mem_cons.1 h with rfl | h
      · rw [hc] at ha; exact absurd ha (by decide)
      · exact ih h
    · rw [if_neg ha]; exact h

/-- A string with an uppercase letter is not blank. -/
theorem jsTrim_ne_empty_of_upper (s : String) (h : testClass isUpperAZ s = true) :
    jsTrim s ≠ "" := by
  unfold testClass at h
  rw [List.any_eq_true] at h
  obtain ⟨c, hc, hup⟩ := h
  have hws : isJsWhitespace c = false := by
    simp only [isUpperAZ, Bool.and_eq_true, decide_eq_true_eq] at hup
    simp only [isJsWhitespace, Bool.or_eq_false_iff, Bool.and_eq_false_iff, beq_eq_false_iff_ne,
      decide_eq_false_iff_not]
    omega
  have h1 := mem_dropWhile_of_not isJsWhitespace c hws _ hc
  have h2 := mem_dropWhile_of_not isJsWhitespace c hws _ (List.mem_reverse.2 h1)
  intro hempty
  have hdata := congrArg String.data hempty
  simp only [jsTrim] at hdata
  have hnil : ((s.data.dropWhile isJsWhitespace).reverse.dropWhile isJsWhitespace) = [] := by
    simpa using hdata
  rw [hnil] at h2
  exact absurd h2 (List.not_mem_nil _)

/-- C29: the password policies are nested.  A password the reset-password
schema accepts passes the password checks of `AdvisorRegister.validateForm`
(the form is valid whenever its other fields are); the password of a form
`validateForm` accepts is accepted by `validatePassword` of both login pages;
and `checkPasswordStrength` of both login pages never rates it `Weak`. -/
theorem password_policies_nested :
    (∀ f : AdvisorRegister.FormData, ResetPassword.newPasswordSchema f.password = true →
      jsTrim f.firstName ≠ "" → jsTrim f.lastName ≠ "" → jsTrim f.email ≠ "" →
      matchAtoms emailRegex f.email.data = true → AdvisorRegister.validateForm f = none) ∧
    (∀ f : AdvisorRegister.FormData, AdvisorRegister.validateForm f = none →
      Auth.validatePassword f.password = "" ∧ AdvisorAuth.validatePassword f.password = "" ∧
      Auth.checkPasswordStrength f.password ≠ "Weak" ∧
      AdvisorAuth.checkPasswordStrength f.password ≠ "Weak") := by
  constructor
  · intro f h h1 h2 h3 h4
    simp only [ResetPassword.newPasswordSchema, Bool.and_eq_true, decide_eq_true_eq] at h
    obtain ⟨⟨⟨⟨hlen, hup⟩, -⟩, hdig⟩, -⟩ := h
    have htrim := jsTrim_ne_empty_of_upper f.password hup
    unfold AdvisorRegister.validateForm
    rw [if_neg h1, if_neg h2, if_neg h3, if_neg (by rw [h4]; decide), if_neg htrim,
      if_neg (by omega), if_neg (by rw [hup]; decide), if_neg (by rw [hdig]; decide)]
  · intro f h
    unfold AdvisorRegister.validateForm at h
    split_ifs at h with h1 h2 h3 h4 h5 h6 h7 h8
    have hne : f.password ≠ "" := by
      intro he
      apply h5
      rw [he]
      decide
    have hlen : 8 ≤ jsLength f.password := by omega
    have hup : testClass isUpperAZ f.password = true := by simpa using h7
    have hdig : testClass isDigit09 f.password = true := by simpa using h8
    have hstrength : 3 ≤ Auth.strength f.password := by
      unfold Auth.strength
      rw [if_pos hlen, if_pos hup, if_pos hdig]
      omega
    have hweak : ¬ Auth.strength f.password ≤ 2 := by omega
    refine ⟨?_, ?_, ?_, ?_⟩
    · unfold Auth.validatePassword
      rw [if_neg hne, if_neg h6]
    · unfold AdvisorAuth.validatePassword
      rw [if_neg hne, if_neg h6]
    · unfold Auth.checkPasswordStrength
      rw [if_neg hweak]
      split_ifs <;> decide
    · unfold AdvisorAuth.checkPasswordStrength
      rw [if_neg hweak]
      split_ifs <;> decide

/-- Witness of `password_policies_nested`: the password `Passw0rdX` in a
filled register form. -/
theorem password_policies_nested_witness :
    ResetPassword.newPasswordSchema "Passw0rdX" = true ∧
    AdvisorRegister.validateForm ⟨"Ada", "Lovelace", "ada@example.com", "Passw0rdX"⟩ = none ∧
    Auth.validatePassword "Passw0rdX" = "" ∧ AdvisorAuth.validatePassword "Passw0rdX" = "" ∧
    Auth.checkPasswordStrength "Passw0rdX" ≠ "Weak" ∧
    AdvisorAuth.checkPasswordStrength "Passw0rdX" ≠ "Weak" :=
  ⟨by decide,
   password_policies_nested.1 ⟨"Ada", "Lovelace", "ada@example.com", "Passw0rdX"⟩ (by decide)
     (by decide) (by decide) (by decide) (by decide),
   password_policies_nested.2 ⟨"Ada", "Lovelace", "ada@example.com", "Passw0rdX"⟩ (by decide)⟩

/-! ## Theorems: the last branch of the guard -/

/-- The final fallback of the guard (the redirect to `/` when `authorized` is
false) is not taken in the render under the props with which `checkAuth` ran:
in every final state of a mount in which a user is set and neither the role
check nor the payment check of those props redirects, `authorized` is true,
and the guard renders its children. -/
theorem fallback_unreachable (p : Props) (net : HttpOutcome UserProfile) (w : World)
    (user : UserProfile) (huser : (mount p net w).2.user = some user)
    (hrole : ¬ (truthy p.requiredRole = true ∧ some user.role ≠ p.requiredRole))
    (hpay : ¬ (p.paymentRequired = true ∧ user.role = "advisor"
      ∧ user.isPaymentVerified = false)) :
    (mount p net w).2.authorized = true ∧ (mount p net w).2.loading = false ∧
    finalRender p net w = .children := by
  by_cases htr : truthy (w.localStorage.getItem "access_token") = false
  · rw [mount_no_token p net w htr] at huser
    cases huser
  · obtain ⟨token, htok, hne⟩ : ∃ token, w.localStorage.getItem "access_token" = some token
        ∧ token ≠ "" := by
      cases hg : w.localStorage.getItem "access_token" with
      | none => simp [hg, truthy] at htr
      | some t => exact ⟨t, rfl, by simpa [hg, truthy] using htr⟩
    cases hnet : axiosDefault net with
    | none =>
      rw [mount_fetch_failed p net w token htok hne hnet] at huser
      cases huser
    | some u =>
      have hm := mount_fetch_ok p net w token htok hne u hnet
      rw [hm] at huser
      have hu : u = user := Option.some.inj huser
      subst hu
      unfold finalRender
      rw [hm]
      have hd : decide (¬ (truthy p.requiredRole = true ∧ some u.role ≠ p.requiredRole) ∧
          ¬ (p.paymentRequired = true ∧ u.role = "advisor" ∧ u.isPaymentVerified = false))
          = true := decide_eq_true ⟨hrole, hpay⟩
      refine ⟨hd, rfl, ?_⟩
      rw [render_with_user, if_neg hrole, if_neg hpay, hd]
      simp

/-- Witness of `fallback_unreachable`: an advisor on an advisor page. -/
theorem fallback_unreachable_witness :
    (mount advisorGuard (.response 200 unpaidAdvisor) loggedInWorld).2.authorized = true ∧
    (mount advisorGuard (.response 200 unpaidAdvisor) loggedInWorld).2.loading = false ∧
    finalRender advisorGuard (.response 200 unpaidAdvisor) loggedInWorld = .children :=
  fallback_unreachable advisorGuard (.response 200 unpaidAdvisor) loggedInWorld unpaidAdvisor
    rfl (by decide) (by decide)

/-- C30: an advisor with a stored token opens `/seller-dashboard` and is
redirected to `/advisor-dashboard`, where the router keeps the guard instance.
`checkAuth` has finished, the kept state holds the advisor profile, neither
the role check nor the payment check of the guard of `/advisor-dashboard`
redirects, and yet `authorized` is false: the render takes the final fallback
and redirects to `/`. -/
theorem fallback_reached_by_kept_instance :
    (mount sellerGuard (.response 200 unpaidAdvisor) loggedInWorld).2
      = { loading := false, user := some unpaidAdvisor, authorized := false } ∧
    ¬ (truthy advisorGuard.requiredRole = true
        ∧ some unpaidAdvisor.role ≠ advisorGuard.requiredRole) ∧
    ¬ (advisorGuard.paymentRequired = true ∧ unpaidAdvisor.role = "advisor"
        ∧ unpaidAdvisor.isPaymentVerified = false) ∧
    render advisorGuard (mount sellerGuard (.response 200 unpaidAdvisor) loggedInWorld).2
      = .navigate "/" ∧
    keptRender (mount sellerGuard (.response 200 unpaidAdvisor) loggedInWorld).2
      "/advisor-dashboard"
      = some (render advisorGuard
          (mount sellerGuard (.response 200 unpaidAdvisor) loggedInWorld).2) := by
  refine ⟨?_, ?_, ?_, ?_, ?_⟩ <;> decide

end CimAmplify
